import Mathlib

/-!
MyPlanner front end: the session / credential layer.

A shallow embedding of `src/api/client.js` (the in-memory credential store,
`getCookie`, the request interceptor and the response error handler of
`apiClient`) and theorems about it.

Modelling conventions.

* JavaScript strings are Lean `String`s; every string operation of the source
  is carried out on the list of characters (`String.data`).  The separators the
  source splits on start with `;` and end with `=` or `;`, so splitting by code
  points agrees with JavaScript's splitting by UTF-16 code units on well-formed
  strings.
* A value that may be `null`, `undefined` or a string is a `JsVal`.
* The network is a stream of replies `Nat → Reply`: the `n`-th exchange the
  client makes (whatever its kind) receives reply `n`.  A reply may replace
  `document.cookie` (the effect of `Set-Cookie`).
* One logical call is run in isolation: nothing else touches the credential
  store, the cookie jar or the location while it is in flight.
-/

namespace MyPlanner

/-! ## JavaScript values -/

/-- A JavaScript value as far as the session layer looks at it: `null`,
`undefined` or a string. -/
inductive JsVal where
  | null
  | undefined
  | str (s : String)
  deriving DecidableEq, Repr

/-- JavaScript truthiness (`if (v)`): `null`, `undefined` and the empty string
are falsy. -/
def JsVal.truthy : JsVal → Bool
  | .null => false
  | .undefined => false
  | .str s => !s.data.isEmpty

/-- Conversion to string as done by a template literal. -/
def JsVal.toStr : JsVal → String
  | .null => "null"
  | .undefined => "undefined"
  | .str s => s

/-! ## The credential store (client.js, lines 22-43) -/

/-- The function `setAccessToken(token)`: `accessTokenMemory = token`. -/
def setAccessToken (token : JsVal) (_accessTokenMemory : JsVal) : JsVal :=
  token

/-- The function `getAccessToken()`: returns `accessTokenMemory`; the second component is the
slot after the call. -/
def getAccessToken (accessTokenMemory : JsVal) : JsVal × JsVal :=
  (accessTokenMemory, accessTokenMemory)

/-- The function `clearAccessToken()`: `accessTokenMemory = null`. -/
def clearAccessToken (_accessTokenMemory : JsVal) : JsVal :=
  .null

/-- One call on the credential store. -/
inductive StoreOp where
  | set (token : JsVal)
  | get
  | clear
  deriving DecidableEq, Repr

/-- The slot after one call on the store. -/
def StoreOp.apply : StoreOp → JsVal → JsVal
  | .set t, m => setAccessToken t m
  | .get, m => (getAccessToken m).2
  | .clear, m => clearAccessToken m

/-- The slot after a sequence of calls, oldest first. -/
def runStore (ops : List StoreOp) (m : JsVal) : JsVal :=
  ops.foldl (fun acc op => op.apply acc) m

/-- The call is a `setAccessToken`. -/
def StoreOp.isSet : StoreOp → Bool
  | .set _ => true
  | _ => false

/-! ## Strings: `split`, `includes`, `toLowerCase` -/

/-- Worker of `jsSplit`: `skip` characters of a matched separator are still to
be dropped, `cur` is the current piece, reversed. -/
def jsSplitGo (sep : List Char) : Nat → List Char → List Char → List (List Char)
  | _, cur, [] => [cur.reverse]
  | skip + 1, cur, _ :: cs => jsSplitGo sep skip cur cs
  | 0, cur, c :: cs =>
    if sep.isPrefixOf (c :: cs) then
      cur.reverse :: jsSplitGo sep (sep.length - 1) [] cs
    else
      jsSplitGo sep 0 (c :: cur) cs

/-- JavaScript `s.split(sep)` for a non-empty separator `sep`: cut at every occurrence of
`sep`, scanning left to right. -/
def jsSplit (s sep : List Char) : List (List Char) :=
  jsSplitGo sep 0 [] s

/-- JavaScript `s.includes(needle)`. -/
def jsIncludes (needle : List Char) : List Char → Bool
  | [] => needle.isPrefixOf []
  | c :: cs => needle.isPrefixOf (c :: cs) || jsIncludes needle cs

/-- JavaScript `s.toLowerCase()`.  Only the ASCII letters are mapped; no other character
lowercases to a letter of `post`, `put`, `delete` or `patch`, so membership in
that list is the same as with JavaScript's full mapping. -/
def toLowerCase (s : String) : String :=
  ⟨s.data.map Char.toLower⟩

/-! ## `getCookie` (client.js, lines 59-64) -/

/-- The function `getCookie(name)` on `document.cookie = cookie`; `none` is `null`. -/
def getCookie (cookie name : String) : Option String :=
  let value := "; ".data ++ cookie.data
  let parts := jsSplit value ("; ".data ++ name.data ++ "=".data)
  if parts.length = 2 then
    -- `parts.pop().split(';').shift()`
    match parts.getLast? with
    | some last => (jsSplit last [';']).head?.map String.mk
    | none => none
  else
    none

/-- JavaScript truthiness of what `getCookie` returns. -/
def cookieTruthy : Option String → Bool
  | none => false
  | some s => !s.data.isEmpty

/-! ## Requests, replies and the world -/

/-- The value of header `name`, `none` when the header is not there. -/
def getHeader (headers : List (String × String)) (name : String) : Option String :=
  headers.lookup name

/-- Property assignment `headers[name] = value`: an existing entry is
overwritten in place, a new one is added at the end. -/
def setHeader (headers : List (String × String)) (name value : String) :
    List (String × String) :=
  if headers.any (fun p => p.1 == name) then
    headers.map (fun p => if p.1 == name then (name, value) else p)
  else
    headers ++ [(name, value)]

/-- An axios request configuration; `_retry` and `_csrfRetry` are the two
markers the response interceptor puts on it (`false` when not there). -/
structure Config where
  url : String
  method : Option String
  headers : List (String × String)
  data : String
  _retry : Bool
  _csrfRetry : Bool
  deriving DecidableEq, Repr

/-- The `data` of a successful response: `nullish` is `null`/`undefined`
(reading a property of it throws), otherwise the value of its `access_token`
property (`undefined` when it has none) and the rest of the body. -/
inductive Body where
  | nullish
  | object (access_token : JsVal) (payload : String)
  deriving DecidableEq, Repr

/-- A fulfilled axios response. -/
structure Response where
  status : Nat
  data : Body
  deriving DecidableEq, Repr

/-- An element of an array: a string, or any other value with the text that
`join` renders it as (empty for `null` and `undefined`). -/
inductive DetailItem where
  | str (s : String)
  | other (text : String)
  deriving DecidableEq, Repr

/-- The text of an element in `String(array)`. -/
def DetailItem.text : DetailItem → String
  | .str s => s
  | .other text => text

/-- The value of `response.data?.detail`: `absent` is `undefined` or `null`
(also when the body is nullish or has no such property); `other` is a number,
a boolean or an object, `truthy` its truthiness (false for `0` and `false`)
and `text` what `String` makes of it (`[object Object]` for an object). -/
inductive Detail where
  | absent
  | str (s : String)
  | array (items : List DetailItem)
  | other (truthy : Bool) (text : String)
  deriving DecidableEq, Repr

/-- The `response` of a rejected request: the status and
`response.data?.detail`. -/
structure ErrResponse where
  status : Nat
  detail : Detail
  deriving DecidableEq, Repr

/-- A rejection value: an axios error (`response = none` for a network error)
or any other thrown error. -/
structure JsError where
  message : String
  response : Option ErrResponse
  deriving DecidableEq, Repr

/-- How a promise settles. -/
inductive Outcome where
  | resolved (response : Response)
  | rejected (error : JsError)
  deriving DecidableEq, Repr

/-- What comes back from one network exchange: how the request settles and,
when the response sets cookies, the new `document.cookie`. -/
structure Reply where
  outcome : Outcome
  setCookie : Option String
  deriving DecidableEq, Repr

/-- What the client does that is visible outside. -/
inductive Event where
  | send (config : Config)
  | prime
  | refresh
  | redirect
  deriving DecidableEq, Repr

/-- The state a logical call runs in. -/
structure World where
  accessTokenMemory : JsVal
  cookie : String
  pathname : String
  clock : Nat
  log : List Event
  deriving DecidableEq, Repr

/-- One network exchange: the reply is the next one of the stream, the cookie
jar follows the reply, the event is logged. -/
def exchange (server : Nat → Reply) (ev : Event) (w : World) : Outcome × World :=
  let reply := server w.clock
  (reply.outcome,
    { w with clock := w.clock + 1, cookie := reply.setCookie.getD w.cookie, log := w.log ++ [ev] })

/-- A `TypeError`: thrown by reading a property of `null` or `undefined`, or by
calling what is not a function. -/
def typeError : JsError :=
  { message := "TypeError", response := none }

/-! ## The request interceptor (client.js, lines 70-89) -/

/-- The test `['post', 'put', 'delete', 'patch'].includes(config.method?.toLowerCase())`. -/
def stateChanging (method : Option String) : Bool :=
  match method with
  | none => false
  | some m => ["post", "put", "delete", "patch"].contains (toLowerCase m)

/-- The fulfilled handler of `apiClient.interceptors.request.use`. -/
def requestInterceptor (accessTokenMemory : JsVal) (cookie : String) (config : Config) :
    Config :=
  let token := (getAccessToken accessTokenMemory).1
  let config :=
    if token.truthy then
      { config with headers := setHeader config.headers "Authorization" ("Bearer " ++ token.toStr) }
    else config
  let csrfToken := getCookie cookie "XSRF-TOKEN"
  match csrfToken with
  | some t =>
    if cookieTruthy csrfToken && stateChanging config.method then
      { config with headers := setHeader config.headers "X-XSRF-TOKEN" t }
    else config
  | none => config

/-! ## The response interceptor (client.js, lines 100-179) -/

/-- The call `detail?.includes('CSRF')`: `String.prototype.includes` on a
string, `Array.prototype.includes` on an array, `undefined` (falsy) on an
absent detail; `none` when it throws a `TypeError`, the detail being a number,
a boolean or an object, which have no `includes`. -/
def detailIncludesCsrf : Detail → Option Bool
  | .absent => some false
  | .str d => some (jsIncludes "CSRF".data d.data)
  | .array items => some (items.contains (.str "CSRF"))
  | .other _ _ => none

/-- The test `error.response && error.response.status === 403 &&
error.response.data?.detail?.includes('CSRF')`, left to right: its truthiness,
`none` when evaluating it throws. -/
def csrfTest (error : JsError) : Option Bool :=
  match error.response with
  | none => some false
  | some r => if r.status = 403 then detailIncludesCsrf r.detail else some false

/-- The test `csrfTest` evaluates to true: a 403 anti-forgery mismatch. -/
def isCsrfMismatch (error : JsError) : Bool :=
  csrfTest error == some true

/-- The test `error.response && error.response.status === 401`. -/
def isUnauthorized (error : JsError) : Bool :=
  match error.response with
  | none => false
  | some r => r.status == 401

/-- The statement `if (csrfToken) originalRequest.headers['X-XSRF-TOKEN'] = csrfToken` with
`csrfToken = getCookie('XSRF-TOKEN')` (lines 127-130 and 158-161). -/
def attachCsrf (cookie : String) (originalRequest : Config) : Config :=
  match getCookie cookie "XSRF-TOKEN" with
  | some t =>
    if cookieTruthy (some t) then
      { originalRequest with headers := setHeader originalRequest.headers "X-XSRF-TOKEN" t }
    else originalRequest
  | none => originalRequest

/-- The `catch (refreshError)` block, lines 164-174. -/
def refreshFailed (refreshError : JsError) (w : World) : Outcome × World :=
  let w := { w with accessTokenMemory := clearAccessToken w.accessTokenMemory }
  let w := if w.pathname ≠ "/" then { w with pathname := "/", log := w.log ++ [Event.redirect] } else w
  (.rejected refreshError, w)

/-- The rejected handler of `apiClient.interceptors.response.use`, lines
112-178; `resend` is `apiClient(originalRequest)`. -/
def responseErrorHandler (resend : Config → World → Option (Outcome × World))
    (server : Nat → Reply) (error : JsError) (originalRequest : Config) (w : World) :
    Option (Outcome × World) :=
  match csrfTest error with
  | none =>
    -- the `async` handler throws while it evaluates the first condition
    some (.rejected typeError, w)
  | some csrf =>
    if csrf && !originalRequest._csrfRetry then
      let originalRequest := { originalRequest with _csrfRetry := true }
      match exchange server .prime w with
      | (.rejected csrfError, w) => some (.rejected csrfError, w)
      | (.resolved _, w) => resend (attachCsrf w.cookie originalRequest) w
    else if isUnauthorized error && !originalRequest._retry then
      let originalRequest := { originalRequest with _retry := true }
      match exchange server .refresh w with
      | (.rejected refreshError, w) => some (refreshFailed refreshError w)
      | (.resolved refreshResponse, w) =>
        match refreshResponse.data with
        | .nullish => some (refreshFailed typeError w)
        | .object newAccessToken _ =>
          let w :=
            { w with accessTokenMemory := setAccessToken newAccessToken w.accessTokenMemory }
          let originalRequest :=
            { originalRequest with
              headers := setHeader originalRequest.headers "Authorization"
                ("Bearer " ++ newAccessToken.toStr) }
          resend (attachCsrf w.cookie originalRequest) w
    else
      some (.rejected error, w)

/-- The call `apiClient(config)`: the request interceptor, the exchange, then the
response interceptor (the fulfilled handler returns the response as it is).
`fuel` bounds the number of times the request is put on the wire; `none`
means the bound was hit. -/
def apiClient (server : Nat → Reply) : Nat → Config → World → Option (Outcome × World)
  | 0, _, _ => none
  | fuel + 1, config, w =>
    let config := requestInterceptor w.accessTokenMemory w.cookie config
    match exchange server (.send config) w with
    | (.resolved response, w) => some (.resolved response, w)
    | (.rejected error, w) => responseErrorHandler (apiClient server fuel) server error config w

/-- Number of priming calls in a log. -/
def primeCount (log : List Event) : Nat :=
  log.count .prime

/-- Number of refresh calls in a log. -/
def refreshCount (log : List Event) : Nat :=
  log.count .refresh

/-- The request configurations put on the wire, in order. -/
def sends : List Event → List Config
  | [] => []
  | .send c :: rest => c :: sends rest
  | _ :: rest => sends rest

/-- The stream that plays `replies` and then answers every further exchange
with `last`. -/
def script (replies : List Reply) (last : Reply) : Nat → Reply :=
  fun n => replies.getD n last

/-- How many of the two retries a request still has. -/
def budget (c : Config) : Nat :=
  (if c._retry then 0 else 1) + (if c._csrfRetry then 0 else 1)

/-- From one send to the next: no marker is reset and one more is set. -/
def flagStep (a b : Config) : Prop :=
  (a._retry = true → b._retry = true) ∧ (a._csrfRetry = true → b._csrfRetry = true) ∧
    budget b < budget a

instance (a b : Config) : Decidable (flagStep a b) := by
  unfold flagStep; infer_instance

/-! ## The session context (auth.js, AuthContext.jsx) -/

/-- How the promise of an `async` function settles: with a value or with a
thrown error. -/
inductive Settled (α : Type) where
  | fulfilled (value : α)
  | rejected (error : JsError)
  deriving DecidableEq, Repr

/-- The object `{ success: true }` that `login` and `register` return. -/
structure Success where
  success : Bool
  deriving DecidableEq, Repr

/-- The state of `AuthProvider`: `user` and `loading`. -/
structure AuthState where
  user : JsVal
  loading : Bool
  deriving DecidableEq, Repr

/-- The provider when it mounts: `useState(null)` and `useState(true)`. -/
def AuthState.initial : AuthState :=
  { user := .null, loading := true }

/-- The flag `isAuthenticated: !!user`. -/
def isAuthenticated (auth : AuthState) : Bool :=
  auth.user.truthy

/-- The page: what `client.js` works on, the provider state, and the two
durable stores of the browser next to the cookie jar. -/
structure App where
  world : World
  auth : AuthState
  localStorage : List (String × String)
  sessionStorage : List (String × String)
  deriving DecidableEq, Repr

/-- A record of named strings as text, `name=value` joined by `&`: it stands
for the object or the `URLSearchParams` that a caller passes as `data`. -/
def fieldsText (fields : List (String × String)) : String :=
  String.intercalate "&" (fields.map fun p => p.1 ++ "=" ++ p.2)

/-- The request of `apiClient.post('/auth/register', { name_user, password })`. -/
def registerRequest (name_user password : String) : Config :=
  { url := "/auth/register", method := some "post", headers := [],
    data := fieldsText [("name_user", name_user), ("password", password)],
    _retry := false, _csrfRetry := false }

/-- The request of `apiClient.post('/auth/login', formData, ...)` with
`username` and `password` appended to `formData`. -/
def loginRequest (username password : String) : Config :=
  { url := "/auth/login", method := some "post",
    headers := [("Content-Type", "application/x-www-form-urlencoded")],
    data := fieldsText [("username", username), ("password", password)],
    _retry := false, _csrfRetry := false }

/-- The function `registerUser` of auth.js: the `data` of the response. -/
def registerUser (server : Nat → Reply) (fuel : Nat) (name_user password : String)
    (w : World) : Option (Settled Body × World) :=
  match apiClient server fuel (registerRequest name_user password) w with
  | none => none
  | some (.resolved response, w) => some (.fulfilled response.data, w)
  | some (.rejected error, w) => some (.rejected error, w)

/-- The function `loginUser` of auth.js: the `data` of the response. -/
def loginUser (server : Nat → Reply) (fuel : Nat) (username password : String)
    (w : World) : Option (Settled Body × World) :=
  match apiClient server fuel (loginRequest username password) w with
  | none => none
  | some (.resolved response, w) => some (.fulfilled response.data, w)
  | some (.rejected error, w) => some (.rejected error, w)

/-- The expression `new Error(message)`: an error with no `response`. -/
def newError (message : String) : JsError :=
  { message := message, response := none }

/-- The message of `new Error(error.response?.data?.detail || fallback)`: the
detail when it is truthy, as `String` renders it (an array is always truthy
and renders as its elements joined by `,`), the fallback otherwise. -/
def detailOr (error : JsError) (fallback : String) : String :=
  match error.response with
  | none => fallback
  | some r =>
    match r.detail with
    | .absent => fallback
    | .str d => if d.data.isEmpty then fallback else d
    | .array items => ",".intercalate (items.map DetailItem.text)
    | .other truthy text => if truthy then text else fallback

/-- The function `login` of `AuthProvider` (AuthContext.jsx, lines 74-91). -/
def login (server : Nat → Reply) (fuel : Nat) (username password : String) (app : App) :
    Option (Settled Success × App) :=
  match loginUser server fuel username password app.world with
  | none => none
  | some (.fulfilled data, w) =>
    match data with
    | .nullish =>
      -- `data.access_token` throws inside the `try`
      some (.rejected (newError (detailOr typeError "Errore durante il login")),
        { app with world := w })
    | .object access_token _ =>
      some (.fulfilled { success := true },
        { app with
          world := { w with accessTokenMemory := setAccessToken access_token w.accessTokenMemory },
          auth := { app.auth with user := .str username } })
  | some (.rejected error, w) =>
    some (.rejected (newError (detailOr error "Errore durante il login")),
      { app with world := w })

/-- The function `register` of `AuthProvider` (AuthContext.jsx, lines 101-114). -/
def register (server : Nat → Reply) (fuel : Nat) (name_user password : String) (app : App) :
    Option (Settled Success × App) :=
  match registerUser server fuel name_user password app.world with
  | none => none
  | some (.rejected error, w) =>
    some (.rejected (newError (detailOr error "Errore durante la registrazione")),
      { app with world := w })
  | some (.fulfilled _, w) =>
    match login server fuel name_user password { app with world := w } with
    | none => none
    | some (.rejected error, app) =>
      some (.rejected (newError (detailOr error "Errore durante la registrazione")), app)
    | some (.fulfilled _, app) => some (.fulfilled { success := true }, app)

/-- The function `logout` of `AuthProvider` (AuthContext.jsx, lines 121-130). -/
def logout (app : App) : App :=
  { app with
    world := { app.world with accessTokenMemory := clearAccessToken app.world.accessTokenMemory },
    auth := { app.auth with user := .null } }

/-- The end of `initializeAuth`, lines 52-60: the token check and
`setLoading(false)`. -/
def checkToken (w : World) (app : App) : App :=
  let token := (getAccessToken w.accessTokenMemory).1
  let auth := if token.truthy then { app.auth with user := .str "authenticated" } else app.auth
  { app with world := w, auth := { auth with loading := false } }

/-- The function `initializeAuth` of the mount effect (AuthContext.jsx, lines
39-61): `fetch` of `/health` inside `try`/`catch`, then the token check. -/
def initializeAuth (server : Nat → Reply) (app : App) : Settled Unit × App :=
  match exchange server .prime app.world with
  | (.resolved _, w) => (.fulfilled (), checkToken w app)
  | (.rejected _, w) => (.fulfilled (), checkToken w app)

/-- What assigning `window.location.href` leads to: the document is loaded
anew, so the module starts from `let accessTokenMemory = null` and the
provider from its initial state; cookies and web storage stay. -/
def pageLoad (app : App) : App :=
  { app with
    world := { app.world with accessTokenMemory := .null, pathname := "/" },
    auth := AuthState.initial }

/-- A request made through `apiClient` by some component while the session is
`app.auth`; when the interceptor assigned `window.location.href` during the
call, the page is loaded anew. -/
def request (server : Nat → Reply) (fuel : Nat) (config : Config) (app : App) :
    Option (Outcome × App) :=
  match apiClient server fuel config app.world with
  | none => none
  | some (out, w) =>
    if Event.redirect ∈ w.log.drop app.world.log.length then
      some (out, pageLoad { app with world := w })
    else
      some (out, { app with world := w })

/-- The priming and refresh calls of a log, in order. -/
def recoveries : List Event → List Event
  | [] => []
  | .prime :: rest => .prime :: recoveries rest
  | .refresh :: rest => .refresh :: recoveries rest
  | _ :: rest => recoveries rest

/-! ## Cookie strings as lists of pairs -/

/-- One pair of a cookie string: `name=value`. -/
def pairText (p : String × String) : List Char :=
  p.1.data ++ '=' :: p.2.data

/-- The cookie string that lists the given pairs, separated by `; `. -/
def cookieText : List (String × String) → List Char
  | [] => []
  | [p] => pairText p
  | p :: q :: rest => pairText p ++ ';' :: ' ' :: cookieText (q :: rest)

/-- The pairs with `; ` in front of each one: the text `getCookie` splits,
`; ` followed by the cookie string, when the list is not empty. -/
def cookieBlocks : List (String × String) → List Char
  | [] => []
  | p :: rest => ';' :: ' ' :: (pairText p ++ cookieBlocks rest)

/-- A name of a pair: a text with neither `;` nor `=` in it. -/
def CookieName (name : String) : Prop :=
  ';' ∉ name.data ∧ '=' ∉ name.data

instance (name : String) : Decidable (CookieName name) := by
  unfold CookieName; infer_instance

/-- A list of `name=value` pairs whose values contain no `;`. -/
def CookiePairs (pairs : List (String × String)) : Prop :=
  ∀ p ∈ pairs, CookieName p.1 ∧ ';' ∉ p.2.data

instance (pairs : List (String × String)) : Decidable (CookiePairs pairs) := by
  unfold CookiePairs; infer_instance

/-! ## Password strength (AuthPage.jsx, lines 47-64) -/

/-- The `length` of a JavaScript string: its number of UTF-16 code units, two
for a character beyond the basic plane. -/
def jsLength (s : String) : Nat :=
  (s.data.map fun c => if c.toNat < 65536 then 1 else 2).sum

/-- The characters of the class `[!@#$%^&*()_+\-=\[\]{}|;:,.<>?]`. -/
def specialCharacters : List Char :=
  "!@#$%^&*()_+-=[]\x7b\x7d|;:,.<>?".data

/-- The function `validatePasswordStrength` of `AuthPage`; `none` is `null`. -/
def validatePasswordStrength (pwd : String) : Option String :=
  if jsLength pwd < 8 then
    some "La password deve contenere almeno 8 caratteri"
  else if !pwd.data.any (fun c => decide ('A' ≤ c ∧ c ≤ 'Z')) then
    some "La password deve contenere almeno una lettera maiuscola"
  else if !pwd.data.any (fun c => decide ('a' ≤ c ∧ c ≤ 'z')) then
    some "La password deve contenere almeno una lettera minuscola"
  else if !pwd.data.any (fun c => decide ('0' ≤ c ∧ c ≤ '9')) then
    some "La password deve contenere almeno un numero"
  else if !pwd.data.any (fun c => specialCharacters.contains c) then
    some "La password deve contenere almeno un carattere speciale (!@#$%^&*()_+-=[]\x7b\x7d|;:,.<>?)"
  else
    none

/-! ## The task list (TaskContext.jsx, lines 102-119) -/

/-- A task as the backend returns it. -/
structure TaskItem where
  id : String
  title : String
  description : String
  color : String
  date_time : String
  end_time : Option String
  duration_minutes : Option Nat
  completed : Bool
  deriving DecidableEq, Repr

/-- The function `editTask` of `TaskProvider`: `updated` is how
`updateTask(taskId, taskData)` settles, `prevTasks` the list it finds; the
result is how `editTask` settles and the list it leaves. -/
def editTask (updated : Settled TaskItem) (taskId : String) (prevTasks : List TaskItem) :
    Settled TaskItem × List TaskItem :=
  match updated with
  | .fulfilled updatedTask =>
    (.fulfilled updatedTask,
      prevTasks.map fun task => if task.id = taskId then updatedTask else task)
  | .rejected err => (.rejected err, prevTasks)

/-! ## The task form (TaskModal.jsx, lines 81-123) -/

/-- The characters `trim` removes: white space and line terminators. -/
def jsWhiteSpace (c : Char) : Bool :=
  [0x9, 0xA, 0xB, 0xC, 0xD, 0x20, 0xA0, 0x1680, 0x2028, 0x2029, 0x202F, 0x205F, 0x3000,
    0xFEFF].contains c.toNat || (0x2000 ≤ c.toNat && c.toNat ≤ 0x200A)

/-- JavaScript `s.trim()`. -/
def jsTrim (s : String) : String :=
  ⟨((s.data.dropWhile jsWhiteSpace).reverse.dropWhile jsWhiteSpace).reverse⟩

/-- The constant `EMPTY_RICH_TEXT`. -/
def EMPTY_RICH_TEXT : String :=
  "\x7b\"type\":\"doc\",\"content\":[\x7b\"type\":\"paragraph\"\x7d]\x7d"

/-- The state of the form when it is submitted. -/
structure TaskForm where
  title : String
  description : String
  color : String
  dateTime : String
  useDuration : Bool
  endDateTime : String
  durationMinutes : String
  completed : Bool
  deriving DecidableEq, Repr

/-- The payload built for `onSave`; `ν` is the type of JavaScript numbers. -/
structure TaskPayload (ν : Type) where
  title : String
  description : String
  color : String
  date_time : String
  end_time : Option String
  duration_minutes : Option ν
  completed : Bool
  deriving DecidableEq, Repr

/-- What a submit comes to: an `alert` without calling `onSave`, or the call of
`onSave` with a payload. -/
inductive Submitted (ν : Type) where
  | alert (message : String)
  | save (payload : TaskPayload ν)
  deriving DecidableEq, Repr

/-- The function `handleSubmit` of `TaskModal` up to the call of `onSave`.
`toISOString s` is `new Date(s).toISOString()`, `none` when it throws (the
`catch` then alerts); `toNumber` is `Number`. -/
def handleSubmit {ν : Type} (toISOString : String → Option String) (toNumber : String → ν)
    (form : TaskForm) : Submitted ν :=
  if (jsTrim form.title).data.isEmpty || form.dateTime.data.isEmpty then
    .alert "Compila tutti i campi obbligatori"
  else if !form.useDuration && form.endDateTime.data.isEmpty then
    .alert "Specifica una data/ora di fine oppure usa la durata."
  else if form.useDuration && form.durationMinutes.data.isEmpty then
    .alert "Inserisci una durata in minuti."
  else
    let normalizedDescription :=
      if !form.description.data.isEmpty && decide (jsLength (jsTrim form.description) > 0) then
        jsTrim form.description
      else EMPTY_RICH_TEXT
    match toISOString form.dateTime with
    | none => .alert "Errore nel salvataggio della task"
    | some date_time =>
      let duration_minutes :=
        if form.useDuration && !form.durationMinutes.data.isEmpty then
          some (toNumber form.durationMinutes)
        else none
      if !form.useDuration && !form.endDateTime.data.isEmpty then
        match toISOString form.endDateTime with
        | none => .alert "Errore nel salvataggio della task"
        | some end_time =>
          .save { title := jsTrim form.title, description := normalizedDescription,
                  color := form.color, date_time := date_time, end_time := some end_time,
                  duration_minutes := duration_minutes, completed := form.completed }
      else
        .save { title := jsTrim form.title, description := normalizedDescription,
                color := form.color, date_time := date_time, end_time := none,
                duration_minutes := duration_minutes, completed := form.completed }

/-! ## Sample inputs -/

/-- A fresh `GET /tasks` request, as `getTasks` makes it. -/
def getTasksRequest : Config :=
  { url := "/tasks", method := some "get", headers := [], data := "",
    _retry := false, _csrfRetry := false }

/-- A fresh `POST /tasks` request, as `createTask` makes it. -/
def createTaskRequest : Config :=
  { url := "/tasks", method := some "post", headers := [], data := "task",
    _retry := false, _csrfRetry := false }

/-- A `GET /tasks` request whose headers were populated on an earlier attempt. -/
def populatedRequest : Config :=
  { url := "/tasks", method := some "get", headers := [("Authorization", "Bearer t1")],
    data := "", _retry := false, _csrfRetry := true }

/-- A world with an empty store and an empty cookie jar, away from the entry
point. -/
def freshWorld : World :=
  { accessTokenMemory := .null, cookie := "", pathname := "/dashboard", clock := 0, log := [] }

/-- A 401 failure. -/
def reply401 : Reply :=
  { outcome := .rejected { message := "Request failed with status code 401",
                           response := some { status := 401, detail := .str "Token expired" } },
    setCookie := none }

/-- A 403 anti-forgery failure. -/
def replyCsrf : Reply :=
  { outcome := .rejected { message := "Request failed with status code 403",
                           response := some { status := 403, detail := .str "CSRF token missing" } },
    setCookie := none }

/-- A network failure: no response at all. -/
def replyNetworkError : Reply :=
  { outcome := .rejected { message := "Network Error", response := none }, setCookie := none }

/-- A successful refresh carrying the access token `t2`. -/
def replyRefreshed : Reply :=
  { outcome := .resolved { status := 200, data := .object (.str "t2") "" }, setCookie := none }

/-- A refresh answered with status 200 and the JSON body `null`. -/
def replyRefreshedNull : Reply :=
  { outcome := .resolved { status := 200, data := .nullish }, setCookie := none }

/-- A successful `GET /health` that sets the anti-forgery cookie. -/
def replyHealth : Reply :=
  { outcome := .resolved { status := 200, data := .object .undefined "ok" },
    setCookie := some "XSRF-TOKEN=abc" }

/-- A successful answer to the request itself. -/
def replyTasks : Reply :=
  { outcome := .resolved { status := 200, data := .object .undefined "tasks" }, setCookie := none }

/-- The login page: nobody is logged in, the location is `/`. -/
def loginPage : App :=
  { world := { freshWorld with pathname := "/" }, auth := { user := .null, loading := false },
    localStorage := [], sessionStorage := [] }

/-- The dashboard of `alice`, who holds the token `t1`. -/
def aliceDashboard : App :=
  { world := { freshWorld with accessTokenMemory := .str "t1", cookie := "XSRF-TOKEN=abc" },
    auth := { user := .str "alice", loading := false },
    localStorage := [("theme", "dark")], sessionStorage := [] }

/-- The login endpoint refusing the credentials. -/
def replyBadCredentials : Reply :=
  { outcome := .rejected { message := "Request failed with status code 401",
                           response := some { status := 401,
                                              detail := .str "Incorrect username or password" } },
    setCookie := none }

/-- The refresh endpoint refusing: there is no refresh cookie. -/
def replyNoRefreshCookie : Reply :=
  { outcome := .rejected { message := "Request failed with status code 401",
                           response := some { status := 401,
                                              detail := .str "Refresh token missing" } },
    setCookie := none }

/-- The login endpoint answering with the access token `t1`. -/
def replyLoggedIn : Reply :=
  { outcome := .resolved { status := 200, data := .object (.str "t1") "bearer" },
    setCookie := none }

/-- The login endpoint answering with an empty access token. -/
def replyLoggedInEmpty : Reply :=
  { outcome := .resolved { status := 200, data := .object (.str "") "bearer" },
    setCookie := none }

/-- The registration endpoint answering with the created user. -/
def replyRegistered : Reply :=
  { outcome := .resolved { status := 201, data := .object .undefined "bob" }, setCookie := none }

/-- The registration endpoint refusing a name that is taken. -/
def replyNameTaken : Reply :=
  { outcome := .rejected { message := "Request failed with status code 400",
                           response := some { status := 400,
                                              detail := .str "Username already registered" } },
    setCookie := none }

/-- A 403 whose detail is an object and not a string: no `CSRF` payload. -/
def replyForbiddenObject : Reply :=
  { outcome := .rejected { message := "Request failed with status code 403",
                           response := some { status := 403,
                                              detail := .other true "[object Object]" } },
    setCookie := none }

/-- The registration endpoint refusing with an empty detail. -/
def replyRefusedEmptyDetail : Reply :=
  { outcome := .rejected { message := "Request failed with status code 400",
                           response := some { status := 400, detail := .str "" } },
    setCookie := none }

/-- A task. -/
def sampleTask : TaskItem :=
  { id := "7", title := "Spesa", description := "latte", color := "green",
    date_time := "2025-01-10T09:00:00.000Z", end_time := some "2025-01-10T10:00:00.000Z",
    duration_minutes := none, completed := false }

/-- A filled form in end-time mode. -/
def sampleForm : TaskForm :=
  { title := "  Spesa ", description := "", color := "green", dateTime := "2025-01-10T09:00",
    useDuration := false, endDateTime := "2025-01-10T10:00", durationMinutes := "",
    completed := false }

/-! ## Headers -/

theorem lookup_cons_ite (k a b : String) (es : List (String × String)) :
    List.lookup k ((a, b) :: es) = if k = a then some b else List.lookup k es := by
  rw [List.lookup_cons]
  by_cases h : k = a
  · have hb : (k == a) = true := by simpa using h
    rw [hb, if_pos h]
  · have hb : (k == a) = false := by simpa using h
    rw [hb, if_neg h]

theorem lookup_replace (k v k' : String) (es : List (String × String)) :
    List.lookup k' (es.map (fun p => if p.1 == k then (k, v) else p)) =
      if k' = k then (if es.any (fun p => p.1 == k) then some v else none)
      else List.lookup k' es := by
  induction es with
  | nil => simp
  | cons p rest ih =>
    obtain ⟨a, b⟩ := p
    rw [List.map_cons, List.any_cons]
    by_cases hak : a = k
    · subst hak
      rw [show ((if ((a, b).1 == a) = true then (a, v) else (a, b)) : String × String) = (a, v) by simp,
        lookup_cons_ite, lookup_cons_ite]
      by_cases hk : k' = a
      · simp [hk]
      · rw [if_neg hk, if_neg hk, if_neg hk, ih, if_neg hk]
    · rw [show ((if ((a, b).1 == k) = true then (k, v) else (a, b)) : String × String) = (a, b) by simp [hak],
        lookup_cons_ite, lookup_cons_ite, ih]
      by_cases hk : k' = k
      · subst hk
        have hka : ¬ k' = a := fun h => hak h.symm
        rw [if_neg hka, if_pos rfl, if_pos rfl]
        have hb : (a == k') = false := by simpa using hak
        rw [hb, Bool.false_or]
      · rw [if_neg hk, if_neg hk]

theorem lookup_append_one (k v k' : String) (es : List (String × String)) :
    List.lookup k' (es ++ [(k, v)]) =
      match List.lookup k' es with
      | some x => some x
      | none => if k' = k then some v else none := by
  induction es with
  | nil => simp [lookup_cons_ite]
  | cons p rest ih =>
    obtain ⟨a, b⟩ := p
    rw [List.cons_append, lookup_cons_ite, lookup_cons_ite]
    by_cases hk : k' = a
    · simp [hk]
    · rw [if_neg hk, if_neg hk, ih]

theorem lookup_none_of_not_any (k : String) (es : List (String × String))
    (h : es.any (fun p => p.1 == k) = false) : List.lookup k es = none := by
  induction es with
  | nil => simp
  | cons p rest ih =>
    obtain ⟨a, b⟩ := p
    rw [List.any_cons, Bool.or_eq_false_iff] at h
    have hka : ¬ k = a := fun e => by
      have := h.1
      simp [e] at this
    rw [lookup_cons_ite, if_neg hka, ih h.2]

theorem getHeader_setHeader_same (h : List (String × String)) (k v : String) :
    getHeader (setHeader h k v) k = some v := by
  unfold getHeader setHeader
  by_cases hany : h.any (fun p => p.1 == k) = true
  · rw [if_pos hany, lookup_replace, if_pos rfl, if_pos hany]
  · rw [if_neg hany, lookup_append_one]
    simp only [Bool.not_eq_true] at hany
    rw [lookup_none_of_not_any k h hany]
    simp

theorem getHeader_setHeader_other (h : List (String × String)) (k v k' : String)
    (hk : k' ≠ k) : getHeader (setHeader h k v) k' = getHeader h k' := by
  unfold getHeader setHeader
  by_cases hany : h.any (fun p => p.1 == k) = true
  · rw [if_pos hany, lookup_replace, if_neg hk]
  · rw [if_neg hany, lookup_append_one, if_neg hk]
    cases List.lookup k' h <;> rfl

/-! ## The request interceptor keeps everything but two headers -/

theorem requestInterceptor_flags (tok : JsVal) (cookie : String) (c : Config) :
    (requestInterceptor tok cookie c)._retry = c._retry ∧
      (requestInterceptor tok cookie c)._csrfRetry = c._csrfRetry ∧
      (requestInterceptor tok cookie c).method = c.method := by
  unfold requestInterceptor
  cases getCookie cookie "XSRF-TOKEN" <;> simp only [] <;> split <;> (try split) <;> simp

theorem requestInterceptor_csrf_readOnly (tok : JsVal) (cookie : String) (c : Config)
    (h : stateChanging c.method = false) :
    getHeader (requestInterceptor tok cookie c).headers "X-XSRF-TOKEN" =
      getHeader c.headers "X-XSRF-TOKEN" := by
  unfold requestInterceptor
  cases getCookie cookie "XSRF-TOKEN" <;> simp only [] <;> split <;>
    simp [h, getHeader_setHeader_other]

theorem requestInterceptor_authorization_falsy (tok : JsVal) (cookie : String) (c : Config)
    (h : tok.truthy = false) :
    getHeader (requestInterceptor tok cookie c).headers "Authorization" =
      getHeader c.headers "Authorization" := by
  unfold requestInterceptor getAccessToken
  simp only [h, Bool.false_eq_true, if_false]
  cases getCookie cookie "XSRF-TOKEN" with
  | none => rfl
  | some t =>
    simp only []
    split
    · exact getHeader_setHeader_other _ _ _ _ (by decide)
    · rfl

theorem requestInterceptor_authorization_truthy (tok : JsVal) (cookie : String) (c : Config)
    (h : tok.truthy = true) :
    getHeader (requestInterceptor tok cookie c).headers "Authorization" =
      some ("Bearer " ++ tok.toStr) := by
  unfold requestInterceptor getAccessToken
  simp only [h, if_true]
  cases getCookie cookie "XSRF-TOKEN" with
  | none => exact getHeader_setHeader_same _ _ _
  | some t =>
    simp only []
    split
    · rw [getHeader_setHeader_other _ _ _ _ (by decide)]
      exact getHeader_setHeader_same _ _ _
    · exact getHeader_setHeader_same _ _ _

theorem requestInterceptor_csrf_set (tok : JsVal) (cookie : String) (c : Config) (v : String)
    (hm : stateChanging c.method = true) (hc : getCookie cookie "XSRF-TOKEN" = some v)
    (hv : v ≠ "") :
    getHeader (requestInterceptor tok cookie c).headers "X-XSRF-TOKEN" = some v := by
  have hd : v.data.isEmpty = false := by
    cases hdata : v.data with
    | nil => exact absurd (String.ext hdata) hv
    | cons a l => rfl
  unfold requestInterceptor
  simp only [hc, cookieTruthy, hd]
  split <;> simp [hm, getHeader_setHeader_same]

/-! ## The response interceptor: one step and the whole trace -/

theorem attachCsrf_flags (cookie : String) (c : Config) :
    (attachCsrf cookie c)._retry = c._retry ∧
      (attachCsrf cookie c)._csrfRetry = c._csrfRetry ∧
      (attachCsrf cookie c).method = c.method := by
  unfold attachCsrf
  cases getCookie cookie "XSRF-TOKEN" with
  | none => exact ⟨rfl, rfl, rfl⟩
  | some t =>
    simp only []
    split <;> exact ⟨rfl, rfl, rfl⟩

theorem primeCount_cons (ev : Event) (l : List Event) :
    primeCount (ev :: l) = primeCount l + if ev = Event.prime then 1 else 0 := by
  unfold primeCount
  rw [List.count_cons]
  by_cases h : ev = Event.prime <;> simp [h]

theorem refreshCount_cons (ev : Event) (l : List Event) :
    refreshCount (ev :: l) = refreshCount l + if ev = Event.refresh then 1 else 0 := by
  unfold refreshCount
  rw [List.count_cons]
  by_cases h : ev = Event.refresh <;> simp [h]

/-! ## Step lemmas -/

theorem exchange_fst (server : Nat → Reply) (ev : Event) (w : World) :
    (exchange server ev w).1 = (server w.clock).outcome := rfl

theorem exchange_clock (server : Nat → Reply) (ev : Event) (w : World) :
    (exchange server ev w).2.clock = w.clock + 1 := rfl

theorem exchange_log (server : Nat → Reply) (ev : Event) (w : World) :
    (exchange server ev w).2.log = w.log ++ [ev] := rfl

theorem exchange_token (server : Nat → Reply) (ev : Event) (w : World) :
    (exchange server ev w).2.accessTokenMemory = w.accessTokenMemory := rfl

theorem exchange_pathname (server : Nat → Reply) (ev : Event) (w : World) :
    (exchange server ev w).2.pathname = w.pathname := rfl

theorem apiClient_resolved (server : Nat → Reply) (fuel : Nat) (c : Config) (w : World)
    (r : Response) (h : (server w.clock).outcome = .resolved r) :
    apiClient server (fuel + 1) c w =
      some (.resolved r,
        (exchange server (.send (requestInterceptor w.accessTokenMemory w.cookie c)) w).2) := by
  simp [apiClient, exchange, h]

theorem apiClient_rejected (server : Nat → Reply) (fuel : Nat) (c : Config) (w : World)
    (e : JsError) (h : (server w.clock).outcome = .rejected e) :
    apiClient server (fuel + 1) c w =
      responseErrorHandler (apiClient server fuel) server e
        (requestInterceptor w.accessTokenMemory w.cookie c)
        (exchange server (.send (requestInterceptor w.accessTokenMemory w.cookie c)) w).2 := by
  simp [apiClient, exchange, h]

theorem csrfTest_of_mismatch (e : JsError) (h : isCsrfMismatch e = true) :
    csrfTest e = some true := by
  simpa [isCsrfMismatch] using h

theorem csrfTest_of_unauthorized (e : JsError) (h : isUnauthorized e = true) :
    csrfTest e = some false := by
  unfold isUnauthorized at h
  unfold csrfTest
  cases hr : e.response with
  | none => rfl
  | some r =>
    rw [hr] at h
    simp only [beq_iff_eq] at h
    simp [h]

theorem csrfTest_eq (e : JsError) (h : csrfTest e ≠ none) :
    csrfTest e = some (isCsrfMismatch e) := by
  unfold isCsrfMismatch
  cases ht : csrfTest e with
  | none => exact absurd ht h
  | some b => cases b <;> rfl

theorem isCsrfMismatch_of_test (e : JsError) (b : Bool) (h : csrfTest e = some b) :
    isCsrfMismatch e = b := by
  unfold isCsrfMismatch
  rw [h]
  cases b <;> rfl

/-- The anti-forgery test throws: the handler rejects with the `TypeError`
where it stands, whatever the markers are. -/
theorem handler_throws (resend : Config → World → Option (Outcome × World))
    (server : Nat → Reply) (e : JsError) (c : Config) (w : World)
    (h : csrfTest e = none) :
    responseErrorHandler resend server e c w = some (.rejected typeError, w) := by
  simp [responseErrorHandler, h]

theorem handler_csrf_primed (resend : Config → World → Option (Outcome × World))
    (server : Nat → Reply) (e : JsError) (c : Config) (w : World) (r : Response)
    (he : isCsrfMismatch e = true) (hc : c._csrfRetry = false)
    (h : (server w.clock).outcome = .resolved r) :
    responseErrorHandler resend server e c w =
      resend (attachCsrf (exchange server .prime w).2.cookie { c with _csrfRetry := true })
        (exchange server .prime w).2 := by
  simp [responseErrorHandler, csrfTest_of_mismatch e he, hc, exchange, h]

theorem handler_csrf_prime_failed (resend : Config → World → Option (Outcome × World))
    (server : Nat → Reply) (e e' : JsError) (c : Config) (w : World)
    (he : isCsrfMismatch e = true) (hc : c._csrfRetry = false)
    (h : (server w.clock).outcome = .rejected e') :
    responseErrorHandler resend server e c w =
      some (.rejected e', (exchange server .prime w).2) := by
  simp [responseErrorHandler, csrfTest_of_mismatch e he, hc, exchange, h]

theorem handler_auth_refreshed (resend : Config → World → Option (Outcome × World))
    (server : Nat → Reply) (e : JsError) (c : Config) (w : World) (r : Response)
    (tok : JsVal) (payload : String)
    (_he : (isCsrfMismatch e && !c._csrfRetry) = false) (hu : isUnauthorized e = true)
    (hc : c._retry = false) (h : (server w.clock).outcome = .resolved r)
    (hd : r.data = .object tok payload) :
    responseErrorHandler resend server e c w =
      resend
        (attachCsrf (exchange server .refresh w).2.cookie
          { c with _retry := true,
                   headers := setHeader c.headers "Authorization" ("Bearer " ++ tok.toStr) })
        { (exchange server .refresh w).2 with
            accessTokenMemory := setAccessToken tok w.accessTokenMemory } := by
  unfold responseErrorHandler
  simp [csrfTest_of_unauthorized e hu, hu, hc, exchange, h, hd, setAccessToken]

theorem handler_auth_refresh_failed (resend : Config → World → Option (Outcome × World))
    (server : Nat → Reply) (e e' : JsError) (c : Config) (w : World)
    (_he : (isCsrfMismatch e && !c._csrfRetry) = false) (hu : isUnauthorized e = true)
    (hc : c._retry = false) (h : (server w.clock).outcome = .rejected e') :
    responseErrorHandler resend server e c w =
      some (refreshFailed e' (exchange server .refresh w).2) := by
  unfold responseErrorHandler
  simp [csrfTest_of_unauthorized e hu, hu, hc, exchange, h]

theorem handler_auth_refresh_unreadable (resend : Config → World → Option (Outcome × World))
    (server : Nat → Reply) (e : JsError) (c : Config) (w : World) (r : Response)
    (_he : (isCsrfMismatch e && !c._csrfRetry) = false) (hu : isUnauthorized e = true)
    (hc : c._retry = false) (h : (server w.clock).outcome = .resolved r)
    (hd : r.data = .nullish) :
    responseErrorHandler resend server e c w =
      some (refreshFailed typeError (exchange server .refresh w).2) := by
  unfold responseErrorHandler
  simp [csrfTest_of_unauthorized e hu, hu, hc, exchange, h, hd]

theorem handler_propagates (resend : Config → World → Option (Outcome × World))
    (server : Nat → Reply) (e : JsError) (c : Config) (w : World)
    (ht : csrfTest e ≠ none)
    (he : (isCsrfMismatch e && !c._csrfRetry) = false)
    (hu : (isUnauthorized e && !c._retry) = false) :
    responseErrorHandler resend server e c w = some (.rejected e, w) := by
  unfold responseErrorHandler
  rw [csrfTest_eq e ht]
  simp only []
  rw [he, hu]
  simp

theorem unauthorized_of_status (e : JsError) (d : Detail)
    (h : e.response = some { status := 401, detail := d }) :
    isUnauthorized e = true ∧ isCsrfMismatch e = false := by
  simp [isUnauthorized, isCsrfMismatch, csrfTest, h]

theorem isUnauthorized_not_csrf (e : JsError) (h : isUnauthorized e = true) :
    isCsrfMismatch e = false :=
  isCsrfMismatch_of_test e false (csrfTest_of_unauthorized e h)

theorem attachCsrf_authorization (cookie : String) (c : Config) :
    getHeader (attachCsrf cookie c).headers "Authorization" =
      getHeader c.headers "Authorization" := by
  unfold attachCsrf
  cases getCookie cookie "XSRF-TOKEN" with
  | none => rfl
  | some t =>
    simp only []
    split
    · exact getHeader_setHeader_other _ _ _ _ (by decide)
    · rfl

/-- One run of the rejected handler either settles without re-sending, after at
most one recovery call that the markers allowed, or sets one marker that was
not set, makes that recovery call and re-sends; which one does not depend on
what re-sending does. -/
theorem responseErrorHandler_cases (server : Nat → Reply) (e : JsError) (c : Config)
    (w : World) :
    (∃ out w' evs, (∀ resend, responseErrorHandler resend server e c w = some (out, w')) ∧
        w'.log = w.log ++ evs ∧ sends evs = [] ∧
        primeCount evs ≤ (if c._csrfRetry then 0 else 1) ∧
        refreshCount evs ≤ (if c._retry then 0 else 1)) ∨
    (∃ c' w' ev, (∀ resend, responseErrorHandler resend server e c w = resend c' w') ∧
        w'.log = w.log ++ [ev] ∧ c'.method = c.method ∧
        ((ev = Event.prime ∧ c._csrfRetry = false ∧ c'._csrfRetry = true ∧
            c'._retry = c._retry) ∨
          (ev = Event.refresh ∧ c._retry = false ∧ c'._retry = true ∧
            c'._csrfRetry = c._csrfRetry))) := by
  by_cases hth : csrfTest e = none
  · left
    exact ⟨.rejected typeError, w, [],
      fun resend => handler_throws resend server e c w hth,
      by simp, rfl, by simp [primeCount], by simp [refreshCount]⟩
  by_cases h1 : (isCsrfMismatch e && !c._csrfRetry) = true
  · have hm : isCsrfMismatch e = true := by
      cases hmm : isCsrfMismatch e <;> simp [hmm] at h1 ⊢
    have hc : c._csrfRetry = false := by
      cases hcc : c._csrfRetry <;> simp [hcc] at h1 ⊢
    cases ho : (server w.clock).outcome with
    | rejected csrfError =>
      left
      refine ⟨.rejected csrfError, (exchange server .prime w).2, [Event.prime],
        fun resend => handler_csrf_prime_failed resend server e csrfError c w hm hc ho,
        rfl, rfl, ?_, ?_⟩
      · simp [hc, primeCount]
      · simp [refreshCount]
    | resolved r =>
      right
      refine ⟨_, _, Event.prime,
        fun resend => handler_csrf_primed resend server e c w r hm hc ho, rfl,
        (attachCsrf_flags _ _).2.2, ?_⟩
      left
      exact ⟨rfl, hc, (attachCsrf_flags _ _).2.1, (attachCsrf_flags _ _).1⟩
  · have h1' : (isCsrfMismatch e && !c._csrfRetry) = false := by simpa using h1
    by_cases h2 : (isUnauthorized e && !c._retry) = true
    · have hu : isUnauthorized e = true := by
        cases huu : isUnauthorized e <;> simp [huu] at h2 ⊢
      have hc : c._retry = false := by
        cases hcc : c._retry <;> simp [hcc] at h2 ⊢
      have hfail : ∀ err : JsError,
          (refreshFailed err (exchange server .refresh w).2).2.log =
              w.log ++ (Event.refresh ::
                (if w.pathname ≠ "/" then [Event.redirect] else [])) := by
        intro err
        simp only [refreshFailed, exchange]
        split <;> simp
      have hcount : sends (Event.refresh :: (if w.pathname ≠ "/" then [Event.redirect] else []))
            = [] ∧
          primeCount (Event.refresh :: (if w.pathname ≠ "/" then [Event.redirect] else []))
            ≤ (if c._csrfRetry then 0 else 1) ∧
          refreshCount (Event.refresh :: (if w.pathname ≠ "/" then [Event.redirect] else []))
            ≤ (if c._retry then 0 else 1) := by
        split <;> simp [sends, primeCount, refreshCount, hc]
      cases ho : (server w.clock).outcome with
      | rejected refreshError =>
        left
        exact ⟨.rejected refreshError, _, _,
          fun resend => handler_auth_refresh_failed resend server e refreshError c w h1' hu hc ho,
          hfail refreshError, hcount⟩
      | resolved r =>
        cases hd : r.data with
        | nullish =>
          left
          exact ⟨.rejected typeError, _, _,
            fun resend => handler_auth_refresh_unreadable resend server e c w r h1' hu hc ho hd,
            hfail typeError, hcount⟩
        | object tok payload =>
          right
          refine ⟨_, _, Event.refresh,
            fun resend => handler_auth_refreshed resend server e c w r tok payload h1' hu hc ho hd,
            rfl, (attachCsrf_flags _ _).2.2, ?_⟩
          right
          exact ⟨rfl, hc, (attachCsrf_flags _ _).1, (attachCsrf_flags _ _).2.1⟩
    · have h2' : (isUnauthorized e && !c._retry) = false := by simpa using h2
      left
      exact ⟨.rejected e, w, [],
        fun resend => handler_propagates resend server e c w hth h1' h2',
        by simp, rfl, by simp [primeCount], by simp [refreshCount]⟩

theorem budget_le_two (c : Config) : budget c ≤ 2 := by
  unfold budget
  cases c._retry <;> cases c._csrfRetry <;> simp

theorem sends_append (l₁ l₂ : List Event) : sends (l₁ ++ l₂) = sends l₁ ++ sends l₂ := by
  induction l₁ with
  | nil => rfl
  | cons ev rest ih => cases ev <;> simp [sends, ih]

/-- With fuel beyond the number of unset markers, `apiClient` settles; its
trace starts with the send of the augmented request, has no more priming
calls and refresh calls than unset markers, re-sends only after a recovery
call, and from one send to the next a marker is added and none removed. -/
theorem apiClient_trace (server : Nat → Reply) :
    ∀ (fuel : Nat) (c : Config) (w : World), budget c < fuel →
      ∃ out w' rest, apiClient server fuel c w = some (out, w') ∧
        w'.log = w.log ++ Event.send (requestInterceptor w.accessTokenMemory w.cookie c) :: rest ∧
        primeCount rest ≤ (if c._csrfRetry then 0 else 1) ∧
        refreshCount rest ≤ (if c._retry then 0 else 1) ∧
        (sends rest).length ≤ primeCount rest + refreshCount rest ∧
        List.Chain flagStep (requestInterceptor w.accessTokenMemory w.cookie c) (sends rest) := by
  intro fuel
  induction fuel with
  | zero => intro c w h; exact absurd h (Nat.not_lt_zero _)
  | succ fuel ih =>
    intro c w hb
    obtain ⟨hr, hcs, _⟩ := requestInterceptor_flags w.accessTokenMemory w.cookie c
    generalize hc1 : requestInterceptor w.accessTokenMemory w.cookie c = c1 at hr hcs
    have hstep : apiClient server (fuel + 1) c w =
        match exchange server (.send c1) w with
        | (.resolved response, w) => some (.resolved response, w)
        | (.rejected error, w) => responseErrorHandler (apiClient server fuel) server error c1 w := by
      rw [← hc1]; rfl
    rw [hstep]
    cases ho : (server w.clock).outcome with
    | resolved r =>
      refine ⟨.resolved r, (exchange server (.send c1) w).2, [], ?_, ?_, ?_, ?_, ?_, ?_⟩
      · simp [exchange, ho]
      · simp [exchange]
      · simp [primeCount]
      · simp [refreshCount]
      · simp [sends]
      · exact List.Chain.nil
    | rejected e =>
      have hw1 : (exchange server (.send c1) w).2.log = w.log ++ [Event.send c1] := by
        simp [exchange]
      have hred : (match exchange server (.send c1) w with
          | (.resolved response, w) => some (.resolved response, w)
          | (.rejected error, w) =>
            responseErrorHandler (apiClient server fuel) server error c1 w) =
          responseErrorHandler (apiClient server fuel) server e c1
            (exchange server (.send c1) w).2 := by
        simp [exchange, ho]
      rw [hred]
      rcases responseErrorHandler_cases server e c1
          (exchange server (.send c1) w).2 with
        ⟨out, w', evs, heq, hlog, hs, hp, hrf⟩ | ⟨c', w', ev, heq, hlog, _, hflags⟩
      · refine ⟨out, w', evs, heq _, ?_, ?_, ?_, ?_, ?_⟩
        · rw [hlog, hw1]; simp
        · rw [← hcs]; exact hp
        · rw [← hr]; exact hrf
        · rw [hs]; simp
        · rw [hs]; exact List.Chain.nil
      · have hb1 : budget c1 = budget c := by unfold budget; rw [hr, hcs]
        have hb' : budget c' < fuel ∧ flagStep c1 c' ∧
            (if ev = Event.prime then 1 else 0) + (if c'._csrfRetry then 0 else 1)
              ≤ (if c._csrfRetry then 0 else 1) ∧
            (if ev = Event.refresh then 1 else 0) + (if c'._retry then 0 else 1)
              ≤ (if c._retry then 0 else 1) ∧
            (if ev = Event.prime then 1 else 0) + (if ev = Event.refresh then 1 else 0) = 1 := by
          rw [← hb1] at hb
          rw [← hcs, ← hr]
          unfold flagStep
          unfold budget at hb ⊢
          rcases hflags with ⟨hev, h1, h2, h3⟩ | ⟨hev, h1, h2, h3⟩
          · subst hev
            rw [h1] at hb ⊢
            rw [h2, h3]
            cases hcr : c1._retry <;> simp [hcr] at hb ⊢ <;> omega
          · subst hev
            rw [h1] at hb ⊢
            rw [h2, h3]
            cases hcr : c1._csrfRetry <;> simp [hcr] at hb ⊢ <;> omega
        obtain ⟨hbf, hfs, hpc, hrc, hone⟩ := hb'
        obtain ⟨out, w'', rest, heq2, hlog2, hp2, hr2, hs2, hch2⟩ := ih c' w' hbf
        refine ⟨out, w'',
          ev :: Event.send (requestInterceptor w'.accessTokenMemory w'.cookie c') :: rest,
          ?_, ?_, ?_, ?_, ?_, ?_⟩
        · rw [heq, heq2]
        · rw [hlog2, hlog, hw1]; simp
        · rw [primeCount_cons, primeCount_cons]
          simp only [reduceCtorEq, if_false, Nat.add_zero]
          omega
        · rw [refreshCount_cons, refreshCount_cons]
          simp only [reduceCtorEq, if_false, Nat.add_zero]
          omega
        · have hsd : sends (ev :: Event.send (requestInterceptor w'.accessTokenMemory w'.cookie c')
              :: rest) = requestInterceptor w'.accessTokenMemory w'.cookie c' :: sends rest := by
            rcases hflags with ⟨hev, _⟩ | ⟨hev, _⟩ <;> subst hev <;> rfl
          rw [hsd, primeCount_cons, primeCount_cons, refreshCount_cons, refreshCount_cons]
          simp only [reduceCtorEq, if_false, Nat.add_zero, List.length_cons]
          omega
        · have hsd : sends (ev :: Event.send (requestInterceptor w'.accessTokenMemory w'.cookie c')
              :: rest) = requestInterceptor w'.accessTokenMemory w'.cookie c' :: sends rest := by
            rcases hflags with ⟨hev, _⟩ | ⟨hev, _⟩ <;> subst hev <;> rfl
          rw [hsd]
          refine List.Chain.cons ?_ hch2
          obtain ⟨hr', hcs', _⟩ := requestInterceptor_flags w'.accessTokenMemory w'.cookie c'
          unfold flagStep budget at hfs ⊢
          rw [hr', hcs']
          exact hfs

/-- More fuel does not change a result. -/
theorem apiClient_fuel_mono (server : Nat → Reply) :
    ∀ (fuel : Nat) (c : Config) (w : World) (res : Outcome × World),
      apiClient server fuel c w = some res → apiClient server (fuel + 1) c w = some res := by
  intro fuel
  induction fuel with
  | zero => intro c w res h; simp [apiClient] at h
  | succ fuel ih =>
    intro c w res h
    cases ho : (server w.clock).outcome with
    | resolved r =>
      rw [apiClient_resolved server fuel c w r ho] at h
      rw [apiClient_resolved server (fuel + 1) c w r ho]
      exact h
    | rejected e =>
      rw [apiClient_rejected server fuel c w e ho] at h
      rw [apiClient_rejected server (fuel + 1) c w e ho]
      rcases responseErrorHandler_cases server e
          (requestInterceptor w.accessTokenMemory w.cookie c)
          (exchange server (.send (requestInterceptor w.accessTokenMemory w.cookie c)) w).2 with
        ⟨out, w', evs, heq, _⟩ | ⟨c', w', ev, heq, _⟩
      · rw [heq] at h ⊢
        exact h
      · rw [heq] at h ⊢
        exact ih c' w' res h

theorem apiClient_fuel_add (server : Nat → Reply) (fuel k : Nat) (c : Config) (w : World)
    (res : Outcome × World) (h : apiClient server fuel c w = some res) :
    apiClient server (fuel + k) c w = some res := by
  induction k with
  | zero => exact h
  | succ k ih => exact apiClient_fuel_mono server (fuel + k) c w res ih

theorem attachCsrf_csrf_readOnly (tok : JsVal) (cookie cookie' v : String) (c : Config)
    (hro : stateChanging c.method = false) (hc : getCookie cookie "XSRF-TOKEN" = some v)
    (hv : v ≠ "") :
    getHeader (requestInterceptor tok cookie' (attachCsrf cookie c)).headers "X-XSRF-TOKEN"
      = some v := by
  have hd : v.data.isEmpty = false := by
    cases hdata : v.data with
    | nil => exact absurd (String.ext hdata) hv
    | cons a l => rfl
  have hm : stateChanging (attachCsrf cookie c).method = false := by
    rw [(attachCsrf_flags cookie c).2.2]; exact hro
  rw [requestInterceptor_csrf_readOnly tok cookie' _ hm]
  unfold attachCsrf
  simp only [hc, cookieTruthy, hd]
  simp [getHeader_setHeader_same]

/-- A 401 on a request whose `_retry` is unset, followed by a refresh that
answers with a readable body: the call goes on as the re-send of the request,
now marked, in a world that holds the new token. -/
theorem apiClient_after_refresh (server : Nat → Reply) (config : Config) (w : World)
    (e0 : JsError) (r1 : Response) (tok : JsVal) (payload : String)
    (hfresh : config._retry = false)
    (h0 : (server w.clock).outcome = .rejected e0) (hu : isUnauthorized e0 = true)
    (h1 : (server (w.clock + 1)).outcome = .resolved r1)
    (hd : r1.data = .object tok payload) :
    ∃ c0 c2 w2, (∀ fuel, apiClient server (fuel + 2) config w = apiClient server (fuel + 1) c2 w2) ∧
      c0 = requestInterceptor w.accessTokenMemory w.cookie config ∧
      c2._retry = true ∧ c2._csrfRetry = config._csrfRetry ∧ c2.method = config.method ∧
      getHeader c2.headers "Authorization" = some ("Bearer " ++ tok.toStr) ∧
      w2.clock = w.clock + 2 ∧ w2.log = w.log ++ [Event.send c0, Event.refresh] ∧
      w2.accessTokenMemory = tok ∧ w2.pathname = w.pathname := by
  obtain ⟨hr, hcs, hmeth⟩ := requestInterceptor_flags w.accessTokenMemory w.cookie config
  have hcm : (isCsrfMismatch e0 && !(requestInterceptor w.accessTokenMemory w.cookie
      config)._csrfRetry) = false := by
    rw [isUnauthorized_not_csrf e0 hu]; rfl
  refine ⟨requestInterceptor w.accessTokenMemory w.cookie config,
    attachCsrf (exchange server .refresh (exchange server
        (.send (requestInterceptor w.accessTokenMemory w.cookie config)) w).2).2.cookie
      { requestInterceptor w.accessTokenMemory w.cookie config with
        _retry := true,
        headers := setHeader (requestInterceptor w.accessTokenMemory w.cookie config).headers
          "Authorization" ("Bearer " ++ tok.toStr) },
    { (exchange server .refresh (exchange server
        (.send (requestInterceptor w.accessTokenMemory w.cookie config)) w).2).2 with
      accessTokenMemory := setAccessToken tok w.accessTokenMemory },
    fun fuel => ?_, rfl, ?_, ?_, ?_, ?_, ?_, ?_, ?_, ?_⟩
  · rw [apiClient_rejected server (fuel + 1) config w e0 h0]
    exact handler_auth_refreshed _ server e0 _ _ r1 tok payload hcm hu (by rw [hr]; exact hfresh)
      h1 hd
  · exact (attachCsrf_flags _ _).1
  · rw [(attachCsrf_flags _ _).2.1]; exact hcs
  · rw [(attachCsrf_flags _ _).2.2]; exact hmeth
  · rw [attachCsrf_authorization]; exact getHeader_setHeader_same _ _ _
  · rfl
  · simp [exchange]
  · rfl
  · rfl

/-- A 403 anti-forgery failure on a request whose `_csrfRetry` is unset,
followed by a priming call that succeeds: the call goes on as the re-send of
the request, now marked. -/
theorem apiClient_after_prime (server : Nat → Reply) (config : Config) (w : World)
    (e0 : JsError) (r1 : Response)
    (hfresh : config._csrfRetry = false)
    (h0 : (server w.clock).outcome = .rejected e0) (hm : isCsrfMismatch e0 = true)
    (h1 : (server (w.clock + 1)).outcome = .resolved r1) :
    ∃ c0 c2 w2, (∀ fuel, apiClient server (fuel + 2) config w = apiClient server (fuel + 1) c2 w2) ∧
      c0 = requestInterceptor w.accessTokenMemory w.cookie config ∧
      c2._csrfRetry = true ∧ c2._retry = config._retry ∧ c2.method = config.method ∧
      w2.clock = w.clock + 2 ∧ w2.log = w.log ++ [Event.send c0, Event.prime] ∧
      w2.accessTokenMemory = w.accessTokenMemory ∧ w2.pathname = w.pathname := by
  obtain ⟨hr, hcs, hmeth⟩ := requestInterceptor_flags w.accessTokenMemory w.cookie config
  refine ⟨requestInterceptor w.accessTokenMemory w.cookie config,
    attachCsrf (exchange server .prime (exchange server
        (.send (requestInterceptor w.accessTokenMemory w.cookie config)) w).2).2.cookie
      { requestInterceptor w.accessTokenMemory w.cookie config with _csrfRetry := true },
    (exchange server .prime (exchange server
        (.send (requestInterceptor w.accessTokenMemory w.cookie config)) w).2).2,
    fun fuel => ?_, rfl, ?_, ?_, ?_, ?_, ?_, ?_, ?_⟩
  · rw [apiClient_rejected server (fuel + 1) config w e0 h0]
    exact handler_csrf_primed _ server e0 _ _ r1 hm (by rw [hcs]; exact hfresh) h1
  · exact (attachCsrf_flags _ _).2.1
  · rw [(attachCsrf_flags _ _).1]; exact hr
  · rw [(attachCsrf_flags _ _).2.2]; exact hmeth
  · rfl
  · simp [exchange]
  · rfl
  · rfl

/-! ## What a call leaves alone -/

theorem requestInterceptor_url_data (tok : JsVal) (cookie : String) (c : Config) :
    (requestInterceptor tok cookie c).url = c.url ∧
      (requestInterceptor tok cookie c).data = c.data := by
  unfold requestInterceptor
  cases getCookie cookie "XSRF-TOKEN" <;> simp only [] <;> split <;> (try split) <;> simp

theorem attachCsrf_url_data (cookie : String) (c : Config) :
    (attachCsrf cookie c).url = c.url ∧ (attachCsrf cookie c).data = c.data := by
  unfold attachCsrf
  cases getCookie cookie "XSRF-TOKEN" with
  | none => exact ⟨rfl, rfl⟩
  | some t =>
    simp only []
    split <;> exact ⟨rfl, rfl⟩

theorem exchange_cookie (server : Nat → Reply) (ev : Event) (w : World)
    (hck : ∀ n, (server n).setCookie = none) : (exchange server ev w).2.cookie = w.cookie := by
  simp [exchange, hck]

theorem refreshFailed_world (err : JsError) (w : World) :
    (refreshFailed err w).2.accessTokenMemory = JsVal.null ∧
      (refreshFailed err w).2.cookie = w.cookie ∧
      (refreshFailed err w).2.clock = w.clock ∧
      (refreshFailed err w).2.pathname = "/" ∧
      (refreshFailed err w).2.log =
        w.log ++ (if w.pathname ≠ "/" then [Event.redirect] else []) := by
  simp only [refreshFailed]
  split
  · exact ⟨rfl, rfl, rfl, rfl, rfl⟩
  · rename_i h
    refine ⟨rfl, rfl, rfl, ?_, by simp⟩
    simpa [clearAccessToken] using h

/-- What one run of the rejected handler leaves alone: it puts no request on
the wire itself, touches the store only around a refresh call, writes the
cookie jar never (only a reply does), and re-sends the request with its url,
method and body. -/
theorem responseErrorHandler_frame (server : Nat → Reply) (e : JsError) (c : Config)
    (w : World) :
    (∃ out w' evs, (∀ resend, responseErrorHandler resend server e c w = some (out, w')) ∧
        w'.log = w.log ++ evs ∧ sends evs = [] ∧
        (refreshCount evs = 0 → w'.accessTokenMemory = w.accessTokenMemory) ∧
        ((∀ n, (server n).setCookie = none) → w'.cookie = w.cookie)) ∨
    (∃ c' w' evs, (∀ resend, responseErrorHandler resend server e c w = resend c' w') ∧
        c'.url = c.url ∧ c'.method = c.method ∧ c'.data = c.data ∧
        w'.log = w.log ++ evs ∧ sends evs = [] ∧
        (refreshCount evs = 0 → w'.accessTokenMemory = w.accessTokenMemory) ∧
        ((∀ n, (server n).setCookie = none) → w'.cookie = w.cookie)) := by
  by_cases hth : csrfTest e = none
  · left
    exact ⟨.rejected typeError, w, [],
      fun resend => handler_throws resend server e c w hth,
      by simp, rfl, fun _ => rfl, fun _ => rfl⟩
  by_cases h1 : (isCsrfMismatch e && !c._csrfRetry) = true
  · have hm : isCsrfMismatch e = true := by
      cases hmm : isCsrfMismatch e <;> simp [hmm] at h1 ⊢
    have hc : c._csrfRetry = false := by
      cases hcc : c._csrfRetry <;> simp [hcc] at h1 ⊢
    cases ho : (server w.clock).outcome with
    | rejected csrfError =>
      left
      exact ⟨.rejected csrfError, (exchange server .prime w).2, [Event.prime],
        fun resend => handler_csrf_prime_failed resend server e csrfError c w hm hc ho,
        rfl, rfl, fun _ => rfl, fun hck => exchange_cookie server _ w hck⟩
    | resolved r =>
      right
      exact ⟨_, _, [Event.prime],
        fun resend => handler_csrf_primed resend server e c w r hm hc ho,
        (attachCsrf_url_data _ _).1, (attachCsrf_flags _ _).2.2, (attachCsrf_url_data _ _).2,
        rfl, rfl, fun _ => rfl, fun hck => exchange_cookie server _ w hck⟩
  · have h1' : (isCsrfMismatch e && !c._csrfRetry) = false := by simpa using h1
    by_cases h2 : (isUnauthorized e && !c._retry) = true
    · have hu : isUnauthorized e = true := by
        cases huu : isUnauthorized e <;> simp [huu] at h2 ⊢
      have hc : c._retry = false := by
        cases hcc : c._retry <;> simp [hcc] at h2 ⊢
      have hfail : ∀ err : JsError,
          (refreshFailed err (exchange server .refresh w).2).2.log =
              w.log ++ (Event.refresh ::
                (if w.pathname ≠ "/" then [Event.redirect] else [])) ∧
          sends (Event.refresh :: (if w.pathname ≠ "/" then [Event.redirect] else [])) = [] ∧
          (refreshCount (Event.refresh :: (if w.pathname ≠ "/" then [Event.redirect] else []))
              = 0 →
            (refreshFailed err (exchange server .refresh w).2).2.accessTokenMemory
              = w.accessTokenMemory) ∧
          ((∀ n, (server n).setCookie = none) →
            (refreshFailed err (exchange server .refresh w).2).2.cookie = w.cookie) := by
        intro err
        refine ⟨?_, ?_, ?_, ?_⟩
        · rw [(refreshFailed_world err _).2.2.2.2, exchange_log, exchange_pathname]
          simp
        · split <;> rfl
        · intro h
          rw [refreshCount_cons] at h
          simp at h
        · intro hck
          rw [(refreshFailed_world err _).2.1]
          exact exchange_cookie server _ w hck
      cases ho : (server w.clock).outcome with
      | rejected refreshError =>
        left
        exact ⟨.rejected refreshError, _, _,
          fun resend => handler_auth_refresh_failed resend server e refreshError c w h1' hu hc ho,
          hfail refreshError⟩
      | resolved r =>
        cases hd : r.data with
        | nullish =>
          left
          exact ⟨.rejected typeError, _, _,
            fun resend => handler_auth_refresh_unreadable resend server e c w r h1' hu hc ho hd,
            hfail typeError⟩
        | object tok payload =>
          right
          refine ⟨_, _, [Event.refresh],
            fun resend => handler_auth_refreshed resend server e c w r tok payload h1' hu hc ho hd,
            (attachCsrf_url_data _ _).1, (attachCsrf_flags _ _).2.2, (attachCsrf_url_data _ _).2,
            rfl, rfl, ?_, fun hck => exchange_cookie server Event.refresh w hck⟩
          intro h
          rw [refreshCount_cons] at h
          simp at h
    · have h2' : (isUnauthorized e && !c._retry) = false := by simpa using h2
      left
      exact ⟨.rejected e, w, [],
        fun resend => handler_propagates resend server e c w hth h1' h2',
        by simp, rfl, fun _ => rfl, fun _ => rfl⟩

theorem refreshCount_append (l₁ l₂ : List Event) :
    refreshCount (l₁ ++ l₂) = refreshCount l₁ + refreshCount l₂ := by
  unfold refreshCount
  exact List.count_append _ _ _

theorem primeCount_append (l₁ l₂ : List Event) :
    primeCount (l₁ ++ l₂) = primeCount l₁ + primeCount l₂ := by
  unfold primeCount
  exact List.count_append _ _ _

/-- What a call through `apiClient` leaves alone: every send has the url,
method and body of the request; without a refresh call the credential store
is as before; the cookie jar changes only when a reply sets a cookie. -/
theorem apiClient_frame (server : Nat → Reply) :
    ∀ (fuel : Nat) (c : Config) (w : World) (out : Outcome) (w' : World),
      apiClient server fuel c w = some (out, w') →
      ∃ evs, w'.log = w.log ++ evs ∧
        (∀ c' ∈ sends evs, c'.url = c.url ∧ c'.method = c.method ∧ c'.data = c.data) ∧
        (refreshCount evs = 0 → w'.accessTokenMemory = w.accessTokenMemory) ∧
        ((∀ n, (server n).setCookie = none) → w'.cookie = w.cookie) := by
  intro fuel
  induction fuel with
  | zero => intro c w out w' h; simp [apiClient] at h
  | succ fuel ih =>
    intro c w out w' h
    obtain ⟨hurl, hdata⟩ := requestInterceptor_url_data w.accessTokenMemory w.cookie c
    obtain ⟨_, _, hmeth⟩ := requestInterceptor_flags w.accessTokenMemory w.cookie c
    generalize hc1 : requestInterceptor w.accessTokenMemory w.cookie c = c1 at hurl hdata hmeth
    cases ho : (server w.clock).outcome with
    | resolved r =>
      rw [apiClient_resolved server fuel c w r ho, hc1] at h
      have hw : w' = (exchange server (.send c1) w).2 := by
        have := congrArg (fun o => o.map Prod.snd) h
        simpa using this.symm
      subst hw
      refine ⟨[Event.send c1], rfl, ?_, fun _ => rfl, fun hck => exchange_cookie server _ w hck⟩
      intro c' hc'
      simp only [sends, List.mem_singleton] at hc'
      subst hc'
      exact ⟨hurl, hmeth, hdata⟩
    | rejected e =>
      rw [apiClient_rejected server fuel c w e ho, hc1] at h
      rcases responseErrorHandler_frame server e c1 (exchange server (.send c1) w).2 with
        ⟨out1, w1, evs, heq, hlog, hs, htok, hcookie⟩ |
        ⟨c2, w2, evs, heq, hu2, hm2, hd2, hlog, hs, htok, hcookie⟩
      · rw [heq] at h
        have hw : w' = w1 := by
          have := congrArg (fun o => o.map Prod.snd) h
          simpa using this.symm
        subst hw
        refine ⟨Event.send c1 :: evs, ?_, ?_, ?_, ?_⟩
        · rw [hlog, exchange_log]; simp
        · intro c' hc'
          simp only [sends, hs, List.mem_singleton] at hc'
          subst hc'
          exact ⟨hurl, hmeth, hdata⟩
        · intro h0
          rw [refreshCount_cons] at h0
          simp only [reduceCtorEq, if_false, Nat.add_zero] at h0
          rw [htok h0, exchange_token]
        · intro hck
          rw [hcookie hck]
          exact exchange_cookie server _ w hck
      · rw [heq] at h
        obtain ⟨evs2, hlog2, hsend2, htok2, hcookie2⟩ := ih c2 w2 out w' h
        refine ⟨Event.send c1 :: (evs ++ evs2), ?_, ?_, ?_, ?_⟩
        · rw [hlog2, hlog, exchange_log]; simp
        · intro c' hc'
          simp only [sends, sends_append, hs, List.nil_append, List.mem_cons] at hc'
          rcases hc' with hc' | hc'
          · subst hc'
            exact ⟨hurl, hmeth, hdata⟩
          · obtain ⟨a, b, d⟩ := hsend2 c' hc'
            exact ⟨by rw [a, hu2, hurl], by rw [b, hm2, hmeth], by rw [d, hd2, hdata]⟩
        · intro h0
          rw [refreshCount_cons, refreshCount_append] at h0
          simp only [reduceCtorEq, if_false, Nat.add_zero] at h0
          rw [htok2 (by omega), htok (by omega), exchange_token]
        · intro hck
          rw [hcookie2 hck, hcookie hck]
          exact exchange_cookie server _ w hck

/-- A 401 on a request whose `_retry` is unset, followed by a refresh call
that fails: the call ends in the `catch` block. -/
theorem apiClient_refresh_failed (server : Nat → Reply) (fuel : Nat) (config : Config)
    (w : World) (e0 e1 : JsError)
    (hfresh : config._retry = false)
    (h0 : (server w.clock).outcome = .rejected e0) (hu : isUnauthorized e0 = true)
    (h1 : (server (w.clock + 1)).outcome = .rejected e1) :
    apiClient server (fuel + 1) config w =
      some (refreshFailed e1 (exchange server .refresh (exchange server
        (.send (requestInterceptor w.accessTokenMemory w.cookie config)) w).2).2) := by
  rw [apiClient_rejected server fuel config w e0 h0]
  refine handler_auth_refresh_failed _ server e0 e1 _ _ ?_ hu ?_ h1
  · rw [isUnauthorized_not_csrf e0 hu]; rfl
  · rw [(requestInterceptor_flags w.accessTokenMemory w.cookie config).1]; exact hfresh

/-- A failure that neither recovery takes: the call rejects with it after the
one send. -/
theorem apiClient_propagates (server : Nat → Reply) (fuel : Nat) (config : Config)
    (w : World) (e : JsError)
    (h0 : (server w.clock).outcome = .rejected e) (ht : csrfTest e ≠ none)
    (hcsrf : (isCsrfMismatch e && !config._csrfRetry) = false)
    (hauth : (isUnauthorized e && !config._retry) = false) :
    apiClient server (fuel + 1) config w =
      some (.rejected e,
        (exchange server (.send (requestInterceptor w.accessTokenMemory w.cookie config)) w).2) := by
  rw [apiClient_rejected server fuel config w e h0]
  refine handler_propagates _ server e _ _ ht ?_ ?_
  · rw [(requestInterceptor_flags w.accessTokenMemory w.cookie config).2.1]; exact hcsrf
  · rw [(requestInterceptor_flags w.accessTokenMemory w.cookie config).1]; exact hauth

/-- A failure on which the anti-forgery test throws: the call rejects with the
`TypeError` after the one send. -/
theorem apiClient_throws (server : Nat → Reply) (fuel : Nat) (config : Config)
    (w : World) (e : JsError)
    (h0 : (server w.clock).outcome = .rejected e) (ht : csrfTest e = none) :
    apiClient server (fuel + 1) config w =
      some (.rejected typeError,
        (exchange server (.send (requestInterceptor w.accessTokenMemory w.cookie config)) w).2) := by
  rw [apiClient_rejected server fuel config w e h0]
  exact handler_throws _ server e _ _ ht

theorem recoveries_append (l₁ l₂ : List Event) :
    recoveries (l₁ ++ l₂) = recoveries l₁ ++ recoveries l₂ := by
  induction l₁ with
  | nil => rfl
  | cons ev rest ih => cases ev <;> simp [recoveries, ih]

theorem recoveries_no_prime (l : List Event) (h : primeCount l = 0) :
    recoveries l = List.replicate (refreshCount l) Event.refresh := by
  induction l with
  | nil => rfl
  | cons ev rest ih =>
    rw [primeCount_cons] at h
    cases ev with
    | prime => simp at h
    | refresh =>
      rw [refreshCount_cons]
      simp only [if_true, recoveries, List.replicate_succ]
      rw [ih (by omega)]
    | send c =>
      rw [refreshCount_cons]
      simp only [reduceCtorEq, if_false, Nat.add_zero, recoveries]
      exact ih (by omega)
    | redirect =>
      rw [refreshCount_cons]
      simp only [reduceCtorEq, if_false, Nat.add_zero, recoveries]
      exact ih (by omega)

theorem recoveries_no_refresh (l : List Event) (h : refreshCount l = 0) :
    recoveries l = List.replicate (primeCount l) Event.prime := by
  induction l with
  | nil => rfl
  | cons ev rest ih =>
    rw [refreshCount_cons] at h
    cases ev with
    | refresh => simp at h
    | prime =>
      rw [primeCount_cons]
      simp only [if_true, recoveries, List.replicate_succ]
      rw [ih (by omega)]
    | send c =>
      rw [primeCount_cons]
      simp only [reduceCtorEq, if_false, Nat.add_zero, recoveries]
      exact ih (by omega)
    | redirect =>
      rw [primeCount_cons]
      simp only [reduceCtorEq, if_false, Nat.add_zero, recoveries]
      exact ih (by omega)

/-! ## `login` and `register`, case by case -/

theorem login_of_resolved (server : Nat → Reply) (fuel : Nat) (u p : String) (app : App)
    (r : Response) (w1 : World) (tok : JsVal) (payload : String)
    (h : apiClient server fuel (loginRequest u p) app.world = some (.resolved r, w1))
    (hd : r.data = .object tok payload) :
    login server fuel u p app =
      some (.fulfilled { success := true },
        { app with
          world := { w1 with accessTokenMemory := tok },
          auth := { app.auth with user := .str u } }) := by
  simp [login, loginUser, h, hd, setAccessToken]

theorem login_of_rejected (server : Nat → Reply) (fuel : Nat) (u p : String) (app : App)
    (e : JsError) (w1 : World)
    (h : apiClient server fuel (loginRequest u p) app.world = some (.rejected e, w1)) :
    login server fuel u p app =
      some (.rejected (newError (detailOr e "Errore durante il login")),
        { app with world := w1 }) := by
  simp [login, loginUser, h]

theorem login_fulfilled_inv (server : Nat → Reply) (fuel : Nat) (u p : String)
    (app app' : App) (s : Success)
    (h : login server fuel u p app = some (.fulfilled s, app')) :
    ∃ r tok payload w1,
      apiClient server fuel (loginRequest u p) app.world = some (.resolved r, w1) ∧
        r.data = .object tok payload ∧
        app' = { app with
          world := { w1 with accessTokenMemory := tok },
          auth := { app.auth with user := .str u } } := by
  unfold login loginUser at h
  cases hrun : apiClient server fuel (loginRequest u p) app.world with
  | none => simp [hrun] at h
  | some res =>
    obtain ⟨out, w1⟩ := res
    cases out with
    | rejected e => simp [hrun] at h
    | resolved r =>
      cases hd : r.data with
      | nullish => simp [hrun, hd] at h
      | object tok payload =>
        simp [hrun, hd, setAccessToken] at h
        exact ⟨r, tok, payload, w1, rfl, hd, h.2.symm⟩

theorem register_of_rejected (server : Nat → Reply) (fuel : Nat) (u p : String) (app : App)
    (e : JsError) (w1 : World)
    (h : apiClient server fuel (registerRequest u p) app.world = some (.rejected e, w1)) :
    register server fuel u p app =
      some (.rejected (newError (detailOr e "Errore durante la registrazione")),
        { app with world := w1 }) := by
  simp [register, registerUser, h]

theorem register_of_resolved (server : Nat → Reply) (fuel : Nat) (u p : String) (app : App)
    (r : Response) (w1 : World)
    (h : apiClient server fuel (registerRequest u p) app.world = some (.resolved r, w1)) :
    register server fuel u p app =
      match login server fuel u p { app with world := w1 } with
      | none => none
      | some (.rejected error, app) =>
        some (.rejected (newError (detailOr error "Errore durante la registrazione")), app)
      | some (.fulfilled _, app) => some (.fulfilled { success := true }, app) := by
  simp [register, registerUser, h]

/-! ## Splitting -/

theorem jsSplitGo_ne_nil (sep : List Char) :
    ∀ (s : List Char) (skip : Nat) (cur : List Char), jsSplitGo sep skip cur s ≠ [] := by
  intro s
  induction s with
  | nil => intro skip cur; cases skip <;> simp [jsSplitGo]
  | cons c cs ih =>
    intro skip cur
    cases skip with
    | zero =>
      unfold jsSplitGo
      split
      · simp
      · exact ih 0 (c :: cur)
    | succ n =>
      unfold jsSplitGo
      exact ih n cur

theorem jsSplitGo_no_match (sep : List Char) :
    ∀ (s cur : List Char), ¬ sep <:+: s → jsSplitGo sep 0 cur s = [cur.reverse ++ s] := by
  intro s
  induction s with
  | nil => intro cur _; simp [jsSplitGo]
  | cons c cs ih =>
    intro cur h
    have hpre : sep.isPrefixOf (c :: cs) = false := by
      cases hp : sep.isPrefixOf (c :: cs) with
      | false => rfl
      | true => exact absurd (List.isPrefixOf_iff_prefix.mp hp).isInfix h
    have htail : ¬ sep <:+: cs := fun hcs => h (List.infix_cons hcs)
    unfold jsSplitGo
    rw [hpre]
    simp only [Bool.false_eq_true, if_false]
    rw [ih (c :: cur) htail]
    simp

theorem str_truthy_iff (t : String) : (JsVal.str t).truthy = true ↔ t ≠ "" := by
  constructor
  · intro h ht
    subst ht
    simp [JsVal.truthy] at h
  · intro ht
    cases hdata : t.data with
    | nil => exact absurd (String.ext hdata) ht
    | cons a l => simp [JsVal.truthy, hdata]

/-! ## What the session operations leave alone -/

theorem requestInterceptor_headers (tok : JsVal) (cookie : String) (c : Config) :
    (requestInterceptor tok cookie c).headers =
      match getCookie cookie "XSRF-TOKEN" with
      | some t =>
        if (cookieTruthy (some t) && stateChanging c.method) = true then
          setHeader (if tok.truthy = true then
            setHeader c.headers "Authorization" ("Bearer " ++ tok.toStr) else c.headers)
            "X-XSRF-TOKEN" t
        else
          (if tok.truthy = true then
            setHeader c.headers "Authorization" ("Bearer " ++ tok.toStr) else c.headers)
      | none =>
        (if tok.truthy = true then
          setHeader c.headers "Authorization" ("Bearer " ++ tok.toStr) else c.headers) := by
  unfold requestInterceptor getAccessToken
  cases getCookie cookie "XSRF-TOKEN" with
  | none =>
    simp only []
    cases ht : tok.truthy <;> simp only [ht, if_true, Bool.false_eq_true, if_false]
  | some t =>
    simp only []
    cases ht : tok.truthy <;>
      cases hcond : (cookieTruthy (some t) && stateChanging c.method) <;>
      simp only [ht, hcond, if_true, Bool.false_eq_true, if_false]

theorem requestInterceptor_header_other (tok : JsVal) (cookie : String) (c : Config)
    (k : String) (hk : k ≠ "Authorization") :
    getHeader (requestInterceptor tok cookie c).headers k =
      getHeader (requestInterceptor .null cookie c).headers k := by
  have haux : getHeader (if tok.truthy = true then
      setHeader c.headers "Authorization" ("Bearer " ++ tok.toStr) else c.headers) k =
      getHeader c.headers k := by
    split
    · exact getHeader_setHeader_other _ _ _ _ hk
    · rfl
  rw [requestInterceptor_headers, requestInterceptor_headers]
  have hnull : JsVal.null.truthy = false := rfl
  simp only [hnull, Bool.false_eq_true, if_false]
  cases getCookie cookie "XSRF-TOKEN" with
  | none => exact haux
  | some t =>
    simp only []
    by_cases hcond : (cookieTruthy (some t) && stateChanging c.method) = true
    · rw [if_pos hcond, if_pos hcond]
      by_cases hx : k = "X-XSRF-TOKEN"
      · subst hx
        rw [getHeader_setHeader_same, getHeader_setHeader_same]
      · rw [getHeader_setHeader_other _ _ _ _ hx, getHeader_setHeader_other _ _ _ _ hx]
        exact haux
    · rw [if_neg hcond, if_neg hcond]
      exact haux

theorem login_frame (server : Nat → Reply) (fuel : Nat) (u p : String) (app app' : App)
    (res : Settled Success) (h : login server fuel u p app = some (res, app')) :
    app'.localStorage = app.localStorage ∧ app'.sessionStorage = app.sessionStorage ∧
      ((∀ n, (server n).setCookie = none) → app'.world.cookie = app.world.cookie) := by
  unfold login loginUser at h
  cases hrun : apiClient server fuel (loginRequest u p) app.world with
  | none => simp [hrun] at h
  | some r =>
    obtain ⟨out, w1⟩ := r
    obtain ⟨_, _, _, _, hcookie⟩ := apiClient_frame server fuel _ _ out w1 hrun
    cases out with
    | rejected e =>
      simp only [hrun, Option.some.injEq, Prod.mk.injEq] at h
      obtain ⟨_, happ⟩ := h
      subst happ
      exact ⟨rfl, rfl, hcookie⟩
    | resolved r =>
      cases hd : r.data with
      | nullish =>
        simp only [hrun, hd, Option.some.injEq, Prod.mk.injEq] at h
        obtain ⟨_, happ⟩ := h
        subst happ
        exact ⟨rfl, rfl, hcookie⟩
      | object tok payload =>
        simp only [hrun, hd, Option.some.injEq, Prod.mk.injEq] at h
        obtain ⟨_, happ⟩ := h
        subst happ
        exact ⟨rfl, rfl, hcookie⟩

theorem register_frame (server : Nat → Reply) (fuel : Nat) (u p : String) (app app' : App)
    (res : Settled Success) (h : register server fuel u p app = some (res, app')) :
    app'.localStorage = app.localStorage ∧ app'.sessionStorage = app.sessionStorage ∧
      ((∀ n, (server n).setCookie = none) → app'.world.cookie = app.world.cookie) := by
  cases hrun : apiClient server fuel (registerRequest u p) app.world with
  | none => simp [register, registerUser, hrun] at h
  | some r =>
    obtain ⟨out, w1⟩ := r
    obtain ⟨_, _, _, _, hcookie⟩ := apiClient_frame server fuel _ _ out w1 hrun
    cases out with
    | rejected e =>
      rw [register_of_rejected server fuel u p app e w1 hrun] at h
      simp only [Option.some.injEq, Prod.mk.injEq] at h
      obtain ⟨_, happ⟩ := h
      subst happ
      exact ⟨rfl, rfl, hcookie⟩
    | resolved r =>
      rw [register_of_resolved server fuel u p app r w1 hrun] at h
      cases hl : login server fuel u p { app with world := w1 } with
      | none => simp [hl] at h
      | some lr =>
        obtain ⟨lres, lapp⟩ := lr
        obtain ⟨h1, h2, h3⟩ := login_frame server fuel u p _ lapp lres hl
        cases lres with
        | rejected e =>
          simp only [hl, Option.some.injEq, Prod.mk.injEq] at h
          obtain ⟨_, happ⟩ := h
          subst happ
          exact ⟨h1, h2, fun hck => (h3 hck).trans (hcookie hck)⟩
        | fulfilled v =>
          simp only [hl, Option.some.injEq, Prod.mk.injEq] at h
          obtain ⟨_, happ⟩ := h
          subst happ
          exact ⟨h1, h2, fun hck => (h3 hck).trans (hcookie hck)⟩

theorem initializeAuth_eq (server : Nat → Reply) (app : App) :
    initializeAuth server app =
      (.fulfilled (), checkToken (exchange server .prime app.world).2 app) := by
  unfold initializeAuth
  cases h : (server app.world.clock).outcome <;> simp [exchange, h]

/-! ## A call whose authentication retry is used -/

/-- With `_retry` set, one run of the rejected handler makes no refresh call
and no redirect and leaves the store and the location alone. -/
theorem responseErrorHandler_retry_used (server : Nat → Reply) (e : JsError) (c : Config)
    (w : World) (hc : c._retry = true) :
    (∃ out w' evs, (∀ resend, responseErrorHandler resend server e c w = some (out, w')) ∧
        w'.log = w.log ++ evs ∧ Event.redirect ∉ evs ∧ refreshCount evs = 0 ∧
        w'.accessTokenMemory = w.accessTokenMemory ∧ w'.pathname = w.pathname) ∨
    (∃ c' w' evs, (∀ resend, responseErrorHandler resend server e c w = resend c' w') ∧
        c'._retry = true ∧
        w'.log = w.log ++ evs ∧ Event.redirect ∉ evs ∧ refreshCount evs = 0 ∧
        w'.accessTokenMemory = w.accessTokenMemory ∧ w'.pathname = w.pathname) := by
  by_cases hth : csrfTest e = none
  · left
    exact ⟨.rejected typeError, w, [],
      fun resend => handler_throws resend server e c w hth,
      by simp, by simp, rfl, rfl, rfl⟩
  by_cases h1 : (isCsrfMismatch e && !c._csrfRetry) = true
  · have hm : isCsrfMismatch e = true := by
      cases hmm : isCsrfMismatch e <;> simp [hmm] at h1 ⊢
    have hcs : c._csrfRetry = false := by
      cases hcc : c._csrfRetry <;> simp [hcc] at h1 ⊢
    cases ho : (server w.clock).outcome with
    | rejected csrfError =>
      left
      exact ⟨.rejected csrfError, (exchange server .prime w).2, [Event.prime],
        fun resend => handler_csrf_prime_failed resend server e csrfError c w hm hcs ho,
        rfl, by simp, rfl, rfl, rfl⟩
    | resolved r =>
      right
      exact ⟨_, _, [Event.prime],
        fun resend => handler_csrf_primed resend server e c w r hm hcs ho,
        by rw [(attachCsrf_flags _ _).1]; exact hc,
        rfl, by simp, rfl, rfl, rfl⟩
  · have h1' : (isCsrfMismatch e && !c._csrfRetry) = false := by simpa using h1
    have h2 : (isUnauthorized e && !c._retry) = false := by rw [hc]; simp
    left
    exact ⟨.rejected e, w, [], fun resend => handler_propagates resend server e c w hth h1' h2,
      by simp, by simp, rfl, rfl, rfl⟩

/-- A call whose `_retry` is set makes no refresh call and no redirect, and
leaves the credential store and the location as they are. -/
theorem apiClient_retry_used (server : Nat → Reply) :
    ∀ (fuel : Nat) (c : Config) (w : World) (out : Outcome) (w' : World),
      c._retry = true → apiClient server fuel c w = some (out, w') →
      ∃ evs, w'.log = w.log ++ evs ∧ Event.redirect ∉ evs ∧ refreshCount evs = 0 ∧
        w'.accessTokenMemory = w.accessTokenMemory ∧ w'.pathname = w.pathname := by
  intro fuel
  induction fuel with
  | zero => intro c w out w' _ h; simp [apiClient] at h
  | succ fuel ih =>
    intro c w out w' hc h
    have hc1 : (requestInterceptor w.accessTokenMemory w.cookie c)._retry = true := by
      rw [(requestInterceptor_flags w.accessTokenMemory w.cookie c).1]; exact hc
    cases ho : (server w.clock).outcome with
    | resolved r =>
      rw [apiClient_resolved server fuel c w r ho] at h
      have hw : w' = (exchange server
          (.send (requestInterceptor w.accessTokenMemory w.cookie c)) w).2 := by
        have := congrArg (fun o => o.map Prod.snd) h
        simpa using this.symm
      subst hw
      exact ⟨[Event.send (requestInterceptor w.accessTokenMemory w.cookie c)], rfl, by simp,
        rfl, rfl, rfl⟩
    | rejected e =>
      rw [apiClient_rejected server fuel c w e ho] at h
      rcases responseErrorHandler_retry_used server e _
          (exchange server (.send (requestInterceptor w.accessTokenMemory w.cookie c)) w).2
          hc1 with
        ⟨out1, w1, evs, heq, hlog, hred, hrc, htok, hpath⟩ |
        ⟨c2, w2, evs, heq, hc2, hlog, hred, hrc, htok, hpath⟩
      · rw [heq] at h
        have hw : w' = w1 := by
          have := congrArg (fun o => o.map Prod.snd) h
          simpa using this.symm
        subst hw
        refine ⟨Event.send (requestInterceptor w.accessTokenMemory w.cookie c) :: evs,
          ?_, ?_, ?_, ?_, ?_⟩
        · rw [hlog, exchange_log]; simp
        · simpa using hred
        · rw [refreshCount_cons]; simp [hrc]
        · rw [htok, exchange_token]
        · rw [hpath, exchange_pathname]
      · rw [heq] at h
        obtain ⟨evs2, hlog2, hred2, hrc2, htok2, hpath2⟩ := ih c2 w2 out w' hc2 h
        refine ⟨Event.send (requestInterceptor w.accessTokenMemory w.cookie c) :: (evs ++ evs2),
          ?_, ?_, ?_, ?_, ?_⟩
        · rw [hlog2, hlog, exchange_log]; simp
        · simp only [List.mem_cons, List.mem_append, reduceCtorEq, false_or, not_or]
          exact ⟨hred, hred2⟩
        · rw [refreshCount_cons, refreshCount_append]; simp [hrc, hrc2]
        · rw [htok2, htok, exchange_token]
        · rw [hpath2, hpath, exchange_pathname]

theorem login_rejected_inv (server : Nat → Reply) (fuel : Nat) (u p : String)
    (app app' : App) (e : JsError)
    (h : login server fuel u p app = some (.rejected e, app')) :
    e.response = none := by
  unfold login loginUser at h
  cases hrun : apiClient server fuel (loginRequest u p) app.world with
  | none => simp [hrun] at h
  | some res =>
    obtain ⟨out, w1⟩ := res
    cases out with
    | rejected e1 =>
      simp only [hrun, Option.some.injEq, Prod.mk.injEq, Settled.rejected.injEq] at h
      rw [← h.1]; rfl
    | resolved r =>
      cases hd : r.data with
      | nullish =>
        simp only [hrun, hd, Option.some.injEq, Prod.mk.injEq, Settled.rejected.injEq] at h
        rw [← h.1]; rfl
      | object tok payload => simp [hrun, hd] at h

theorem detailOr_no_response (e : JsError) (fallback : String) (h : e.response = none) :
    detailOr e fallback = fallback := by
  simp [detailOr, h]

theorem detailOr_detail (e : JsError) (fallback d : String) (status : Nat)
    (h : e.response = some { status := status, detail := .str d }) (hd : d ≠ "") :
    detailOr e fallback = d := by
  have hne : d.data.isEmpty = false := by
    cases hdata : d.data with
    | nil => exact absurd (String.ext hdata) hd
    | cons a l => rfl
  simp [detailOr, h, hne]

/-! ## Character classes, trimming -/

theorem upper_class (c : Char) : decide ('A' ≤ c ∧ c ≤ 'Z') = c.isUpper := by
  simp only [Char.isUpper, Char.le_def, Bool.decide_and]
  rfl

theorem lower_class (c : Char) : decide ('a' ≤ c ∧ c ≤ 'z') = c.isLower := by
  simp only [Char.isLower, Char.le_def, Bool.decide_and]
  rfl

theorem digit_class (c : Char) : decide ('0' ≤ c ∧ c ≤ '9') = c.isDigit := by
  simp only [Char.isDigit, Char.le_def, Bool.decide_and]
  rfl

theorem string_ne_empty_iff (s : String) : s ≠ "" ↔ s.data.isEmpty = false := by
  constructor
  · intro h
    cases hd : s.data with
    | nil => exact absurd (String.ext hd) h
    | cons a l => rfl
  · intro h hs
    subst hs
    simp at h

theorem dropWhile_fixed (p : Char → Bool) (l : List Char)
    (h : ∀ a, l.head? = some a → p a = false) : l.dropWhile p = l := by
  cases l with
  | nil => rfl
  | cons a rest => simp [List.dropWhile, h a rfl]

theorem head_dropWhile (p : Char → Bool) (l : List Char) :
    ∀ a, (l.dropWhile p).head? = some a → p a = false := by
  induction l with
  | nil => intro a h; simp at h
  | cons b rest ih =>
    intro a h
    by_cases hb : p b = true
    · rw [List.dropWhile_cons_of_pos hb] at h
      exact ih a h
    · rw [List.dropWhile_cons_of_neg hb] at h
      simp only [List.head?_cons, Option.some.injEq] at h
      subst h
      simpa using hb

theorem getLast_dropWhile (p : Char → Bool) (l : List Char) :
    ∀ a, (l.dropWhile p).getLast? = some a → l.getLast? = some a := by
  induction l with
  | nil => intro a h; simp at h
  | cons b rest ih =>
    intro a h
    by_cases hb : p b = true
    · rw [List.dropWhile_cons_of_pos hb] at h
      have hrest := ih a h
      cases rest with
      | nil => simp at hrest
      | cons c cs => rw [List.getLast?_cons_cons]; exact hrest
    · rw [List.dropWhile_cons_of_neg hb] at h
      exact h

theorem jsTrim_idem (s : String) : jsTrim (jsTrim s) = jsTrim s := by
  apply String.ext
  show ((((s.data.dropWhile jsWhiteSpace).reverse.dropWhile jsWhiteSpace).reverse.dropWhile
      jsWhiteSpace).reverse.dropWhile jsWhiteSpace).reverse
    = ((s.data.dropWhile jsWhiteSpace).reverse.dropWhile jsWhiteSpace).reverse
  have hhead : ∀ a, (((s.data.dropWhile jsWhiteSpace).reverse.dropWhile
      jsWhiteSpace).reverse).head? = some a → jsWhiteSpace a = false := by
    intro a h
    rw [List.head?_reverse] at h
    have h2 := getLast_dropWhile jsWhiteSpace _ a h
    rw [List.getLast?_reverse] at h2
    exact head_dropWhile jsWhiteSpace s.data a h2
  rw [dropWhile_fixed jsWhiteSpace _ hhead, List.reverse_reverse,
    dropWhile_fixed jsWhiteSpace _ (head_dropWhile jsWhiteSpace _)]

theorem jsLength_pos (s : String) (h : 0 < jsLength s) : s ≠ "" := by
  intro hs
  subst hs
  simp [jsLength] at h

/-! ## Splitting a list of pairs -/

theorem jsSplitGo_nil (sep : List Char) (skip : Nat) (cur : List Char) :
    jsSplitGo sep skip cur [] = [cur.reverse] := by
  cases skip <;> simp [jsSplitGo]

theorem jsSplitGo_cons_zero (sep cur : List Char) (c : Char) (cs : List Char) :
    jsSplitGo sep 0 cur (c :: cs) =
      if sep.isPrefixOf (c :: cs) then cur.reverse :: jsSplitGo sep (sep.length - 1) [] cs
      else jsSplitGo sep 0 (c :: cur) cs := by
  rw [jsSplitGo]

theorem jsSplitGo_cons_succ (sep cur : List Char) (skip : Nat) (c : Char) (cs : List Char) :
    jsSplitGo sep (skip + 1) cur (c :: cs) = jsSplitGo sep skip cur cs := by
  rw [jsSplitGo]

/-- Characters other than `;` go to the current piece when the separator
starts with `;`. -/
theorem jsSplitGo_accumulate (t : List Char) :
    ∀ (xs cur ys : List Char), ';' ∉ xs →
      jsSplitGo (';' :: t) 0 cur (xs ++ ys) = jsSplitGo (';' :: t) 0 (xs.reverse ++ cur) ys := by
  intro xs
  induction xs with
  | nil => intro cur ys _; simp
  | cons x xs ih =>
    intro cur ys h
    have hx : ¬ ';' = x := fun hc => h (List.mem_cons.mpr (Or.inl hc))
    have hxs : ';' ∉ xs := fun hc => h (List.mem_cons.mpr (Or.inr hc))
    rw [List.cons_append, jsSplitGo_cons_zero]
    have hpre : (';' :: t).isPrefixOf (x :: (xs ++ ys)) = false := by
      simp [List.isPrefixOf, hx]
    rw [hpre]
    simp only [Bool.false_eq_true, if_false]
    rw [ih (x :: cur) ys hxs]
    simp

/-- The characters of a matched separator are dropped. -/
theorem jsSplitGo_skip (sep : List Char) :
    ∀ (xs cur ys : List Char),
      jsSplitGo sep xs.length cur (xs ++ ys) = jsSplitGo sep 0 cur ys := by
  intro xs
  induction xs with
  | nil => intro cur ys; simp
  | cons x xs ih =>
    intro cur ys
    rw [List.cons_append, List.length_cons, jsSplitGo_cons_succ]
    exact ih cur ys

/-- The text `name=` starts a pair exactly when the pair has that name. -/
theorem name_isPrefixOf_pair (tail : List Char) :
    ∀ (name n : List Char), '=' ∉ name → '=' ∉ n →
      (name ++ ['=']).isPrefixOf (n ++ '=' :: tail) = decide (n = name) := by
  intro name
  induction name with
  | nil =>
    intro n _ hn
    cases n with
    | nil => simp [List.isPrefixOf]
    | cons b n =>
      have hb : ¬ '=' = b := fun hc => hn (List.mem_cons.mpr (Or.inl hc))
      simp [List.isPrefixOf, hb]
  | cons a name ih =>
    intro n hname hn
    have ha : ¬ a = '=' := fun hc => hname (List.mem_cons.mpr (Or.inl hc.symm))
    have hname1 : '=' ∉ name := fun hc => hname (List.mem_cons.mpr (Or.inr hc))
    cases n with
    | nil => simp [List.isPrefixOf, ha]
    | cons b n =>
      have hn1 : '=' ∉ n := fun hc => hn (List.mem_cons.mpr (Or.inr hc))
      have := ih n hname1 hn1
      simp only [List.cons_append, List.isPrefixOf, this]
      by_cases hab : a = b
      · subst hab
        by_cases hnn : n = name
        · simp [hnn, this]
        · simp [hnn, this]
      · have hba : ¬ b = a := fun hc => hab hc.symm
        simp [hab, hba]

theorem cookieBlocks_eq (p : String × String) (rest : List (String × String)) :
    ';' :: ' ' :: cookieText (p :: rest) = cookieBlocks (p :: rest) := by
  induction rest generalizing p with
  | nil => simp [cookieText, cookieBlocks]
  | cons q rest ih =>
    rw [show cookieText (p :: q :: rest)
        = pairText p ++ ';' :: ' ' :: cookieText (q :: rest) from rfl, ih q]
    rfl

theorem cookiePairs_cons (p : String × String) (rest : List (String × String)) :
    CookiePairs (p :: rest) ↔ (CookieName p.1 ∧ ';' ∉ p.2.data) ∧ CookiePairs rest := by
  simp [CookiePairs]

/-- One pair of the text: cut when it has the name looked up, kept in the
current piece otherwise. -/
theorem jsSplitGo_block (name : String) (hname : '=' ∉ name.data) (p : String × String)
    (rest : List (String × String)) (cur : List Char)
    (hp : CookieName p.1 ∧ ';' ∉ p.2.data) :
    jsSplitGo (';' :: ' ' :: (name.data ++ ['='])) 0 cur (cookieBlocks (p :: rest)) =
      if p.1 = name then
        cur.reverse ::
          jsSplitGo (';' :: ' ' :: (name.data ++ ['='])) 0 p.2.data.reverse (cookieBlocks rest)
      else
        jsSplitGo (';' :: ' ' :: (name.data ++ ['='])) 0
          ((' ' :: pairText p).reverse ++ ';' :: cur) (cookieBlocks rest) := by
  obtain ⟨⟨hp1, hp2⟩, hp3⟩ := hp
  have hpre : (';' :: ' ' :: (name.data ++ ['='])).isPrefixOf
      (';' :: ' ' :: (pairText p ++ cookieBlocks rest)) = decide (p.1.data = name.data) := by
    have := name_isPrefixOf_pair (p.2.data ++ cookieBlocks rest) name.data p.1.data hname hp2
    simp only [List.isPrefixOf, pairText, List.append_assoc, List.cons_append, this]
    simp
  show jsSplitGo _ 0 cur (';' :: ' ' :: (pairText p ++ cookieBlocks rest)) = _
  rw [jsSplitGo_cons_zero, hpre]
  by_cases h : p.1 = name
  · have hd : p.1.data = name.data := by rw [h]
    rw [if_pos h]
    simp only [hd, decide_True, if_true]
    have hlen : (';' :: ' ' :: (name.data ++ ['='])).length - 1
        = (' ' :: (name.data ++ ['='])).length := by simp
    have htext : ' ' :: (pairText p ++ cookieBlocks rest)
        = (' ' :: (name.data ++ ['='])) ++ (p.2.data ++ cookieBlocks rest) := by
      simp [pairText, hd]
    rw [hlen, htext, jsSplitGo_skip, jsSplitGo_accumulate _ _ _ _ hp3]
    simp
  · have hd : ¬ p.1.data = name.data := fun hc => h (String.ext hc)
    rw [if_neg h]
    simp only [hd, decide_False, Bool.false_eq_true, if_false]
    have hno : ';' ∉ ' ' :: pairText p := by
      simp only [pairText, List.mem_cons, List.mem_append, not_or]
      exact ⟨by decide, hp1, by decide, hp3⟩
    have htext : ' ' :: (pairText p ++ cookieBlocks rest)
        = (' ' :: pairText p) ++ cookieBlocks rest := by simp
    rw [htext, jsSplitGo_accumulate _ _ _ _ hno]

/-- The split has one piece more than there are pairs with the name. -/
theorem jsSplitGo_blocks_length (name : String) (hname : '=' ∉ name.data) :
    ∀ (ps : List (String × String)) (cur : List Char), CookiePairs ps →
      (jsSplitGo (';' :: ' ' :: (name.data ++ ['='])) 0 cur (cookieBlocks ps)).length
        = 1 + (ps.filter (fun q => decide (q.1 = name))).length := by
  intro ps
  induction ps with
  | nil => intro cur _; simp [cookieBlocks, jsSplitGo_nil]
  | cons p rest ih =>
    intro cur h
    rw [cookiePairs_cons] at h
    rw [jsSplitGo_block name hname p rest cur h.1]
    by_cases hn : p.1 = name
    · rw [if_pos hn, List.filter_cons_of_pos (by simpa using hn), List.length_cons,
        List.length_cons, ih _ h.2]
      omega
    · rw [if_neg hn, List.filter_cons_of_neg (by simpa using hn), ih _ h.2]

theorem jsSplitGo_blocks_none (name : String) (hname : '=' ∉ name.data) :
    ∀ (ps : List (String × String)) (cur : List Char), CookiePairs ps →
      ps.filter (fun q => decide (q.1 = name)) = [] →
      jsSplitGo (';' :: ' ' :: (name.data ++ ['='])) 0 cur (cookieBlocks ps)
        = [cur.reverse ++ cookieBlocks ps] := by
  intro ps
  induction ps with
  | nil => intro cur _ _; simp [cookieBlocks, jsSplitGo_nil]
  | cons p rest ih =>
    intro cur h hf
    rw [cookiePairs_cons] at h
    rw [jsSplitGo_block name hname p rest cur h.1]
    by_cases hn : p.1 = name
    · rw [List.filter_cons_of_pos (by simpa using hn)] at hf
      simp at hf
    · rw [List.filter_cons_of_neg (by simpa using hn)] at hf
      rw [if_neg hn, ih _ h.2 hf]
      simp [cookieBlocks]

/-- With one pair of the name, the split has two pieces and the second one
starts with the value of that pair, followed by the pairs after it. -/
theorem jsSplitGo_blocks_one (name : String) (hname : '=' ∉ name.data) :
    ∀ (ps : List (String × String)) (cur : List Char) (p : String × String), CookiePairs ps →
      ps.filter (fun q => decide (q.1 = name)) = [p] →
      ∃ first after, jsSplitGo (';' :: ' ' :: (name.data ++ ['='])) 0 cur (cookieBlocks ps)
        = [first, p.2.data ++ cookieBlocks after] := by
  intro ps
  induction ps with
  | nil => intro cur p _ hf; simp at hf
  | cons q rest ih =>
    intro cur p h hf
    rw [cookiePairs_cons] at h
    rw [jsSplitGo_block name hname q rest cur h.1]
    by_cases hn : q.1 = name
    · rw [List.filter_cons_of_pos (by simpa using hn)] at hf
      simp only [List.cons.injEq] at hf
      obtain ⟨hq, hrest⟩ := hf
      subst hq
      rw [if_pos hn, jsSplitGo_blocks_none name hname rest _ h.2 hrest]
      exact ⟨cur.reverse, rest, by simp⟩
    · rw [List.filter_cons_of_neg (by simpa using hn)] at hf
      rw [if_neg hn]
      exact ih _ p h.2 hf

/-- The value is what comes before the first `;` of the second piece. -/
theorem jsSplit_value_head (v : List Char) (after : List (String × String))
    (hv : ';' ∉ v) :
    (jsSplitGo [';'] 0 [] (v ++ cookieBlocks after)).head? = some v := by
  rw [jsSplitGo_accumulate [] v [] _ hv]
  cases after with
  | nil => simp [cookieBlocks, jsSplitGo_nil]
  | cons q rest =>
    show (jsSplitGo [';'] 0 (v.reverse ++ []) (';' :: ' ' :: (pairText q ++ cookieBlocks rest))).head?
      = some v
    rw [jsSplitGo_cons_zero]
    simp [List.isPrefixOf]

theorem getCookie_eq (cookie name : String) :
    getCookie cookie name =
      if (jsSplitGo (';' :: ' ' :: (name.data ++ ['='])) 0 [] (';' :: ' ' :: cookie.data)).length
          = 2 then
        match (jsSplitGo (';' :: ' ' :: (name.data ++ ['='])) 0 []
            (';' :: ' ' :: cookie.data)).getLast? with
        | some last => (jsSplitGo [';'] 0 [] last).head?.map String.mk
        | none => none
      else none := rfl

theorem getCookie_no_pairs (name : String) : getCookie (String.mk (cookieText [])) name = none := by
  rw [getCookie_eq]
  have h : jsSplitGo (';' :: ' ' :: (name.data ++ ['='])) 0 [] [';', ' '] = [[';', ' ']] := by
    rw [jsSplitGo_cons_zero]
    have h1 : (';' :: ' ' :: (name.data ++ ['='])).isPrefixOf [';', ' '] = false := by
      cases name.data <;> simp [List.isPrefixOf]
    rw [h1]
    simp only [Bool.false_eq_true, if_false]
    rw [jsSplitGo_cons_zero]
    have h2 : (';' :: ' ' :: (name.data ++ ['='])).isPrefixOf [' '] = false := by
      simp [List.isPrefixOf]
    rw [h2]
    simp [jsSplitGo_nil]
  show (if (jsSplitGo (';' :: ' ' :: (name.data ++ ['='])) 0 [] [';', ' ']).length = 2 then _
    else _) = _
  rw [h]
  simp

/-! ## C1: bounded recovery -/

/-- C1: whatever the server answers, one call through `apiClient` settles, with
at most one priming call, at most one refresh call and at most three sends of
the request (two re-issues); from one send to the next one more of `_retry`,
`_csrfRetry` is set and none is reset.  Fuel beyond three sends changes
nothing. -/
theorem logical_call_terminates (server : Nat → Reply) (k : Nat) (config : Config)
    (w : World) :
    ∃ out w' evs, apiClient server (3 + k) config w = some (out, w') ∧
      apiClient server 3 config w = some (out, w') ∧
      w'.log = w.log ++ evs ∧
      primeCount evs ≤ 1 ∧ refreshCount evs ≤ 1 ∧ (sends evs).length ≤ 3 ∧
      List.Chain' flagStep (sends evs) := by
  obtain ⟨out, w', rest, heq, hlog, hp, hr, hs, hch⟩ :=
    apiClient_trace server 3 config w (Nat.lt_succ_of_le (budget_le_two config))
  refine ⟨out, w', _, apiClient_fuel_add server 3 k config w _ heq, heq, hlog, ?_, ?_, ?_, ?_⟩
  · rw [primeCount_cons]
    simp only [reduceCtorEq, if_false, Nat.add_zero]
    exact le_trans hp (by split <;> simp)
  · rw [refreshCount_cons]
    simp only [reduceCtorEq, if_false, Nat.add_zero]
    exact le_trans hr (by split <;> simp)
  · have h1 : primeCount rest ≤ 1 := le_trans hp (by split <;> simp)
    have h2 : refreshCount rest ≤ 1 := le_trans hr (by split <;> simp)
    simp only [sends, List.length_cons]
    omega
  · exact hch

/-! ## C2: authentication recovery, counted -/

/-- C2, as stated, fails: the first response is a 401, the refresh call
succeeds, and the request is re-issued twice, because the first re-issue is
answered by a 403 anti-forgery failure whose retry is still there; and when the
refresh call is answered with status 200 and the body `null`, reading
`access_token` throws and the request is not re-issued at all. -/
theorem two_reissues_after_refresh :
    (apiClient (script [reply401, replyRefreshed, replyCsrf, replyHealth, replyTasks]
        replyNetworkError) 3 getTasksRequest freshWorld).map
      (fun res => (refreshCount res.2.log, primeCount res.2.log, (sends res.2.log).length))
      = some (1, 1, 3) ∧
    (apiClient (script [reply401, replyRefreshedNull, replyTasks] replyNetworkError) 3
        getTasksRequest freshWorld).map
      (fun res => (res.1, refreshCount res.2.log, (sends res.2.log).length))
      = some (.rejected typeError, 1, 1) := by
  decide

/-- C2, amended: when the first response is a 401 and the refresh call
succeeds with a body whose `access_token` can be read, exactly one refresh call
is made and the request is re-issued once, or twice when anti-forgery recovery
(one priming call) follows the first re-issue; if the re-issued request fails
with a 401 again, the call rejects with that failure after that one re-issue
and that one refresh call. -/
theorem one_refresh_after_unauthorized (server : Nat → Reply) (k : Nat) (config : Config)
    (w : World) (e0 : JsError) (d : Detail) (r1 : Response) (tok : JsVal)
    (payload : String)
    (hfresh : config._retry = false)
    (h0 : (server w.clock).outcome = .rejected e0)
    (hs : e0.response = some { status := 401, detail := d })
    (h1 : (server (w.clock + 1)).outcome = .resolved r1)
    (hd : r1.data = .object tok payload) :
    ∃ out w' evs, apiClient server (3 + k) config w = some (out, w') ∧
      w'.log = w.log ++ evs ∧
      refreshCount evs = 1 ∧
      ((sends evs).length = 2 ∨ ((sends evs).length = 3 ∧ primeCount evs = 1)) ∧
      (∀ e2 d2, (server (w.clock + 2)).outcome = .rejected e2 →
        e2.response = some { status := 401, detail := d2 } →
        out = .rejected e2 ∧ (sends evs).length = 2) := by
  obtain ⟨c0, c2, w2, hgo, _, hc2, _, _, _, hclk, hlog, _, _⟩ :=
    apiClient_after_refresh server config w e0 r1 tok payload hfresh h0
      (unauthorized_of_status e0 d hs).1 h1 hd
  have hb : budget c2 < 2 := by
    unfold budget; rw [hc2]; cases c2._csrfRetry <;> simp
  obtain ⟨out, w', rest, heq, hlog', hp, hr, hsd, _⟩ := apiClient_trace server 2 c2 w2 hb
  rw [hc2] at hr
  have hr0 : refreshCount rest = 0 := by simpa using hr
  have hp1 : primeCount rest ≤ 1 := le_trans hp (by split <;> simp)
  have hrun : apiClient server (3 + k) config w = some (out, w') := by
    have := apiClient_fuel_add server 3 k config w (out, w') (by rw [hgo 1]; exact heq)
    exact this
  refine ⟨out, w',
    [Event.send c0, Event.refresh,
      Event.send (requestInterceptor w2.accessTokenMemory w2.cookie c2)] ++ rest,
    hrun, ?_, ?_, ?_, ?_⟩
  · rw [hlog', hlog]; simp
  · simp only [List.cons_append, List.nil_append, refreshCount_cons, reduceCtorEq, if_false,
      if_true, Nat.add_zero]
    omega
  · rw [sends_append]
    simp only [List.cons_append, List.nil_append, sends, List.length_cons, List.length_append,
      List.length_nil, primeCount_cons, reduceCtorEq, if_false, Nat.add_zero]
    omega
  · intro e2 d2 h2 hs2
    have h2' : (server w2.clock).outcome = .rejected e2 := by rw [hclk]; exact h2
    obtain ⟨hu2, hm2⟩ := unauthorized_of_status e2 d2 hs2
    have hstop : apiClient server 2 c2 w2 =
        some (.rejected e2,
          (exchange server (.send (requestInterceptor w2.accessTokenMemory w2.cookie c2)) w2).2) := by
      rw [apiClient_rejected server 1 c2 w2 e2 h2']
      refine handler_propagates _ server e2 _ _
        (by rw [csrfTest_of_unauthorized e2 hu2]; simp) (by rw [hm2]; rfl) ?_
      rw [(requestInterceptor_flags w2.accessTokenMemory w2.cookie c2).1, hc2]
      simp
    rw [hstop] at heq
    have hout : out = .rejected e2 := by
      have := congrArg (fun o => o.map Prod.fst) heq
      simpa using this.symm
    have hw : w' = (exchange server
        (.send (requestInterceptor w2.accessTokenMemory w2.cookie c2)) w2).2 := by
      have := congrArg (fun o => o.map Prod.snd) heq
      simpa using this.symm
    have hrest : rest = [] := by
      rw [hw, exchange_log] at hlog'
      have := List.append_cancel_left hlog'
      simpa using this.symm
    refine ⟨hout, ?_⟩
    rw [hrest]
    rfl

/-- C2 amended, on `GET /tasks` answered by a 401, a refresh carrying `t2`,
then a 401 again. -/
theorem one_refresh_after_unauthorized_witness :
    ∃ out w' evs,
      apiClient (script [reply401, replyRefreshed, reply401] replyTasks) (3 + 0)
          getTasksRequest freshWorld = some (out, w') ∧
      w'.log = freshWorld.log ++ evs ∧
      refreshCount evs = 1 ∧
      ((sends evs).length = 2 ∨ ((sends evs).length = 3 ∧ primeCount evs = 1)) ∧
      (∀ e2 d2,
        (script [reply401, replyRefreshed, reply401] replyTasks
          (freshWorld.clock + 2)).outcome = .rejected e2 →
        e2.response = some { status := 401, detail := d2 } →
        out = .rejected e2 ∧ (sends evs).length = 2) :=
  one_refresh_after_unauthorized (script [reply401, replyRefreshed, reply401] replyTasks) 0
    getTasksRequest freshWorld _ (.str "Token expired") _ (.str "t2") "" rfl rfl rfl rfl rfl

/-! ## C3: anti-forgery recovery, counted -/

/-- C3, as stated, fails: the first response is a 403 anti-forgery failure,
the priming call succeeds, and the request is re-issued twice, because the
first re-issue is answered by a 401 whose retry is still there. -/
theorem two_reissues_after_priming :
    (apiClient (script [replyCsrf, replyHealth, reply401, replyRefreshed, replyTasks]
        replyNetworkError) 3 createTaskRequest freshWorld).map
      (fun res => (primeCount res.2.log, refreshCount res.2.log, (sends res.2.log).length))
      = some (1, 1, 3) := by
  decide

/-- C3, amended: when the first response is a 403 whose detail contains
`CSRF` and the priming call succeeds, exactly one priming call is made and the
request is re-issued once, or twice when authentication recovery (one refresh
call) follows the first re-issue; if the re-issued request fails with a 403
anti-forgery failure again, the call rejects with that failure after that one
re-issue and that one priming call. -/
theorem one_priming_after_csrf_mismatch (server : Nat → Reply) (k : Nat) (config : Config)
    (w : World) (e0 : JsError) (d : String) (r1 : Response)
    (hfresh : config._csrfRetry = false)
    (h0 : (server w.clock).outcome = .rejected e0)
    (hs : e0.response = some { status := 403, detail := .str d })
    (hdet : jsIncludes "CSRF".data d.data = true)
    (h1 : (server (w.clock + 1)).outcome = .resolved r1) :
    ∃ out w' evs, apiClient server (3 + k) config w = some (out, w') ∧
      w'.log = w.log ++ evs ∧
      primeCount evs = 1 ∧ refreshCount evs ≤ 1 ∧
      ((sends evs).length = 2 ∨ ((sends evs).length = 3 ∧ refreshCount evs = 1)) ∧
      (∀ e2, (server (w.clock + 2)).outcome = .rejected e2 → isCsrfMismatch e2 = true →
        out = .rejected e2 ∧ (sends evs).length = 2 ∧ refreshCount evs = 0) := by
  have hm0 : isCsrfMismatch e0 = true := by
    simp [isCsrfMismatch, csrfTest, detailIncludesCsrf, hs, hdet]
  obtain ⟨c0, c2, w2, hgo, _, hc2, _, _, hclk, hlog, _, _⟩ :=
    apiClient_after_prime server config w e0 r1 hfresh h0 hm0 h1
  have hb : budget c2 < 2 := by
    unfold budget; rw [hc2]; cases c2._retry <;> simp
  obtain ⟨out, w', rest, heq, hlog', hp, hr, hsd, _⟩ := apiClient_trace server 2 c2 w2 hb
  rw [hc2] at hp
  have hp0 : primeCount rest = 0 := by simpa using hp
  have hr1 : refreshCount rest ≤ 1 := le_trans hr (by split <;> simp)
  have hrun : apiClient server (3 + k) config w = some (out, w') :=
    apiClient_fuel_add server 3 k config w (out, w') (by rw [hgo 1]; exact heq)
  refine ⟨out, w',
    [Event.send c0, Event.prime,
      Event.send (requestInterceptor w2.accessTokenMemory w2.cookie c2)] ++ rest,
    hrun, ?_, ?_, ?_, ?_, ?_⟩
  · rw [hlog', hlog]; simp
  · simp only [List.cons_append, List.nil_append, primeCount_cons, reduceCtorEq, if_false,
      if_true, Nat.add_zero]
    omega
  · simp only [List.cons_append, List.nil_append, refreshCount_cons, reduceCtorEq, if_false,
      Nat.add_zero]
    exact hr1
  · rw [sends_append]
    simp only [List.cons_append, List.nil_append, sends, List.length_cons, List.length_append,
      List.length_nil, refreshCount_cons, reduceCtorEq, if_false, Nat.add_zero]
    omega
  · intro e2 h2 hm2
    have h2' : (server w2.clock).outcome = .rejected e2 := by rw [hclk]; exact h2
    have hu2 : isUnauthorized e2 = false := by
      cases hu : isUnauthorized e2 with
      | false => rfl
      | true => rw [isUnauthorized_not_csrf e2 hu] at hm2; exact absurd hm2 (by decide)
    have hstop : apiClient server 2 c2 w2 =
        some (.rejected e2,
          (exchange server (.send (requestInterceptor w2.accessTokenMemory w2.cookie c2)) w2).2) := by
      rw [apiClient_rejected server 1 c2 w2 e2 h2']
      refine handler_propagates _ server e2 _ _
        (by rw [csrfTest_of_mismatch e2 hm2]; simp) ?_ (by rw [hu2]; rfl)
      rw [(requestInterceptor_flags w2.accessTokenMemory w2.cookie c2).2.1, hc2]
      simp
    rw [hstop] at heq
    have hout : out = .rejected e2 := by
      have := congrArg (fun o => o.map Prod.fst) heq
      simpa using this.symm
    have hw : w' = (exchange server
        (.send (requestInterceptor w2.accessTokenMemory w2.cookie c2)) w2).2 := by
      have := congrArg (fun o => o.map Prod.snd) heq
      simpa using this.symm
    have hrest : rest = [] := by
      rw [hw, exchange_log] at hlog'
      have := List.append_cancel_left hlog'
      simpa using this.symm
    refine ⟨hout, ?_, ?_⟩
    · rw [hrest]; rfl
    · rw [hrest]; rfl

/-- C3 amended, on `POST /tasks` answered by a 403 anti-forgery failure, a
priming call that succeeds, then the same failure again. -/
theorem one_priming_after_csrf_mismatch_witness :
    ∃ out w' evs,
      apiClient (script [replyCsrf, replyHealth, replyCsrf] replyTasks) (3 + 0)
          createTaskRequest freshWorld = some (out, w') ∧
      w'.log = freshWorld.log ++ evs ∧
      primeCount evs = 1 ∧ refreshCount evs ≤ 1 ∧
      ((sends evs).length = 2 ∨ ((sends evs).length = 3 ∧ refreshCount evs = 1)) ∧
      (∀ e2,
        (script [replyCsrf, replyHealth, replyCsrf] replyTasks
          (freshWorld.clock + 2)).outcome = .rejected e2 →
        isCsrfMismatch e2 = true →
        out = .rejected e2 ∧ (sends evs).length = 2 ∧ refreshCount evs = 0) :=
  one_priming_after_csrf_mismatch (script [replyCsrf, replyHealth, replyCsrf] replyTasks) 0
    createTaskRequest freshWorld _ "CSRF token missing" _ rfl rfl rfl (by decide) rfl

/-! ## C4: no token, no new `Authorization` -/

/-- C4, as stated, fails: with an empty store, a request that already carries
an `Authorization` header leaves the interceptor with that header. -/
theorem authorization_kept_without_token :
    getHeader (requestInterceptor .null "" populatedRequest).headers "Authorization"
      = some "Bearer t1" := by
  decide

/-- C4, amended: when the credential store holds no token (`null`), the
request interceptor leaves the `Authorization` header as it is in the incoming
configuration: absent when it was absent, kept when it was there. -/
theorem authorization_untouched_without_token (cookie : String) (config : Config) :
    getHeader (requestInterceptor .null cookie config).headers "Authorization"
      = getHeader config.headers "Authorization" :=
  requestInterceptor_authorization_falsy .null cookie config rfl

/-! ## C5: the bearer header -/

/-- C5, as stated, fails: the store holds the empty string and the outgoing
request keeps the `Authorization` value it came with. -/
theorem authorization_not_set_for_empty_token :
    getAccessToken (setAccessToken (.str "") .null) = (.str "", .str "") ∧
      getHeader (requestInterceptor (.str "") "" populatedRequest).headers "Authorization"
        = some "Bearer t1" ∧
      getHeader (requestInterceptor (.str "") "" getTasksRequest).headers "Authorization"
        = none := by
  decide

/-- C5, amended: for every non-empty token `t` in the credential store and
every request configuration, the outgoing request has `Authorization` equal to
`"Bearer " ++ t`, whatever `Authorization` value was there before. -/
theorem authorization_is_bearer_token (t cookie : String) (config : Config) (ht : t ≠ "") :
    getHeader (requestInterceptor (.str t) cookie config).headers "Authorization"
      = some ("Bearer " ++ t) := by
  have hd : (JsVal.str t).truthy = true := by
    cases hdata : t.data with
    | nil => exact absurd (String.ext hdata) ht
    | cons a l => simp [JsVal.truthy, hdata]
  exact requestInterceptor_authorization_truthy (.str t) cookie config hd

/-- C5 amended, at `t = "t2"` on a request that has another `Authorization`. -/
theorem authorization_is_bearer_token_witness :
    getHeader (requestInterceptor (.str "t2") "" populatedRequest).headers "Authorization"
      = some ("Bearer " ++ "t2") :=
  authorization_is_bearer_token "t2" "" populatedRequest (by decide)

/-! ## C6: the anti-forgery header on state-changing requests -/

/-- C6, as stated, fails: the method is `post`, the `XSRF-TOKEN` cookie is
there with an empty value, and the outgoing request has no `X-XSRF-TOKEN`
header at all. -/
theorem csrf_header_missing_for_empty_cookie :
    toLowerCase "POST" ∈ ["post", "put", "delete", "patch"] ∧
      getCookie "XSRF-TOKEN=" "XSRF-TOKEN" = some "" ∧
      getHeader (requestInterceptor .null "XSRF-TOKEN="
        { createTaskRequest with method := some "POST" }).headers "X-XSRF-TOKEN" = none := by
  decide

/-- C6, amended: for every request whose method, lowercased, is `post`, `put`,
`delete` or `patch`, and for which `getCookie('XSRF-TOKEN')` is a non-empty
string `v`, the outgoing `X-XSRF-TOKEN` header equals `v`. -/
theorem csrf_header_mirrors_cookie (tok : JsVal) (cookie m v : String) (config : Config)
    (hm : config.method = some m)
    (hl : toLowerCase m ∈ ["post", "put", "delete", "patch"])
    (hc : getCookie cookie "XSRF-TOKEN" = some v) (hv : v ≠ "") :
    getHeader (requestInterceptor tok cookie config).headers "X-XSRF-TOKEN" = some v := by
  have hs : stateChanging config.method = true := by
    unfold stateChanging
    rw [hm]
    simpa using hl
  exact requestInterceptor_csrf_set tok cookie config v hs hc hv

/-- C6 amended, at a `DELETE` with the cookie `XSRF-TOKEN=abc`. -/
theorem csrf_header_mirrors_cookie_witness :
    getHeader (requestInterceptor (.str "t1") "theme=dark; XSRF-TOKEN=abc"
      { createTaskRequest with method := some "DELETE" }).headers "X-XSRF-TOKEN" = some "abc" :=
  csrf_header_mirrors_cookie (.str "t1") "theme=dark; XSRF-TOKEN=abc" "DELETE" "abc"
    { createTaskRequest with method := some "DELETE" } rfl (by decide) (by decide) (by decide)

/-! ## C7: the anti-forgery header on read-only requests -/

/-- C7, as stated, fails: `GET /tasks` is read-only and its first send has no
`X-XSRF-TOKEN` header, yet the re-issue made by authentication recovery, and
the one made by anti-forgery recovery, carry the cookie value. -/
theorem csrf_header_on_read_only_reissue :
    stateChanging getTasksRequest.method = false ∧
      (apiClient (script [reply401, replyRefreshed, replyTasks] replyNetworkError) 3
          getTasksRequest { freshWorld with cookie := "XSRF-TOKEN=abc" }).map
        (fun res => (sends res.2.log).map (fun c => getHeader c.headers "X-XSRF-TOKEN"))
        = some [none, some "abc"] ∧
      (apiClient (script [replyCsrf, replyHealth, replyTasks] replyNetworkError) 3
          getTasksRequest freshWorld).map
        (fun res => (sends res.2.log).map (fun c => getHeader c.headers "X-XSRF-TOKEN"))
        = some [none, some "abc"] := by
  decide

/-- C7, amended: for a request with a read-only method the request interceptor
never sets the `X-XSRF-TOKEN` header, so the first send of a logical call
carries it exactly as the caller's configuration does, and every further send
is a re-issue that follows a priming or refresh call; on such a re-issue the
recovery code attaches the `XSRF-TOKEN` cookie value whenever it is non-empty,
whatever the method, and the interceptor leaves it there. -/
theorem csrf_header_read_only (server : Nat → Reply) (k : Nat) (config : Config) (w : World)
    (hro : stateChanging config.method = false) :
    (∀ tok cookie, getHeader (requestInterceptor tok cookie config).headers "X-XSRF-TOKEN"
        = getHeader config.headers "X-XSRF-TOKEN") ∧
      (∃ out w' c0 rest, apiClient server (3 + k) config w = some (out, w') ∧
        w'.log = w.log ++ Event.send c0 :: rest ∧
        getHeader c0.headers "X-XSRF-TOKEN" = getHeader config.headers "X-XSRF-TOKEN" ∧
        (sends rest).length ≤ primeCount rest + refreshCount rest) ∧
      (∀ tok cookie cookie' v, getCookie cookie "XSRF-TOKEN" = some v → v ≠ "" →
        getHeader (requestInterceptor tok cookie' (attachCsrf cookie config)).headers
          "X-XSRF-TOKEN" = some v) := by
  refine ⟨fun tok cookie => requestInterceptor_csrf_readOnly tok cookie config hro, ?_,
    fun tok cookie cookie' v hc hv => attachCsrf_csrf_readOnly tok cookie cookie' v config hro hc hv⟩
  obtain ⟨out, w', rest, heq, hlog, _, _, hs, _⟩ :=
    apiClient_trace server 3 config w (Nat.lt_succ_of_le (budget_le_two config))
  exact ⟨out, w', _, rest, apiClient_fuel_add server 3 k config w _ heq, hlog,
    requestInterceptor_csrf_readOnly _ _ config hro, hs⟩

/-- C7 amended, on `GET /tasks` with the cookie `XSRF-TOKEN=abc`. -/
theorem csrf_header_read_only_witness :
    getHeader (requestInterceptor (.str "t1") "XSRF-TOKEN=abc" getTasksRequest).headers
        "X-XSRF-TOKEN" = getHeader getTasksRequest.headers "X-XSRF-TOKEN" ∧
      getHeader (requestInterceptor (.str "t1") "XSRF-TOKEN=abc"
          (attachCsrf "XSRF-TOKEN=abc" getTasksRequest)).headers "X-XSRF-TOKEN" = some "abc" :=
  ⟨(csrf_header_read_only (script [] replyTasks) 0 getTasksRequest freshWorld (by decide)).1
      (.str "t1") "XSRF-TOKEN=abc",
    (csrf_header_read_only (script [] replyTasks) 0 getTasksRequest freshWorld (by decide)).2.2
      (.str "t1") "XSRF-TOKEN=abc" "XSRF-TOKEN=abc" "abc" (by decide) (by decide)⟩

/-! ## C8: the credential store -/

/-- C8: after `setAccessToken(t)`, `getAccessToken()` returns `t`; after
`clearAccessToken()`, `getAccessToken()` returns `null`, and it still does
after any further calls none of which is a `setAccessToken`; `getAccessToken`
leaves the stored value as it is. -/
theorem credential_store_contract (t m : JsVal) (ops : List StoreOp)
    (hops : ∀ op ∈ ops, op.isSet = false) :
    (getAccessToken (setAccessToken t m)).1 = t ∧
      (getAccessToken (clearAccessToken m)).1 = JsVal.null ∧
      (getAccessToken (runStore ops (clearAccessToken m))).1 = JsVal.null ∧
      (getAccessToken m).2 = m := by
  refine ⟨rfl, rfl, ?_, rfl⟩
  have key : ∀ (l : List StoreOp), (∀ op ∈ l, op.isSet = false) →
      runStore l JsVal.null = JsVal.null := by
    intro l
    induction l with
    | nil => intro _; rfl
    | cons op rest ih =>
      intro h
      have hop := h op (List.mem_cons_self _ _)
      have hrest : ∀ o ∈ rest, o.isSet = false := fun o ho => h o (List.mem_cons_of_mem _ ho)
      cases op with
      | set t => simp [StoreOp.isSet] at hop
      | get => simpa [runStore, StoreOp.apply, getAccessToken] using ih hrest
      | clear => simpa [runStore, StoreOp.apply, clearAccessToken] using ih hrest
  exact key ops hops

/-- C8, at a concrete trace: set, clear, then two reads and another clear. -/
theorem credential_store_contract_witness :
    (getAccessToken (setAccessToken (.str "t1") .null)).1 = .str "t1" ∧
      (getAccessToken (clearAccessToken (.str "t1"))).1 = JsVal.null ∧
      (getAccessToken (runStore [.get, .clear, .get] (clearAccessToken (.str "t1")))).1
        = JsVal.null ∧
      (getAccessToken (JsVal.str "t1")).2 = .str "t1" :=
  credential_store_contract (.str "t1") (.str "t1") [.get, .clear, .get] (by decide)

/-! ## C9: refresh, then success -/

/-- C9: the first response is a 401, the refresh call answers with the access
token `t2` and the re-issued request succeeds: the call resolves with the
response of the re-issued request, the credential store holds `t2`, and the
re-issued request carries `Authorization: Bearer t2`; one refresh call and one
re-issue are all that happens. -/
theorem refresh_then_retry_succeeds (server : Nat → Reply) (fuel : Nat) (config : Config)
    (w : World) (e0 : JsError) (d : Detail) (r1 r2 : Response) (t2 payload : String)
    (hfresh : config._retry = false)
    (h0 : (server w.clock).outcome = .rejected e0)
    (hs : e0.response = some { status := 401, detail := d })
    (h1 : (server (w.clock + 1)).outcome = .resolved r1)
    (hd : r1.data = .object (.str t2) payload)
    (h2 : (server (w.clock + 2)).outcome = .resolved r2) :
    ∃ w' c0 c1, apiClient server (fuel + 2) config w = some (.resolved r2, w') ∧
      (getAccessToken w'.accessTokenMemory).1 = .str t2 ∧
      w'.log = w.log ++ [Event.send c0, Event.refresh, Event.send c1] ∧
      getHeader c1.headers "Authorization" = some ("Bearer " ++ t2) := by
  obtain ⟨c0, c2, w2, hgo, _, _, _, _, hauth, hclk, hlog, htok, _⟩ :=
    apiClient_after_refresh server config w e0 r1 (.str t2) payload hfresh h0
      (unauthorized_of_status e0 d hs).1 h1 hd
  have h2' : (server w2.clock).outcome = .resolved r2 := by rw [hclk]; exact h2
  refine ⟨(exchange server (.send (requestInterceptor w2.accessTokenMemory w2.cookie c2)) w2).2,
    c0, requestInterceptor w2.accessTokenMemory w2.cookie c2, ?_, ?_, ?_, ?_⟩
  · rw [hgo fuel, apiClient_resolved server fuel c2 w2 r2 h2']
  · rw [exchange_token, htok]; rfl
  · rw [exchange_log, hlog]; simp
  · rw [htok]
    cases ht : (JsVal.str t2).truthy with
    | true => exact requestInterceptor_authorization_truthy _ _ _ ht
    | false =>
      rw [requestInterceptor_authorization_falsy _ _ _ ht]
      exact hauth

/-- C9, on `GET /tasks` answered by a 401, a refresh carrying `t2`, then the
tasks. -/
theorem refresh_then_retry_succeeds_witness :
    ∃ w' c0 c1,
      apiClient (script [reply401, replyRefreshed, replyTasks] replyNetworkError) (0 + 2)
          getTasksRequest freshWorld
        = some (.resolved { status := 200, data := .object .undefined "tasks" }, w') ∧
      (getAccessToken w'.accessTokenMemory).1 = .str "t2" ∧
      w'.log = freshWorld.log ++ [Event.send c0, Event.refresh, Event.send c1] ∧
      getHeader c1.headers "Authorization" = some ("Bearer " ++ "t2") :=
  refresh_then_retry_succeeds (script [reply401, replyRefreshed, replyTasks] replyNetworkError)
    0 getTasksRequest freshWorld _ (.str "Token expired") _ _ "t2" "" rfl rfl rfl rfl rfl rfl

/-! ## C10: refresh fails -/

/-- C10: the first response is a 401 and the refresh call fails: the call
rejects (with the refresh call's error), the credential store is cleared, and
nothing else goes on the wire: the trace is the original send, the refresh
call and, away from `/`, the redirect. -/
theorem refresh_failure_ends_session (server : Nat → Reply) (fuel : Nat) (config : Config)
    (w : World) (e0 e1 : JsError) (d : Detail)
    (hfresh : config._retry = false)
    (h0 : (server w.clock).outcome = .rejected e0)
    (hs : e0.response = some { status := 401, detail := d })
    (h1 : (server (w.clock + 1)).outcome = .rejected e1) :
    ∃ w' c0, apiClient server (fuel + 1) config w = some (.rejected e1, w') ∧
      (getAccessToken w'.accessTokenMemory).1 = JsVal.null ∧
      w'.log = w.log ++ [Event.send c0, Event.refresh] ++
        (if w.pathname ≠ "/" then [Event.redirect] else []) ∧
      w'.pathname = "/" := by
  obtain ⟨hr, hcs, _⟩ := requestInterceptor_flags w.accessTokenMemory w.cookie config
  obtain ⟨hu, hm⟩ := unauthorized_of_status e0 d hs
  have hstep : apiClient server (fuel + 1) config w =
      some (refreshFailed e1 (exchange server .refresh (exchange server
        (.send (requestInterceptor w.accessTokenMemory w.cookie config)) w).2).2) := by
    rw [apiClient_rejected server fuel config w e0 h0]
    exact handler_auth_refresh_failed _ server e0 e1 _ _ (by rw [hm]; rfl) hu
      (by rw [hr]; exact hfresh) h1
  refine ⟨_, requestInterceptor w.accessTokenMemory w.cookie config, hstep, ?_, ?_, ?_⟩
  · simp only [refreshFailed, exchange]
    split <;> rfl
  · simp only [refreshFailed, exchange]
    split <;> simp
  · simp only [refreshFailed, exchange]
    split
    · rfl
    · rename_i h
      simpa using h

/-- C10, on `GET /tasks` answered by a 401, then a refresh that fails. -/
theorem refresh_failure_ends_session_witness :
    ∃ w' c0,
      apiClient (script [reply401, reply401] replyTasks) (0 + 1) getTasksRequest
          { freshWorld with accessTokenMemory := .str "t1" }
        = some (reply401.outcome, w') ∧
      (getAccessToken w'.accessTokenMemory).1 = JsVal.null ∧
      w'.log = [] ++ [Event.send c0, Event.refresh] ++
        (if "/dashboard" ≠ "/" then [Event.redirect] else []) ∧
      w'.pathname = "/" :=
  refresh_failure_ends_session (script [reply401, reply401] replyTasks) 0 getTasksRequest
    { freshWorld with accessTokenMemory := .str "t1" } _ _ (.str "Token expired")
    rfl rfl rfl rfl

/-! ## C11: the session after a failed refresh -/

/-- C11, as stated, fails: at the entry point `/` a failed refresh triggers no
navigation, as when a login with wrong credentials is answered by a 401; and a
session that has an identity there keeps it, so `isAuthenticated` stays
true. -/
theorem no_navigation_at_entry_point :
    (request (script [replyBadCredentials, replyNoRefreshCookie] replyTasks) 3
        (loginRequest "alice" "wrong") loginPage).map
      (fun res => decide (Event.redirect ∈ res.2.world.log)) = some false ∧
    (request (script [reply401, replyNoRefreshCookie] replyTasks) 3 getTasksRequest
        { aliceDashboard with world := { aliceDashboard.world with pathname := "/" } }).map
      (fun res => (isAuthenticated res.2.auth, decide (Event.redirect ∈ res.2.world.log)))
      = some (true, false) := by
  decide

/-- C11, amended: when the refresh call fails during authentication recovery,
the credential store is cleared; away from `/`, navigation to `/` is triggered
and the page loaded with it has no identity (`isAuthenticated` is false); at
`/` already, no navigation is triggered and the identity is left as it was. -/
theorem refresh_failure_session (server : Nat → Reply) (fuel : Nat) (config : Config)
    (app : App) (e0 e1 : JsError) (d : Detail)
    (hfresh : config._retry = false)
    (h0 : (server app.world.clock).outcome = .rejected e0)
    (hs : e0.response = some { status := 401, detail := d })
    (h1 : (server (app.world.clock + 1)).outcome = .rejected e1) :
    ∃ app', request server (fuel + 1) config app = some (.rejected e1, app') ∧
      (getAccessToken app'.world.accessTokenMemory).1 = JsVal.null ∧
      app'.world.pathname = "/" ∧
      (app.world.pathname ≠ "/" →
        Event.redirect ∈ app'.world.log.drop app.world.log.length ∧
          app'.auth = AuthState.initial ∧ isAuthenticated app'.auth = false) ∧
      (app.world.pathname = "/" →
        Event.redirect ∉ app'.world.log.drop app.world.log.length ∧ app'.auth = app.auth) := by
  have hrun := apiClient_refresh_failed server fuel config app.world e0 e1 hfresh h0
    (unauthorized_of_status e0 d hs).1 h1
  obtain ⟨htok, _, _, hpath, hlog⟩ := refreshFailed_world e1
    (exchange server .refresh (exchange server
      (.send (requestInterceptor app.world.accessTokenMemory app.world.cookie config))
      app.world).2).2
  have hrun' : apiClient server (fuel + 1) config app.world =
      some (.rejected e1, (refreshFailed e1 (exchange server .refresh (exchange server
        (.send (requestInterceptor app.world.accessTokenMemory app.world.cookie config))
        app.world).2).2).2) := by
    rw [hrun]; rfl
  rw [exchange_log, exchange_log, exchange_pathname, exchange_pathname] at hlog
  generalize (refreshFailed e1 (exchange server .refresh (exchange server
      (.send (requestInterceptor app.world.accessTokenMemory app.world.cookie config))
      app.world).2).2).2 = w1 at htok hpath hlog hrun'
  have hdrop : w1.log.drop app.world.log.length =
      [Event.send (requestInterceptor app.world.accessTokenMemory app.world.cookie config),
        Event.refresh] ++ (if app.world.pathname ≠ "/" then [Event.redirect] else []) := by
    rw [hlog]
    simp only [List.append_assoc]
    exact List.drop_left _ _
  by_cases hp : app.world.pathname = "/"
  · have hmem : Event.redirect ∉ w1.log.drop app.world.log.length := by
      rw [hdrop]; simp [hp]
    refine ⟨{ app with world := w1 }, ?_, ?_, hpath, ?_, ?_⟩
    · unfold request
      rw [hrun']
      simp only [hmem, if_false]
    · exact congrArg (fun t => (getAccessToken t).1) htok
    · intro h; exact absurd hp h
    · intro _; exact ⟨hmem, rfl⟩
  · have hmem : Event.redirect ∈ w1.log.drop app.world.log.length := by
      rw [hdrop]; simp [hp]
    refine ⟨pageLoad { app with world := w1 }, ?_, rfl, rfl, ?_, ?_⟩
    · unfold request
      rw [hrun']
      simp only [hmem, if_true]
    · intro _; exact ⟨hmem, rfl, rfl⟩
    · intro h; exact absurd h hp

/-- C11 amended, on `GET /tasks` from the dashboard of `alice`, answered by a
401, then a refresh that fails. -/
theorem refresh_failure_session_witness :
    ∃ app', request (script [reply401, replyNoRefreshCookie] replyTasks) (0 + 1)
        getTasksRequest aliceDashboard = some (replyNoRefreshCookie.outcome, app') ∧
      (getAccessToken app'.world.accessTokenMemory).1 = JsVal.null ∧
      app'.world.pathname = "/" ∧
      (aliceDashboard.world.pathname ≠ "/" →
        Event.redirect ∈ app'.world.log.drop aliceDashboard.world.log.length ∧
          app'.auth = AuthState.initial ∧ isAuthenticated app'.auth = false) ∧
      (aliceDashboard.world.pathname = "/" →
        Event.redirect ∉ app'.world.log.drop aliceDashboard.world.log.length ∧
          app'.auth = aliceDashboard.auth) :=
  refresh_failure_session (script [reply401, replyNoRefreshCookie] replyTasks) 0
    getTasksRequest aliceDashboard _ _ (.str "Token expired") rfl rfl rfl rfl

/-! ## C12: every other failure propagates -/

/-- C12: a 403 whose detail is an object carries no `CSRF` payload, yet the
rejected handler does not reject with that error: `includes` is not a function
of an object, evaluating the first condition throws, and the handler, and the
call through `apiClient` after its one send, reject with the `TypeError`; no
priming call, no refresh call, no re-send, the store as it was. -/
theorem forbidden_object_detail_throws :
    (∃ e, replyForbiddenObject.outcome = .rejected e ∧
        isCsrfMismatch e = false ∧ isUnauthorized e = false ∧
        responseErrorHandler (fun _ _ => none) (script [] replyTasks) e populatedRequest
            { freshWorld with accessTokenMemory := .str "t1" }
          = some (.rejected typeError, { freshWorld with accessTokenMemory := .str "t1" }) ∧
        typeError ≠ e) ∧
      (apiClient (script [replyForbiddenObject] replyTasks) 1 getTasksRequest
          { freshWorld with accessTokenMemory := .str "t1" }).map
        (fun res => (res.1, res.2.accessTokenMemory, recoveries res.2.log,
          (sends res.2.log).length))
        = some (.rejected typeError, .str "t1", [], 1) :=
  ⟨⟨_, rfl, by decide, by decide, by decide, by decide⟩, by decide⟩

/-- Where the anti-forgery test can be evaluated (the failure has no response,
a status other than 403, or a 403 detail that is absent, a string or an
array), a failure that is neither a 403 anti-forgery mismatch with
`_csrfRetry` unset nor a 401 with `_retry` unset makes the rejected handler
reject with that same error in the same world: no priming call, no refresh
call, no re-send, the credential store as it was; a call through `apiClient`
whose first answer is such a failure rejects with it after its one send. -/
theorem other_failures_propagate (resend : Config → World → Option (Outcome × World))
    (server : Nat → Reply) (fuel : Nat) (e : JsError) (c : Config) (w : World)
    (ht : csrfTest e ≠ none)
    (hcsrf : ¬ (isCsrfMismatch e = true ∧ c._csrfRetry = false))
    (hauth : ¬ (isUnauthorized e = true ∧ c._retry = false)) :
    responseErrorHandler resend server e c w = some (.rejected e, w) ∧
      ((server w.clock).outcome = .rejected e →
        ∃ w' c0, apiClient server (fuel + 1) c w = some (.rejected e, w') ∧
          w'.log = w.log ++ [Event.send c0] ∧
          w'.accessTokenMemory = w.accessTokenMemory ∧ w'.pathname = w.pathname) := by
  have h1 : (isCsrfMismatch e && !c._csrfRetry) = false := by
    cases hm : isCsrfMismatch e <;> cases hc : c._csrfRetry <;> simp [hm, hc] at hcsrf ⊢
  have h2 : (isUnauthorized e && !c._retry) = false := by
    cases hu : isUnauthorized e <;> cases hc : c._retry <;> simp [hu, hc] at hauth ⊢
  refine ⟨handler_propagates resend server e c w ht h1 h2, fun h0 => ?_⟩
  exact ⟨_, requestInterceptor w.accessTokenMemory w.cookie c,
    apiClient_propagates server fuel c w e h0 ht h1 h2, rfl, rfl, rfl⟩

/-- The propagation on a network error (no response). -/
theorem other_failures_propagate_witness :
    responseErrorHandler (fun _ _ => none) (script [] replyTasks)
        { message := "Network Error", response := none } populatedRequest
        { freshWorld with accessTokenMemory := .str "t1" }
      = some (.rejected { message := "Network Error", response := none },
          { freshWorld with accessTokenMemory := .str "t1" }) :=
  (other_failures_propagate (fun _ _ => none) (script [] replyTasks) 0
    { message := "Network Error", response := none } populatedRequest
    { freshWorld with accessTokenMemory := .str "t1" } (by decide) (by decide) (by decide)).1

/-! ## C13: the order of the two recoveries -/

/-- C13, as stated, fails: a 401, a refresh, then a 403 anti-forgery failure on
the re-issue and a priming call: the refresh call comes before the priming
call. -/
theorem refresh_before_priming :
    (apiClient (script [reply401, replyRefreshed, replyCsrf, replyHealth, replyTasks]
        replyNetworkError) 3 getTasksRequest freshWorld).map
      (fun res => recoveries res.2.log) = some [Event.refresh, Event.prime] := by
  decide

/-- C13, amended: each run of the handler tests for the anti-forgery failure
before the 401, and over a logical call the recovery calls come in the order
of the failures that trigger them, each at most once: after a first failure
that is a 403 anti-forgery mismatch the priming call comes first and a refresh
call may follow; after a first failure that is a 401 the refresh call comes
first and a priming call may follow; after any other first failure there is
none. -/
theorem recoveries_follow_failures (server : Nat → Reply) (k : Nat) (config : Config)
    (w : World) (e0 : JsError)
    (hr : config._retry = false) (hc : config._csrfRetry = false)
    (h0 : (server w.clock).outcome = .rejected e0) :
    ∃ out w' evs, apiClient server (3 + k) config w = some (out, w') ∧
      w'.log = w.log ++ evs ∧
      (isCsrfMismatch e0 = true →
        recoveries evs = [Event.prime] ∨ recoveries evs = [Event.prime, Event.refresh]) ∧
      (isUnauthorized e0 = true →
        recoveries evs = [Event.refresh] ∨ recoveries evs = [Event.refresh, Event.prime]) ∧
      (isCsrfMismatch e0 = false → isUnauthorized e0 = false → recoveries evs = []) := by
  have hadd : ∀ res, apiClient server 3 config w = some res →
      apiClient server (3 + k) config w = some res :=
    fun res h => apiClient_fuel_add server 3 k config w res h
  cases hm : isCsrfMismatch e0 with
  | true =>
    have hu : isUnauthorized e0 = false := by
      cases hu : isUnauthorized e0 with
      | false => rfl
      | true => rw [isUnauthorized_not_csrf e0 hu] at hm; exact absurd hm (by decide)
    cases h1 : (server (w.clock + 1)).outcome with
    | rejected e1 =>
      have hrun : apiClient server 3 config w = some (.rejected e1,
          (exchange server .prime (exchange server
            (.send (requestInterceptor w.accessTokenMemory w.cookie config)) w).2).2) := by
        rw [apiClient_rejected server 2 config w e0 h0]
        exact handler_csrf_prime_failed _ server e0 e1 _ _ hm
          (by rw [(requestInterceptor_flags w.accessTokenMemory w.cookie config).2.1]; exact hc) h1
      refine ⟨_, _, [Event.send (requestInterceptor w.accessTokenMemory w.cookie config),
        Event.prime], hadd _ hrun, ?_, ?_, ?_, ?_⟩
      · simp [exchange]
      · intro _; left; rfl
      · intro h; rw [hu] at h; exact absurd h (by decide)
      · intro h; exact absurd h (by decide)
    | resolved r1 =>
      obtain ⟨c0, c2, w2, hgo, _, hc2, hr2, _, _, hlog, _, _⟩ :=
        apiClient_after_prime server config w e0 r1 hc h0 hm h1
      have hb : budget c2 < 2 := by
        unfold budget; rw [hc2]; cases c2._retry <;> simp
      obtain ⟨out, w', rest, heq, hlog', hp, hrf, _, _⟩ := apiClient_trace server 2 c2 w2 hb
      rw [hc2] at hp
      have hp0 : primeCount rest = 0 := by simpa using hp
      have hr1 : refreshCount rest ≤ 1 := le_trans hrf (by split <;> simp)
      refine ⟨out, w', [Event.send c0, Event.prime,
          Event.send (requestInterceptor w2.accessTokenMemory w2.cookie c2)] ++ rest,
        hadd _ (by rw [hgo 1]; exact heq), ?_, ?_, ?_, ?_⟩
      · rw [hlog', hlog]; simp
      · intro _
        rw [recoveries_append, recoveries_no_prime rest hp0]
        rcases Nat.le_one_iff_eq_zero_or_eq_one.mp hr1 with h | h
        · left; rw [h]; rfl
        · right; rw [h]; rfl
      · intro h; rw [hu] at h; exact absurd h (by decide)
      · intro h; exact absurd h (by decide)
  | false =>
    cases hu : isUnauthorized e0 with
    | false =>
      by_cases hth : csrfTest e0 = none
      · have hrun := apiClient_throws server 2 config w e0 h0 hth
        refine ⟨_, _, [Event.send (requestInterceptor w.accessTokenMemory w.cookie config)],
          hadd _ hrun, rfl, ?_, ?_, ?_⟩
        · intro h; exact absurd h (by decide)
        · intro h; exact absurd h (by decide)
        · intro _ _; rfl
      · have hrun := apiClient_propagates server 2 config w e0 h0 hth (by rw [hm]; rfl)
          (by rw [hu]; rfl)
        refine ⟨_, _, [Event.send (requestInterceptor w.accessTokenMemory w.cookie config)],
          hadd _ hrun, rfl, ?_, ?_, ?_⟩
        · intro h; exact absurd h (by decide)
        · intro h; exact absurd h (by decide)
        · intro _ _; rfl
    | true =>
      have hcm : (isCsrfMismatch e0 && !(requestInterceptor w.accessTokenMemory w.cookie
          config)._csrfRetry) = false := by rw [hm]; rfl
      have hrc : (requestInterceptor w.accessTokenMemory w.cookie config)._retry = false := by
        rw [(requestInterceptor_flags w.accessTokenMemory w.cookie config).1]; exact hr
      have hfailed : ∀ err : JsError,
          recoveries ([Event.send (requestInterceptor w.accessTokenMemory w.cookie config),
            Event.refresh] ++ (if w.pathname ≠ "/" then [Event.redirect] else []))
            = [Event.refresh] ∧
          (refreshFailed err (exchange server .refresh (exchange server
            (.send (requestInterceptor w.accessTokenMemory w.cookie config)) w).2).2).2.log =
            w.log ++ ([Event.send (requestInterceptor w.accessTokenMemory w.cookie config),
              Event.refresh] ++ (if w.pathname ≠ "/" then [Event.redirect] else [])) := by
        intro err
        refine ⟨by split <;> rfl, ?_⟩
        rw [(refreshFailed_world err _).2.2.2.2, exchange_log, exchange_log, exchange_pathname,
          exchange_pathname]
        simp
      cases h1 : (server (w.clock + 1)).outcome with
      | rejected e1 =>
        have hrun : apiClient server 3 config w = some (.rejected e1,
            (refreshFailed e1 (exchange server .refresh (exchange server
              (.send (requestInterceptor w.accessTokenMemory w.cookie config)) w).2).2).2) := by
          rw [apiClient_refresh_failed server 2 config w e0 e1 hr h0 hu h1]; rfl
        refine ⟨_, _, _, hadd _ hrun, (hfailed e1).2, ?_, ?_, ?_⟩
        · intro h; exact absurd h (by decide)
        · intro _; left; exact (hfailed e1).1
        · intro _ h; exact absurd h (by decide)
      | resolved r1 =>
        cases hd : r1.data with
        | nullish =>
          have hrun : apiClient server 3 config w = some (.rejected typeError,
              (refreshFailed typeError (exchange server .refresh (exchange server
                (.send (requestInterceptor w.accessTokenMemory w.cookie config)) w).2).2).2) := by
            rw [apiClient_rejected server 2 config w e0 h0,
              handler_auth_refresh_unreadable _ server e0 _ _ r1 hcm hu hrc h1 hd]
            rfl
          refine ⟨_, _, _, hadd _ hrun, (hfailed typeError).2, ?_, ?_, ?_⟩
          · intro h; exact absurd h (by decide)
          · intro _; left; exact (hfailed typeError).1
          · intro _ h; exact absurd h (by decide)
        | object tok payload =>
          obtain ⟨c0, c2, w2, hgo, _, hr2, _, _, _, _, hlog, _, _⟩ :=
            apiClient_after_refresh server config w e0 r1 tok payload hr h0 hu h1 hd
          have hb : budget c2 < 2 := by
            unfold budget; rw [hr2]; cases c2._csrfRetry <;> simp
          obtain ⟨out, w', rest, heq, hlog', hp, hrf, _, _⟩ := apiClient_trace server 2 c2 w2 hb
          rw [hr2] at hrf
          have hr0 : refreshCount rest = 0 := by simpa using hrf
          have hp1 : primeCount rest ≤ 1 := le_trans hp (by split <;> simp)
          refine ⟨out, w', [Event.send c0, Event.refresh,
              Event.send (requestInterceptor w2.accessTokenMemory w2.cookie c2)] ++ rest,
            hadd _ (by rw [hgo 1]; exact heq), ?_, ?_, ?_, ?_⟩
          · rw [hlog', hlog]; simp
          · intro h; exact absurd h (by decide)
          · intro _
            rw [recoveries_append, recoveries_no_refresh rest hr0]
            rcases Nat.le_one_iff_eq_zero_or_eq_one.mp hp1 with h | h
            · left; rw [h]; rfl
            · right; rw [h]; rfl
          · intro _ h; exact absurd h (by decide)

/-- C13 amended, on `POST /tasks` answered by a 403 anti-forgery failure, a
priming call, a 401, a refresh, then success. -/
theorem recoveries_follow_failures_witness :
    ∃ out w' evs,
      apiClient (script [replyCsrf, replyHealth, reply401, replyRefreshed, replyTasks]
          replyNetworkError) (3 + 0) createTaskRequest freshWorld = some (out, w') ∧
      w'.log = freshWorld.log ++ evs ∧
      (recoveries evs = [Event.prime] ∨ recoveries evs = [Event.prime, Event.refresh]) := by
  obtain ⟨out, w', evs, h1, h2, h3, _⟩ := recoveries_follow_failures
    (script [replyCsrf, replyHealth, reply401, replyRefreshed, replyTasks] replyNetworkError)
    0 createTaskRequest freshWorld _ rfl rfl rfl
  exact ⟨out, w', evs, h1, h2, h3 (by decide)⟩

/-! ## C14: login -/

/-- C14, as stated, fails: the login endpoint answers with the empty string as
access token; `login` resolves and stores it, and the next request carries no
`Authorization` header. -/
theorem login_with_empty_token :
    (login (script [replyLoggedInEmpty] replyTasks) 3 "alice" "Secret123!" loginPage).map
      (fun res => (res.1, res.2.world.accessTokenMemory, res.2.auth.user,
        getHeader (requestInterceptor res.2.world.accessTokenMemory res.2.world.cookie
          getTasksRequest).headers "Authorization"))
      = some (.fulfilled { success := true }, .str "", .str "alice", none) := by
  decide

/-- C14, amended: for every `u` and `p`, when the login endpoint answers with
the access token `t1`, `login(u, p)` resolves with `{ success: true }`, the
credential store holds `t1` and the identity is `u`; when `t1` is not empty,
the first send of every later call through the client carries
`Authorization: Bearer t1`. -/
theorem login_stores_token (server : Nat → Reply) (fuel : Nat) (u p : String) (app : App)
    (r : Response) (t1 payload : String)
    (h0 : (server app.world.clock).outcome = .resolved r)
    (hd : r.data = .object (.str t1) payload) :
    ∃ app', login server (fuel + 1) u p app = some (.fulfilled { success := true }, app') ∧
      (getAccessToken app'.world.accessTokenMemory).1 = .str t1 ∧
      app'.auth.user = .str u ∧
      (t1 ≠ "" → ∀ (server2 : Nat → Reply) (k : Nat) (config : Config),
        ∃ out w2 c0 rest, apiClient server2 (3 + k) config app'.world = some (out, w2) ∧
          w2.log = app'.world.log ++ Event.send c0 :: rest ∧
          getHeader c0.headers "Authorization" = some ("Bearer " ++ t1)) := by
  refine ⟨_, login_of_resolved server (fuel + 1) u p app r _ (.str t1) payload
    (apiClient_resolved server fuel (loginRequest u p) app.world r h0) hd, rfl, rfl, ?_⟩
  intro ht server2 k config
  have htruthy : (JsVal.str t1).truthy = true := by
    cases hdata : t1.data with
    | nil => exact absurd (String.ext hdata) ht
    | cons a l => simp [JsVal.truthy, hdata]
  obtain ⟨out, w2, rest, heq, hlog, _⟩ := apiClient_trace server2 3 config
    { (exchange server (.send (requestInterceptor app.world.accessTokenMemory app.world.cookie
        (loginRequest u p))) app.world).2 with accessTokenMemory := .str t1 }
    (Nat.lt_succ_of_le (budget_le_two config))
  exact ⟨out, w2, _, rest, apiClient_fuel_add server2 3 k config _ _ heq, hlog,
    requestInterceptor_authorization_truthy (.str t1) _ config htruthy⟩

/-- C14 amended, on `login("alice", "Secret123!")` answered with `t1`. -/
theorem login_stores_token_witness :
    ∃ app', login (script [replyLoggedIn] replyTasks) (0 + 1) "alice" "Secret123!" loginPage
        = some (.fulfilled { success := true }, app') ∧
      (getAccessToken app'.world.accessTokenMemory).1 = .str "t1" ∧
      app'.auth.user = .str "alice" ∧
      ("t1" ≠ "" → ∀ (server2 : Nat → Reply) (k : Nat) (config : Config),
        ∃ out w2 c0 rest, apiClient server2 (3 + k) config app'.world = some (out, w2) ∧
          w2.log = app'.world.log ++ Event.send c0 :: rest ∧
          getHeader c0.headers "Authorization" = some ("Bearer " ++ "t1")) :=
  login_stores_token (script [replyLoggedIn] replyTasks) 0 "alice" "Secret123!" loginPage
    _ "t1" "bearer" rfl rfl

/-! ## C15: logout -/

/-- C15: from every state, after `logout()` the credential store returns
`null`, the identity is `null` and `isAuthenticated` is false; `logout` makes no
network call (the clock and the log are as before) and leaves the rest of the
page alone. -/
theorem logout_clears_session (app : App) :
    (getAccessToken (logout app).world.accessTokenMemory).1 = JsVal.null ∧
      (logout app).auth.user = JsVal.null ∧
      isAuthenticated (logout app).auth = false ∧
      (logout app).world.clock = app.world.clock ∧
      (logout app).world.log = app.world.log ∧
      (logout app).world.cookie = app.world.cookie ∧
      (logout app).world.pathname = app.world.pathname :=
  ⟨rfl, rfl, rfl, rfl, rfl, rfl, rfl⟩

/-! ## C16: register -/

/-- C16, as stated, fails: the registration request is answered by a 401, the
refresh call succeeds with `t2`, and the re-issued registration is refused:
`register` rejects without calling the login endpoint, but the credential
store, empty before, now holds `t2`. -/
theorem failed_registration_changes_token :
    loginPage.world.accessTokenMemory = JsVal.null ∧
    (register (script [reply401, replyRefreshed, replyNameTaken] replyTasks) 3
        "bob" "Str0ng!Pw" loginPage).map
      (fun res => (res.1, res.2.world.accessTokenMemory, res.2.auth.user,
        (sends res.2.world.log).map (fun c => c.url)))
      = some (.rejected (newError "Username already registered"), .str "t2", .null,
          ["/auth/register", "/auth/register"]) := by
  decide

/-- C16, amended: `register(u, p)` first sends the registration request
(`POST /auth/register` with `name_user = u`, `password = p`); when that call
rejects, `register` rejects, the identity is unchanged, only the registration
endpoint was called, and the stored token is unchanged unless authentication
recovery made a refresh call on the way; when it resolves, `register` goes on
as `login(u, p)` and, when that succeeds, ends in the state `login` ends in;
and a successful `login(u, p)` always leaves the `access_token` of its
response in the store and `u` as identity. -/
theorem register_then_login (server : Nat → Reply) (k : Nat) (u p : String) (app : App) :
    (∃ out w1 c0 rest,
        apiClient server (3 + k) (registerRequest u p) app.world = some (out, w1) ∧
        w1.log = app.world.log ++ Event.send c0 :: rest ∧
        c0.url = "/auth/register" ∧ c0.method = some "post" ∧
        c0.data = fieldsText [("name_user", u), ("password", p)]) ∧
      (∀ e w1, apiClient server (3 + k) (registerRequest u p) app.world
          = some (.rejected e, w1) →
        register server (3 + k) u p app =
            some (.rejected (newError (detailOr e "Errore durante la registrazione")),
              { app with world := w1 }) ∧
          ∃ evs, w1.log = app.world.log ++ evs ∧
            (∀ c ∈ sends evs, c.url = "/auth/register") ∧
            (refreshCount evs = 0 → w1.accessTokenMemory = app.world.accessTokenMemory)) ∧
      (∀ r1 w1 app', apiClient server (3 + k) (registerRequest u p) app.world
          = some (.resolved r1, w1) →
        login server (3 + k) u p { app with world := w1 }
          = some (.fulfilled { success := true }, app') →
        register server (3 + k) u p app = some (.fulfilled { success := true }, app')) ∧
      (∀ (server0 : Nat → Reply) (fuel0 : Nat) (app0 app1 : App) (s : Success),
        login server0 fuel0 u p app0 = some (.fulfilled s, app1) →
        ∃ r2 tok payload w2,
          apiClient server0 fuel0 (loginRequest u p) app0.world = some (.resolved r2, w2) ∧
            r2.data = .object tok payload ∧
            app1.world.accessTokenMemory = tok ∧ app1.auth.user = .str u) := by
  refine ⟨?_, ?_, ?_, ?_⟩
  · obtain ⟨out, w1, rest, heq, hlog, _⟩ := apiClient_trace server 3 (registerRequest u p)
      app.world (Nat.lt_succ_of_le (budget_le_two _))
    obtain ⟨hurl, hdata⟩ := requestInterceptor_url_data app.world.accessTokenMemory
      app.world.cookie (registerRequest u p)
    obtain ⟨_, _, hmeth⟩ := requestInterceptor_flags app.world.accessTokenMemory
      app.world.cookie (registerRequest u p)
    exact ⟨out, w1, _, rest, apiClient_fuel_add server 3 k _ _ _ heq, hlog, hurl, hmeth, hdata⟩
  · intro e w1 h
    refine ⟨register_of_rejected server (3 + k) u p app e w1 h, ?_⟩
    obtain ⟨evs, hlog, hsend, htok, _⟩ :=
      apiClient_frame server (3 + k) (registerRequest u p) app.world _ w1 h
    exact ⟨evs, hlog, fun c hc => (hsend c hc).1, htok⟩
  · intro r1 w1 app' h hl
    rw [register_of_resolved server (3 + k) u p app r1 w1 h, hl]
  · intro server0 fuel0 app0 app1 s h
    obtain ⟨r2, tok, payload, w2, hrun, hd, happ⟩ :=
      login_fulfilled_inv server0 fuel0 u p app0 app1 s h
    exact ⟨r2, tok, payload, w2, hrun, hd, by rw [happ], by rw [happ]⟩

/-- C16 amended, on `register("bob", "Str0ng!Pw")` answered by the created user
and then the token `t1`. -/
theorem register_then_login_witness :
    ∃ app', register (script [replyRegistered, replyLoggedIn] replyTasks) (3 + 0) "bob"
        "Str0ng!Pw" loginPage = some (.fulfilled { success := true }, app') ∧
      app'.world.accessTokenMemory = .str "t1" ∧ app'.auth.user = .str "bob" := by
  have hreg := apiClient_resolved (script [replyRegistered, replyLoggedIn] replyTasks) 2
    (registerRequest "bob" "Str0ng!Pw") loginPage.world
    { status := 201, data := .object .undefined "bob" } rfl
  have hlog := apiClient_resolved (script [replyRegistered, replyLoggedIn] replyTasks) 2
    (loginRequest "bob" "Str0ng!Pw")
    (exchange (script [replyRegistered, replyLoggedIn] replyTasks)
      (.send (requestInterceptor loginPage.world.accessTokenMemory loginPage.world.cookie
        (registerRequest "bob" "Str0ng!Pw"))) loginPage.world).2
    { status := 200, data := .object (.str "t1") "bearer" } rfl
  have hlogin := login_of_resolved (script [replyRegistered, replyLoggedIn] replyTasks) (2 + 1)
    "bob" "Str0ng!Pw"
    { loginPage with world :=
        (exchange (script [replyRegistered, replyLoggedIn] replyTasks)
          (.send (requestInterceptor loginPage.world.accessTokenMemory loginPage.world.cookie
            (registerRequest "bob" "Str0ng!Pw"))) loginPage.world).2 }
    _ _ (.str "t1") "bearer" hlog rfl
  exact ⟨_, (register_then_login (script [replyRegistered, replyLoggedIn] replyTasks) 0 "bob"
    "Str0ng!Pw" loginPage).2.2.1 _ _ _ hreg hlogin, rfl, rfl⟩

/-! ## C17: a login that is refused -/

/-- C17, at the failing input: the login endpoint refuses the credentials with
a 401 whose detail is `Incorrect username or password`, the interceptor then
calls the refresh endpoint, which fails with the detail `Refresh token
missing`, and `login` rejects with that second detail as its message. -/
theorem login_reports_refresh_detail :
    (login (script [replyBadCredentials, replyNoRefreshCookie] replyTasks) 3
        "alice" "wrong" loginPage).map
      (fun res => (res.1, (sends res.2.world.log).map (fun c => c.url),
        refreshCount res.2.world.log))
      = some (.rejected (newError "Refresh token missing"), ["/auth/login"], 1) := by
  decide

/-! ## C18: `getCookie` -/

/-- C18: for every cookie string and every name, `getCookie` returns a string
or `null` and no step of it can throw: when the split gives two parts, `pop`,
the second split and `shift` all yield a string; in every other case the
result is `null`; and it is `null` when the cookie string has no pair with
that name, that is when `name=` occurs neither at its start nor right after a
`; `. -/
theorem getCookie_never_throws (cookie name : String) :
    ((jsSplit ("; ".data ++ cookie.data) ("; ".data ++ name.data ++ "=".data)).length = 2 →
        ∃ v, getCookie cookie name = some v) ∧
      ((jsSplit ("; ".data ++ cookie.data) ("; ".data ++ name.data ++ "=".data)).length ≠ 2 →
        getCookie cookie name = none) ∧
      (¬ ("; ".data ++ name.data ++ "=".data) <:+: ("; ".data ++ cookie.data) →
        getCookie cookie name = none) := by
  refine ⟨fun h => ?_, fun h => ?_, fun h => ?_⟩
  · unfold getCookie
    simp only [h, if_true]
    cases hl : (jsSplit ("; ".data ++ cookie.data)
        ("; ".data ++ name.data ++ "=".data)).getLast? with
    | none =>
      rw [List.getLast?_eq_none_iff] at hl
      rw [hl] at h
      simp at h
    | some last =>
      simp only []
      cases hh : (jsSplit last [';']).head? with
      | none =>
        rw [List.head?_eq_none_iff] at hh
        exact absurd hh (jsSplitGo_ne_nil [';'] last 0 [])
      | some v => exact ⟨String.mk v, rfl⟩
  · unfold getCookie
    simp only [h, if_false]
  · have hs : jsSplit ("; ".data ++ cookie.data) ("; ".data ++ name.data ++ "=".data) =
        [[].reverse ++ ("; ".data ++ cookie.data)] := jsSplitGo_no_match _ _ [] h
    have hlen : (jsSplit ("; ".data ++ cookie.data)
        ("; ".data ++ name.data ++ "=".data)).length ≠ 2 := by
      rw [hs]; simp
    unfold getCookie
    simp only [hlen, if_false]

/-- C18, on a cookie string with no `XSRF-TOKEN` pair and on the empty one. -/
theorem getCookie_never_throws_witness :
    getCookie "theme=dark; MYXSRF-TOKEN=1" "XSRF-TOKEN" = none ∧
      getCookie "" "XSRF-TOKEN" = none :=
  ⟨(getCookie_never_throws "theme=dark; MYXSRF-TOKEN=1" "XSRF-TOKEN").2.2 (by decide),
    (getCookie_never_throws "" "XSRF-TOKEN").2.1 (by decide)⟩

/-! ## C19: where the access token goes -/

/-- C19: the access token lives in `accessTokenMemory` and leaves the page only
in the `Authorization` header.  Every header but `Authorization`, and the url,
method and body of an outgoing request, are the same whatever the store holds;
a call through `apiClient`, recovery included, changes `document.cookie` only
when a reply sets a cookie; `login`, `register`, `logout`, start-up
initialization and a request made by a component leave `localStorage` and
`sessionStorage` as they were and write no cookie either. -/
theorem token_stays_in_memory :
    (∀ (tok tok' : JsVal) (cookie : String) (c : Config) (k : String), k ≠ "Authorization" →
        getHeader (requestInterceptor tok cookie c).headers k =
          getHeader (requestInterceptor tok' cookie c).headers k) ∧
      (∀ (tok : JsVal) (cookie : String) (c : Config),
        (requestInterceptor tok cookie c).url = c.url ∧
          (requestInterceptor tok cookie c).method = c.method ∧
          (requestInterceptor tok cookie c).data = c.data) ∧
      (∀ (server : Nat → Reply) (fuel : Nat) (c : Config) (w w' : World) (out : Outcome),
        apiClient server fuel c w = some (out, w') →
        (∀ n, (server n).setCookie = none) → w'.cookie = w.cookie) ∧
      (∀ (server : Nat → Reply) (fuel : Nat) (u p : String) (app app' : App)
          (res : Settled Success),
        login server fuel u p app = some (res, app') →
        app'.localStorage = app.localStorage ∧ app'.sessionStorage = app.sessionStorage ∧
          ((∀ n, (server n).setCookie = none) → app'.world.cookie = app.world.cookie)) ∧
      (∀ (server : Nat → Reply) (fuel : Nat) (u p : String) (app app' : App)
          (res : Settled Success),
        register server fuel u p app = some (res, app') →
        app'.localStorage = app.localStorage ∧ app'.sessionStorage = app.sessionStorage ∧
          ((∀ n, (server n).setCookie = none) → app'.world.cookie = app.world.cookie)) ∧
      (∀ app : App,
        (logout app).localStorage = app.localStorage ∧
          (logout app).sessionStorage = app.sessionStorage ∧
          (logout app).world.cookie = app.world.cookie) ∧
      (∀ (server : Nat → Reply) (app : App),
        (initializeAuth server app).2.localStorage = app.localStorage ∧
          (initializeAuth server app).2.sessionStorage = app.sessionStorage ∧
          ((∀ n, (server n).setCookie = none) →
            (initializeAuth server app).2.world.cookie = app.world.cookie)) ∧
      (∀ (server : Nat → Reply) (fuel : Nat) (c : Config) (app app' : App) (out : Outcome),
        request server fuel c app = some (out, app') →
        app'.localStorage = app.localStorage ∧ app'.sessionStorage = app.sessionStorage ∧
          ((∀ n, (server n).setCookie = none) → app'.world.cookie = app.world.cookie)) := by
  refine ⟨?_, ?_, ?_, ?_, ?_, ?_, ?_, ?_⟩
  · intro tok tok' cookie c k hk
    rw [requestInterceptor_header_other tok cookie c k hk,
      requestInterceptor_header_other tok' cookie c k hk]
  · intro tok cookie c
    exact ⟨(requestInterceptor_url_data tok cookie c).1,
      (requestInterceptor_flags tok cookie c).2.2, (requestInterceptor_url_data tok cookie c).2⟩
  · intro server fuel c w w' out h hck
    obtain ⟨_, _, _, _, hcookie⟩ := apiClient_frame server fuel c w out w' h
    exact hcookie hck
  · intro server fuel u p app app' res h
    exact login_frame server fuel u p app app' res h
  · intro server fuel u p app app' res h
    exact register_frame server fuel u p app app' res h
  · intro app
    exact ⟨rfl, rfl, rfl⟩
  · intro server app
    rw [initializeAuth_eq]
    exact ⟨rfl, rfl, fun hck => exchange_cookie server _ app.world hck⟩
  · intro server fuel c app app' out h
    unfold request at h
    cases hrun : apiClient server fuel c app.world with
    | none => simp [hrun] at h
    | some r =>
      obtain ⟨out1, w1⟩ := r
      obtain ⟨_, _, _, _, hcookie⟩ := apiClient_frame server fuel c app.world out1 w1 hrun
      simp only [hrun] at h
      split at h
      · simp only [Option.some.injEq, Prod.mk.injEq] at h
        obtain ⟨_, happ⟩ := h
        subst happ
        exact ⟨rfl, rfl, hcookie⟩
      · simp only [Option.some.injEq, Prod.mk.injEq] at h
        obtain ⟨_, happ⟩ := h
        subst happ
        exact ⟨rfl, rfl, hcookie⟩

/-- C19, on `POST /tasks` with and without a token in the store, and on the
logout of `alice`, whose page has a stored theme. -/
theorem token_stays_in_memory_witness :
    getHeader (requestInterceptor (.str "t1") "XSRF-TOKEN=abc" createTaskRequest).headers
        "X-XSRF-TOKEN"
      = getHeader (requestInterceptor .null "XSRF-TOKEN=abc" createTaskRequest).headers
        "X-XSRF-TOKEN" ∧
      (logout aliceDashboard).localStorage = aliceDashboard.localStorage :=
  ⟨token_stays_in_memory.1 (.str "t1") .null "XSRF-TOKEN=abc" createTaskRequest "X-XSRF-TOKEN"
      (by decide),
    (token_stays_in_memory.2.2.2.2.2.1 aliceDashboard).1⟩

/-! ## C20: start-up initialization -/

/-- C20, as stated, fails: the store holds the empty string when the check
runs, and the session is not authenticated after initialization. -/
theorem initialization_with_empty_token :
    (getAccessToken (JsVal.str "")).1 ≠ JsVal.null ∧
      isAuthenticated (initializeAuth (script [replyHealth] replyTasks)
        { loginPage with
          world := { loginPage.world with accessTokenMemory := .str "" },
          auth := AuthState.initial }).2.auth = false := by
  decide

/-- C20, amended: start-up initialization never rejects and always ends with
`loading` false, whether the priming call succeeds or fails; starting from a
null identity, the session is authenticated afterwards if and only if the
credential store held a non-empty token when the check ran. -/
theorem initialization_ends_loading (server : Nat → Reply) (app : App) :
    (initializeAuth server app).1 = .fulfilled () ∧
      (initializeAuth server app).2.auth.loading = false ∧
      (app.auth.user = JsVal.null →
        (isAuthenticated (initializeAuth server app).2.auth = true ↔
          ∃ t, (getAccessToken app.world.accessTokenMemory).1 = .str t ∧ t ≠ "")) := by
  rw [initializeAuth_eq]
  refine ⟨rfl, rfl, fun hu => ?_⟩
  simp only [checkToken, isAuthenticated, exchange_token, getAccessToken]
  cases htok : app.world.accessTokenMemory with
  | null => simp [JsVal.truthy, hu]
  | undefined => simp [JsVal.truthy, hu]
  | str t =>
    by_cases ht : (JsVal.str t).truthy = true
    · simp only [ht, if_true]
      constructor
      · intro _; exact ⟨t, rfl, (str_truthy_iff t).mp ht⟩
      · intro _; rfl
    · simp only [ht, Bool.false_eq_true, if_false, hu]
      constructor
      · intro h; exact absurd h (by decide)
      · rintro ⟨t', ht', hne⟩
        cases ht'
        exact absurd ((str_truthy_iff t).mpr hne) ht

/-- C20 amended, on a page whose store holds `t1` and whose priming call
fails. -/
theorem initialization_ends_loading_witness :
    isAuthenticated (initializeAuth (script [replyNetworkError] replyTasks)
        { aliceDashboard with auth := AuthState.initial }).2.auth = true :=
  ((initialization_ends_loading (script [replyNetworkError] replyTasks)
    { aliceDashboard with auth := AuthState.initial }).2.2 rfl).mpr ⟨"t1", rfl, by decide⟩

/-! ## C21: what the request interceptor leaves alone -/

/-- C21: the request interceptor is a total function that changes nothing of a
request but the `Authorization` and `X-XSRF-TOKEN` headers: every other header
and the url, method, body and two markers of the result are the input's; and
when the store holds no token and the method is read-only or `getCookie`
returns `null`, the headers are returned as they came. -/
theorem requestInterceptor_frame (tok : JsVal) (cookie : String) (c : Config) :
    (∀ k, k ≠ "Authorization" → k ≠ "X-XSRF-TOKEN" →
        getHeader (requestInterceptor tok cookie c).headers k = getHeader c.headers k) ∧
      (requestInterceptor tok cookie c).url = c.url ∧
      (requestInterceptor tok cookie c).method = c.method ∧
      (requestInterceptor tok cookie c).data = c.data ∧
      (requestInterceptor tok cookie c)._retry = c._retry ∧
      (requestInterceptor tok cookie c)._csrfRetry = c._csrfRetry ∧
      (tok = JsVal.null →
        stateChanging c.method = false ∨ getCookie cookie "XSRF-TOKEN" = none →
        (requestInterceptor tok cookie c).headers = c.headers) := by
  obtain ⟨hr, hcs, hm⟩ := requestInterceptor_flags tok cookie c
  obtain ⟨hu, hd⟩ := requestInterceptor_url_data tok cookie c
  refine ⟨?_, hu, hm, hd, hr, hcs, ?_⟩
  · intro k hk hx
    have haux : getHeader (if tok.truthy = true then
        setHeader c.headers "Authorization" ("Bearer " ++ tok.toStr) else c.headers) k =
        getHeader c.headers k := by
      split
      · exact getHeader_setHeader_other _ _ _ _ hk
      · rfl
    rw [requestInterceptor_headers]
    cases getCookie cookie "XSRF-TOKEN" with
    | none => exact haux
    | some t =>
      simp only []
      split
      · rw [getHeader_setHeader_other _ _ _ _ hx]; exact haux
      · exact haux
  · intro htok hcases
    subst htok
    rw [requestInterceptor_headers]
    have hnull : JsVal.null.truthy = false := rfl
    simp only [hnull, Bool.false_eq_true, if_false]
    rcases hcases with hro | hck
    · cases getCookie cookie "XSRF-TOKEN" with
      | none => rfl
      | some t => simp [hro]
    · rw [hck]

/-- C21, on `GET /tasks` with a populated header, an empty store and a cookie. -/
theorem requestInterceptor_frame_witness :
    (requestInterceptor .null "XSRF-TOKEN=abc" populatedRequest).headers
      = populatedRequest.headers :=
  (requestInterceptor_frame .null "XSRF-TOKEN=abc" populatedRequest).2.2.2.2.2.2 rfl
    (Or.inl (by decide))

/-! ## C22: the two markers are independent -/

/-- C22: a call with both markers unset whose request is answered by a 403
anti-forgery mismatch, then (after a priming call that succeeds) by a 401, then
(after a refresh call that succeeds with a readable body) by a success,
resolves with that last response after exactly one priming call and one
refresh call; and the same with the 401 first and the anti-forgery mismatch
second. -/
theorem retry_markers_independent (server : Nat → Reply) (k : Nat) (config : Config)
    (w : World) (hr : config._retry = false) (hc : config._csrfRetry = false) :
    (∀ (e0 e2 : JsError) (r1 r3 r4 : Response) (tok : JsVal) (payload : String),
        (server w.clock).outcome = .rejected e0 → isCsrfMismatch e0 = true →
        (server (w.clock + 1)).outcome = .resolved r1 →
        (server (w.clock + 2)).outcome = .rejected e2 → isUnauthorized e2 = true →
        (server (w.clock + 3)).outcome = .resolved r3 → r3.data = .object tok payload →
        (server (w.clock + 4)).outcome = .resolved r4 →
        ∃ w' c0 c1 c2, apiClient server (3 + k) config w = some (.resolved r4, w') ∧
          w'.log = w.log ++ [Event.send c0, Event.prime, Event.send c1, Event.refresh,
            Event.send c2]) ∧
      (∀ (e0 e2 : JsError) (r1 r3 r4 : Response) (tok : JsVal) (payload : String),
        (server w.clock).outcome = .rejected e0 → isUnauthorized e0 = true →
        (server (w.clock + 1)).outcome = .resolved r1 → r1.data = .object tok payload →
        (server (w.clock + 2)).outcome = .rejected e2 → isCsrfMismatch e2 = true →
        (server (w.clock + 3)).outcome = .resolved r3 →
        (server (w.clock + 4)).outcome = .resolved r4 →
        ∃ w' c0 c1 c2, apiClient server (3 + k) config w = some (.resolved r4, w') ∧
          w'.log = w.log ++ [Event.send c0, Event.refresh, Event.send c1, Event.prime,
            Event.send c2]) := by
  constructor
  · intro e0 e2 r1 r3 r4 tok payload h0 hm0 h1 h2 hu2 h3 hd3 h4
    obtain ⟨c0, c2, w2, hgo, _, _, hr2, _, hclk, hlog, _, _⟩ :=
      apiClient_after_prime server config w e0 r1 hc h0 hm0 h1
    have h2' : (server w2.clock).outcome = .rejected e2 := by rw [hclk]; exact h2
    have h3' : (server (w2.clock + 1)).outcome = .resolved r3 := by rw [hclk]; exact h3
    obtain ⟨c1, c4, w4, hgo2, _, _, _, _, _, hclk2, hlog2, _, _⟩ :=
      apiClient_after_refresh server c2 w2 e2 r3 tok payload (by rw [hr2]; exact hr) h2' hu2
        h3' hd3
    have h4' : (server w4.clock).outcome = .resolved r4 := by rw [hclk2, hclk]; exact h4
    have hrun : apiClient server 3 config w = some (.resolved r4,
        (exchange server (.send (requestInterceptor w4.accessTokenMemory w4.cookie c4)) w4).2) := by
      rw [hgo 1, hgo2 0, apiClient_resolved server 0 c4 w4 r4 h4']
    refine ⟨_, c0, c1, requestInterceptor w4.accessTokenMemory w4.cookie c4,
      apiClient_fuel_add server 3 k config w _ hrun, ?_⟩
    rw [exchange_log, hlog2, hlog]; simp
  · intro e0 e2 r1 r3 r4 tok payload h0 hu0 h1 hd1 h2 hm2 h3 h4
    obtain ⟨c0, c2, w2, hgo, _, _, hcs2, _, _, hclk, hlog, _, _⟩ :=
      apiClient_after_refresh server config w e0 r1 tok payload hr h0 hu0 h1 hd1
    have h2' : (server w2.clock).outcome = .rejected e2 := by rw [hclk]; exact h2
    have h3' : (server (w2.clock + 1)).outcome = .resolved r3 := by rw [hclk]; exact h3
    obtain ⟨c1, c4, w4, hgo2, _, _, _, _, hclk2, hlog2, _, _⟩ :=
      apiClient_after_prime server c2 w2 e2 r3 (by rw [hcs2]; exact hc) h2' hm2 h3'
    have h4' : (server w4.clock).outcome = .resolved r4 := by rw [hclk2, hclk]; exact h4
    have hrun : apiClient server 3 config w = some (.resolved r4,
        (exchange server (.send (requestInterceptor w4.accessTokenMemory w4.cookie c4)) w4).2) := by
      rw [hgo 1, hgo2 0, apiClient_resolved server 0 c4 w4 r4 h4']
    refine ⟨_, c0, c1, requestInterceptor w4.accessTokenMemory w4.cookie c4,
      apiClient_fuel_add server 3 k config w _ hrun, ?_⟩
    rw [exchange_log, hlog2, hlog]; simp

/-- C22, on `POST /tasks` answered by a 403 anti-forgery mismatch, then a 401,
then the tasks. -/
theorem retry_markers_independent_witness :
    ∃ w' c0 c1 c2,
      apiClient (script [replyCsrf, replyHealth, reply401, replyRefreshed, replyTasks]
          replyNetworkError) (3 + 0) createTaskRequest freshWorld
        = some (replyTasks.outcome, w') ∧
      w'.log = freshWorld.log ++ [Event.send c0, Event.prime, Event.send c1, Event.refresh,
        Event.send c2] :=
  (retry_markers_independent
    (script [replyCsrf, replyHealth, reply401, replyRefreshed, replyTasks] replyNetworkError)
    0 createTaskRequest freshWorld rfl rfl).1 _ _ _ _ _ (.str "t2") "" rfl (by decide) rfl rfl
    (by decide) rfl rfl rfl

/-! ## C26: after a refresh that succeeded -/

/-- C26, as stated, fails: the refresh call succeeds with `t2`, the re-issued
request fails with a 403 anti-forgery mismatch, and the call does not reject
with that error: anti-forgery recovery re-issues the request once more and the
call resolves. -/
theorem reissue_failure_recovered :
    (apiClient (script [reply401, replyRefreshed, replyCsrf, replyHealth, replyTasks]
        replyNetworkError) 3 getTasksRequest freshWorld).map
      (fun res => (res.1, res.2.accessTokenMemory, (sends res.2.log).length))
      = some (replyTasks.outcome, .str "t2", 3) := by
  decide

/-- C26, amended: when the refresh call succeeds with the token `t2` and the
re-issued request then fails, with any error, the credential store holds `t2`
at the end, no redirect is made and the location is unchanged; where the
anti-forgery test can be evaluated on that error (it has no response, a status
other than 403, or a 403 detail that is absent, a string or an array), the call
rejects with the error of the re-issued request unless that error is a 403
anti-forgery mismatch with `_csrfRetry` unset, which starts anti-forgery
recovery. -/
theorem store_kept_after_refresh (server : Nat → Reply) (k : Nat) (config : Config)
    (w : World) (e0 e2 : JsError) (d : Detail) (r1 : Response) (t2 payload : String)
    (hfresh : config._retry = false)
    (h0 : (server w.clock).outcome = .rejected e0)
    (hs : e0.response = some { status := 401, detail := d })
    (h1 : (server (w.clock + 1)).outcome = .resolved r1)
    (hd : r1.data = .object (.str t2) payload)
    (h2 : (server (w.clock + 2)).outcome = .rejected e2) :
    ∃ out w' evs, apiClient server (3 + k) config w = some (out, w') ∧
      w'.log = w.log ++ evs ∧
      (getAccessToken w'.accessTokenMemory).1 = .str t2 ∧
      Event.redirect ∉ evs ∧ w'.pathname = w.pathname ∧
      (csrfTest e2 ≠ none → ¬ (isCsrfMismatch e2 = true ∧ config._csrfRetry = false) →
        out = .rejected e2 ∧ (sends evs).length = 2) := by
  obtain ⟨c0, c2, w2, hgo, _, hr2, hcs2, _, _, hclk, hlog, htok, hpath⟩ :=
    apiClient_after_refresh server config w e0 r1 (.str t2) payload hfresh h0
      (unauthorized_of_status e0 d hs).1 h1 hd
  have hb : budget c2 < 2 := by
    unfold budget; rw [hr2]; cases c2._csrfRetry <;> simp
  obtain ⟨out, w', rest, heq, _⟩ := apiClient_trace server 2 c2 w2 hb
  obtain ⟨evs, hlog', hred, _, htok', hpath'⟩ :=
    apiClient_retry_used server 2 c2 w2 out w' hr2 heq
  have hrun : apiClient server (3 + k) config w = some (out, w') :=
    apiClient_fuel_add server 3 k config w (out, w') (by rw [hgo 1]; exact heq)
  refine ⟨out, w', [Event.send c0, Event.refresh] ++ evs, hrun, ?_, ?_, ?_, ?_, ?_⟩
  · rw [hlog', hlog]; simp
  · rw [htok', htok]; rfl
  · simpa using hred
  · rw [hpath', hpath]
  · intro hth hne
    have h2' : (server w2.clock).outcome = .rejected e2 := by rw [hclk]; exact h2
    have hstop := apiClient_propagates server 1 c2 w2 e2 h2' hth
      (by
        cases hm : isCsrfMismatch e2 <;> cases hcc : c2._csrfRetry <;> simp
        rw [hcs2] at hcc
        exact hne ⟨hm, hcc⟩)
      (by rw [hr2]; simp)
    rw [hstop] at heq
    have hout : out = .rejected e2 := by
      have := congrArg (fun o => o.map Prod.fst) heq
      simpa using this.symm
    have hw : w' = (exchange server
        (.send (requestInterceptor w2.accessTokenMemory w2.cookie c2)) w2).2 := by
      have := congrArg (fun o => o.map Prod.snd) heq
      simpa using this.symm
    have hevs : evs = [Event.send (requestInterceptor w2.accessTokenMemory w2.cookie c2)] := by
      rw [hw, exchange_log] at hlog'
      exact (List.append_cancel_left hlog').symm
    refine ⟨hout, ?_⟩
    rw [hevs]; rfl

/-- C26 amended, on `GET /tasks` answered by a 401, a refresh carrying `t2`,
then a network failure. -/
theorem store_kept_after_refresh_witness :
    ∃ out w' evs,
      apiClient (script [reply401, replyRefreshed, replyNetworkError] replyTasks) (3 + 0)
          getTasksRequest freshWorld = some (out, w') ∧
      w'.log = freshWorld.log ++ evs ∧
      (getAccessToken w'.accessTokenMemory).1 = .str "t2" ∧
      Event.redirect ∉ evs ∧ w'.pathname = freshWorld.pathname ∧
      out = replyNetworkError.outcome := by
  obtain ⟨out, w', evs, h1, h2, h3, h4, h5, h6⟩ := store_kept_after_refresh
    (script [reply401, replyRefreshed, replyNetworkError] replyTasks) 0 getTasksRequest
    freshWorld _ _ (.str "Token expired") _ "t2" "" rfl rfl rfl rfl rfl rfl
  exact ⟨out, w', evs, h1, h2, h3, h4, h5, (h6 (by decide) (by decide)).1⟩

/-! ## C27: a priming call that fails -/

/-- C27: when the priming call of anti-forgery recovery fails, the handler
rejects with the priming call's error, whatever re-sending would do (the
request is not re-issued), after the priming call alone: no refresh call, the
credential store as it was; and a call whose first answer is the 403
anti-forgery mismatch rejects with the priming error after one send and one
priming call. -/
theorem priming_failure_rejects (server : Nat → Reply) (fuel : Nat) (e0 e1 : JsError)
    (c : Config) (w : World)
    (hm : isCsrfMismatch e0 = true) (hc : c._csrfRetry = false) :
    ((server w.clock).outcome = .rejected e1 →
        ∃ w', (∀ resend, responseErrorHandler resend server e0 c w = some (.rejected e1, w')) ∧
          w'.log = w.log ++ [Event.prime] ∧
          w'.accessTokenMemory = w.accessTokenMemory ∧ w'.pathname = w.pathname) ∧
      ((server w.clock).outcome = .rejected e0 →
        (server (w.clock + 1)).outcome = .rejected e1 →
        ∃ w' c0, apiClient server (fuel + 1) c w = some (.rejected e1, w') ∧
          w'.log = w.log ++ [Event.send c0, Event.prime] ∧
          w'.accessTokenMemory = w.accessTokenMemory ∧ w'.pathname = w.pathname) := by
  constructor
  · intro h1
    exact ⟨(exchange server .prime w).2,
      fun resend => handler_csrf_prime_failed resend server e0 e1 c w hm hc h1, rfl, rfl, rfl⟩
  · intro h0 h1
    refine ⟨(exchange server .prime (exchange server
        (.send (requestInterceptor w.accessTokenMemory w.cookie c)) w).2).2,
      requestInterceptor w.accessTokenMemory w.cookie c, ?_, ?_, rfl, rfl⟩
    · rw [apiClient_rejected server fuel c w e0 h0]
      exact handler_csrf_prime_failed _ server e0 e1 _ _ hm
        (by rw [(requestInterceptor_flags w.accessTokenMemory w.cookie c).2.1]; exact hc) h1
    · simp [exchange]

/-- C27, on `POST /tasks` answered by a 403 anti-forgery mismatch, then a
priming call that fails on the network. -/
theorem priming_failure_rejects_witness :
    ∃ w' c0,
      apiClient (script [replyCsrf, replyNetworkError] replyTasks) (0 + 1) createTaskRequest
          { freshWorld with accessTokenMemory := .str "t1" }
        = some (replyNetworkError.outcome, w') ∧
      w'.log = [] ++ [Event.send c0, Event.prime] ∧
      w'.accessTokenMemory = .str "t1" ∧ w'.pathname = "/dashboard" :=
  (priming_failure_rejects (script [replyCsrf, replyNetworkError] replyTasks) 0 _ _
    createTaskRequest { freshWorld with accessTokenMemory := .str "t1" } (by decide) rfl).2
    rfl rfl

/-! ## C28: authentication recovery on the login request -/

/-- C28: when the login endpoint answers 401 and the refresh call then
succeeds with the token `t`, the login request is re-issued once; if it fails
again (with a 401, or any failure that is not an anti-forgery mismatch),
`login` rejects, the credential store holds `t` and the identity is what it
was: when it was unset, a token is in the store while `isAuthenticated` is
false. The message `login` rejects with is the one it makes of that second
failure, where the anti-forgery test can be evaluated on it. -/
theorem login_recovery_leaves_token (server : Nat → Reply) (fuel : Nat) (u p : String)
    (app : App) (e0 e2 : JsError) (d : Detail) (r1 : Response) (t payload : String)
    (h0 : (server app.world.clock).outcome = .rejected e0)
    (hs : e0.response = some { status := 401, detail := d })
    (h1 : (server (app.world.clock + 1)).outcome = .resolved r1)
    (hd : r1.data = .object (.str t) payload)
    (h2 : (server (app.world.clock + 2)).outcome = .rejected e2)
    (hm : isCsrfMismatch e2 = false) :
    ∃ app' c0 c1 message,
      login server (fuel + 2) u p app = some (.rejected (newError message), app') ∧
      (csrfTest e2 = some false → message = detailOr e2 "Errore durante il login") ∧
      app'.world.log = app.world.log ++ [Event.send c0, Event.refresh, Event.send c1] ∧
      c0.url = "/auth/login" ∧ c1.url = "/auth/login" ∧
      (getAccessToken app'.world.accessTokenMemory).1 = .str t ∧
      app'.auth = app.auth ∧
      (app.auth.user = JsVal.null → isAuthenticated app'.auth = false) := by
  obtain ⟨c0, c2, w2, hgo, hc0, hr2, _, _, _, hclk, hlog, htok, _⟩ :=
    apiClient_after_refresh server (loginRequest u p) app.world e0 r1 (.str t) payload rfl h0
      (unauthorized_of_status e0 d hs).1 h1 hd
  have h2' : (server w2.clock).outcome = .rejected e2 := by rw [hclk]; exact h2
  have hstop : ∃ e3, (csrfTest e2 = some false → e3 = e2) ∧
      apiClient server (fuel + 1) c2 w2 = some (.rejected e3,
        (exchange server (.send (requestInterceptor w2.accessTokenMemory w2.cookie c2))
          w2).2) := by
    by_cases hth : csrfTest e2 = none
    · exact ⟨typeError, fun h => by rw [hth] at h; exact absurd h (by simp),
        apiClient_throws server fuel c2 w2 e2 h2' hth⟩
    · exact ⟨e2, fun _ => rfl,
        apiClient_propagates server fuel c2 w2 e2 h2' hth (by rw [hm]; rfl)
          (by rw [hr2]; simp)⟩
  obtain ⟨e3, he3, hstop⟩ := hstop
  have hrun : apiClient server (fuel + 2) (loginRequest u p) app.world =
      some (.rejected e3,
        (exchange server (.send (requestInterceptor w2.accessTokenMemory w2.cookie c2)) w2).2) := by
    rw [hgo fuel, hstop]
  obtain ⟨evs, hlog2, hsend, _⟩ :=
    apiClient_frame server (fuel + 2) (loginRequest u p) app.world _ _ hrun
  have hevs : evs = [Event.send c0, Event.refresh,
      Event.send (requestInterceptor w2.accessTokenMemory w2.cookie c2)] := by
    rw [exchange_log, hlog, List.append_assoc] at hlog2
    exact (List.append_cancel_left hlog2).symm
  refine ⟨_, c0, requestInterceptor w2.accessTokenMemory w2.cookie c2, _,
    login_of_rejected server (fuel + 2) u p app e3 _ hrun, ?_, ?_, ?_, ?_, ?_, rfl, ?_⟩
  · intro h; rw [he3 h]
  · rw [exchange_log, hlog]; simp
  · rw [hc0]; exact (requestInterceptor_url_data _ _ _).1
  · exact (hsend _ (by rw [hevs]; simp [sends])).1
  · rw [exchange_token, htok]; rfl
  · intro hu
    simp [isAuthenticated, hu, JsVal.truthy]

/-- C28, on `login("alice", "wrong")` answered by a 401, a refresh carrying
`t2`, then a 401 again. -/
theorem login_recovery_leaves_token_witness :
    ∃ app' c0 c1,
      login (script [replyBadCredentials, replyRefreshed, replyBadCredentials] replyTasks)
          (0 + 2) "alice" "wrong" loginPage =
        some (.rejected (newError "Incorrect username or password"), app') ∧
      app'.world.log = loginPage.world.log ++ [Event.send c0, Event.refresh, Event.send c1] ∧
      c0.url = "/auth/login" ∧ c1.url = "/auth/login" ∧
      (getAccessToken app'.world.accessTokenMemory).1 = .str "t2" ∧
      app'.auth = loginPage.auth ∧
      (loginPage.auth.user = JsVal.null → isAuthenticated app'.auth = false) := by
  obtain ⟨app', c0, c1, message, h1, h2, h3⟩ := login_recovery_leaves_token
    (script [replyBadCredentials, replyRefreshed, replyBadCredentials] replyTasks) 0
    "alice" "wrong" loginPage _ _ (.str "Incorrect username or password") _ "t2" "" rfl rfl
    rfl rfl rfl (by decide)
  have hmsg : message = "Incorrect username or password" := (h2 (by decide)).trans (by decide)
  rw [hmsg] at h1
  exact ⟨app', c0, c1, h1, h3⟩

/-! ## C29: the message `register` rejects with -/

/-- C29, as stated, fails: the registration call fails with a response whose
detail is the empty string, and `register` rejects with the fixed message, not
with that detail. -/
theorem register_empty_detail :
    (register (script [replyRefusedEmptyDetail] replyTasks) 3 "bob" "Str0ng!Pw"
        loginPage).map Prod.fst
      = some (.rejected (newError "Errore durante la registrazione")) := by
  decide

/-- C29, amended: when the registration call succeeds but the login that
follows fails, `register` rejects with the message `Errore durante la
registrazione` exactly, whatever the login failure was; when the registration
call itself fails with a response whose detail is a non-empty `d`, `register`
rejects with the message `d`; when it fails with no response, or with a
response whose detail is missing or empty, `register` rejects with `Errore
durante la registrazione`. -/
theorem register_messages (server : Nat → Reply) (fuel : Nat) (u p : String) (app : App) :
    (∀ (r1 : Response) (w1 : World) (e : JsError) (app1 : App),
        apiClient server fuel (registerRequest u p) app.world = some (.resolved r1, w1) →
        login server fuel u p { app with world := w1 } = some (.rejected e, app1) →
        register server fuel u p app =
          some (.rejected (newError "Errore durante la registrazione"), app1)) ∧
      (∀ (e : JsError) (w1 : World) (status : Nat) (d : String),
        apiClient server fuel (registerRequest u p) app.world = some (.rejected e, w1) →
        e.response = some { status := status, detail := .str d } → d ≠ "" →
        register server fuel u p app =
          some (.rejected (newError d), { app with world := w1 })) ∧
      (∀ (e : JsError) (w1 : World),
        apiClient server fuel (registerRequest u p) app.world = some (.rejected e, w1) →
        (e.response = none ∨
          ∃ status, e.response = some { status := status, detail := .absent } ∨
            e.response = some { status := status, detail := .str "" }) →
        register server fuel u p app =
          some (.rejected (newError "Errore durante la registrazione"),
            { app with world := w1 })) := by
  refine ⟨?_, ?_, ?_⟩
  · intro r1 w1 e app1 hreg hlogin
    rw [register_of_resolved server fuel u p app r1 w1 hreg, hlogin]
    simp only []
    rw [detailOr_no_response e _ (login_rejected_inv server fuel u p _ app1 e hlogin)]
  · intro e w1 status d hreg hresp hd
    rw [register_of_rejected server fuel u p app e w1 hreg,
      detailOr_detail e _ d status hresp hd]
  · intro e w1 hreg hresp
    rw [register_of_rejected server fuel u p app e w1 hreg]
    rcases hresp with h | ⟨status, h | h⟩ <;> simp [detailOr, h]

/-- C29 amended, on `register("bob", "Str0ng!Pw")` refused because the name is
taken, and on a registration that succeeds while the login that follows fails
on the network. -/
theorem register_messages_witness :
    register (script [replyNameTaken] replyTasks) 3 "bob" "Str0ng!Pw" loginPage
      = some (.rejected (newError "Username already registered"),
          { loginPage with world :=
              (exchange (script [replyNameTaken] replyTasks)
                (.send (requestInterceptor loginPage.world.accessTokenMemory
                  loginPage.world.cookie (registerRequest "bob" "Str0ng!Pw")))
                loginPage.world).2 }) ∧
    (register (script [replyRegistered] replyNetworkError) 3 "bob" "Str0ng!Pw"
        loginPage).map Prod.fst
      = some (.rejected (newError "Errore durante la registrazione")) := by
  refine ⟨(register_messages (script [replyNameTaken] replyTasks) 3 "bob" "Str0ng!Pw"
      loginPage).2.1 _ _ 400 "Username already registered"
    (apiClient_propagates (script [replyNameTaken] replyTasks) 2
      (registerRequest "bob" "Str0ng!Pw") loginPage.world _ rfl (by decide) (by decide)
      (by decide))
    rfl (by decide), ?_⟩
  have h1 := apiClient_resolved (script [replyRegistered] replyNetworkError) 2
    (registerRequest "bob" "Str0ng!Pw") loginPage.world _ rfl
  have h2 := login_of_rejected (script [replyRegistered] replyNetworkError) 3 "bob" "Str0ng!Pw"
    { loginPage with world :=
        (exchange (script [replyRegistered] replyNetworkError)
          (.send (requestInterceptor loginPage.world.accessTokenMemory
            loginPage.world.cookie (registerRequest "bob" "Str0ng!Pw")))
          loginPage.world).2 } _ _
    (apiClient_propagates (script [replyRegistered] replyNetworkError) 2
      (loginRequest "bob" "Str0ng!Pw") _ _ rfl (by decide) (by decide) (by decide))
  rw [(register_messages (script [replyRegistered] replyNetworkError) 3 "bob" "Str0ng!Pw"
    loginPage).1 _ _ _ _ h1 h2]
  rfl

/-! ## C23: `getCookie` on a list of pairs -/

/-- C23: on the cookie string that lists `name=value` pairs separated by `; `,
names without `;` and `=` and values without `;`, and for a name without `=`,
`getCookie(name)` returns the value of the pair named `name` when exactly one
pair has that name, and `null` otherwise: when no pair has it, also if the
name of a pair ends with `name`, and when two or more pairs have it. -/
theorem getCookie_on_pairs (pairs : List (String × String)) (name : String)
    (hname : '=' ∉ name.data) (hpairs : CookiePairs pairs) :
    (∀ p, pairs.filter (fun q => decide (q.1 = name)) = [p] →
        getCookie (String.mk (cookieText pairs)) name = some p.2) ∧
      ((pairs.filter (fun q => decide (q.1 = name))).length ≠ 1 →
        getCookie (String.mk (cookieText pairs)) name = none) ∧
      ((∀ q ∈ pairs, q.1 ≠ name) →
        getCookie (String.mk (cookieText pairs)) name = none) := by
  have hnone : (pairs.filter (fun q => decide (q.1 = name))).length ≠ 1 →
      getCookie (String.mk (cookieText pairs)) name = none := by
    intro hlen
    cases pairs with
    | nil => exact getCookie_no_pairs name
    | cons p rest =>
      rw [getCookie_eq]
      show (if (jsSplitGo (';' :: ' ' :: (name.data ++ ['='])) 0 []
          (';' :: ' ' :: cookieText (p :: rest))).length = 2 then _ else _) = _
      rw [cookieBlocks_eq, jsSplitGo_blocks_length name hname _ _ hpairs]
      have : ¬ 1 + (List.filter (fun q => decide (q.1 = name)) (p :: rest)).length = 2 := by
        omega
      rw [if_neg this]
  refine ⟨?_, hnone, ?_⟩
  · intro p hf
    cases pairs with
    | nil => simp at hf
    | cons p0 rest =>
      have hmem : p ∈ (p0 :: rest).filter (fun q => decide (q.1 = name)) := by
        rw [hf]; simp
      have hvalue : ';' ∉ p.2.data := (hpairs p (List.mem_of_mem_filter hmem)).2
      obtain ⟨first, after, hsplit⟩ :=
        jsSplitGo_blocks_one name hname (p0 :: rest) [] p hpairs hf
      rw [getCookie_eq]
      show (if (jsSplitGo (';' :: ' ' :: (name.data ++ ['='])) 0 []
          (';' :: ' ' :: cookieText (p0 :: rest))).length = 2 then
          match (jsSplitGo (';' :: ' ' :: (name.data ++ ['='])) 0 []
            (';' :: ' ' :: cookieText (p0 :: rest))).getLast? with
          | some last => (jsSplitGo [';'] 0 [] last).head?.map String.mk
          | none => none
        else none) = _
      rw [cookieBlocks_eq, hsplit]
      simp [jsSplit_value_head p.2.data after hvalue]
  · intro hall
    apply hnone
    have : pairs.filter (fun q => decide (q.1 = name)) = [] := by
      rw [List.filter_eq_nil_iff]
      intro q hq
      simpa using hall q hq
    rw [this]
    simp

/-- C23, on a cookie string with one `XSRF-TOKEN` pair after a pair whose name
ends with `XSRF-TOKEN`, and on one with two `XSRF-TOKEN` pairs. -/
theorem getCookie_on_pairs_witness :
    getCookie "MYXSRF-TOKEN=1; XSRF-TOKEN=abc; theme=dark" "XSRF-TOKEN" = some "abc" ∧
      getCookie "XSRF-TOKEN=abc; theme=dark; XSRF-TOKEN=def" "XSRF-TOKEN" = none :=
  ⟨(getCookie_on_pairs [("MYXSRF-TOKEN", "1"), ("XSRF-TOKEN", "abc"), ("theme", "dark")]
      "XSRF-TOKEN" (by decide) (by decide)).1 ("XSRF-TOKEN", "abc") (by decide),
    (getCookie_on_pairs [("XSRF-TOKEN", "abc"), ("theme", "dark"), ("XSRF-TOKEN", "def")]
      "XSRF-TOKEN" (by decide) (by decide)).2.1 (by decide)⟩

/-! ## C24: password strength -/

/-- C24: `validatePasswordStrength(pwd)` is `null` exactly when `pwd` has at
least 8 characters (counted as `pwd.length` counts them, in UTF-16 code units)
and contains an uppercase ASCII letter, a lowercase ASCII letter, a digit and
one of the listed special characters; otherwise it is the message of the first
requirement that fails, in the order length, uppercase, lowercase, digit,
symbol; `Secret123!` and `Str0ng!Pw` give `null`. -/
theorem validatePasswordStrength_spec (pwd : String) :
    (validatePasswordStrength pwd = none ↔
        8 ≤ jsLength pwd ∧ (∃ c ∈ pwd.data, c.isUpper = true) ∧
          (∃ c ∈ pwd.data, c.isLower = true) ∧ (∃ c ∈ pwd.data, c.isDigit = true) ∧
          (∃ c ∈ pwd.data, c ∈ specialCharacters)) ∧
      (jsLength pwd < 8 →
        validatePasswordStrength pwd = some "La password deve contenere almeno 8 caratteri") ∧
      (8 ≤ jsLength pwd → (¬ ∃ c ∈ pwd.data, c.isUpper = true) →
        validatePasswordStrength pwd
          = some "La password deve contenere almeno una lettera maiuscola") ∧
      (8 ≤ jsLength pwd → (∃ c ∈ pwd.data, c.isUpper = true) →
        (¬ ∃ c ∈ pwd.data, c.isLower = true) →
        validatePasswordStrength pwd
          = some "La password deve contenere almeno una lettera minuscola") ∧
      (8 ≤ jsLength pwd → (∃ c ∈ pwd.data, c.isUpper = true) →
        (∃ c ∈ pwd.data, c.isLower = true) → (¬ ∃ c ∈ pwd.data, c.isDigit = true) →
        validatePasswordStrength pwd = some "La password deve contenere almeno un numero") ∧
      (8 ≤ jsLength pwd → (∃ c ∈ pwd.data, c.isUpper = true) →
        (∃ c ∈ pwd.data, c.isLower = true) → (∃ c ∈ pwd.data, c.isDigit = true) →
        (¬ ∃ c ∈ pwd.data, c ∈ specialCharacters) →
        validatePasswordStrength pwd = some
          "La password deve contenere almeno un carattere speciale (!@#$%^&*()_+-=[]\x7b\x7d|;:,.<>?)") ∧
      validatePasswordStrength "Secret123!" = none ∧
      validatePasswordStrength "Str0ng!Pw" = none := by
  have hU : pwd.data.any (fun c => decide ('A' ≤ c ∧ c ≤ 'Z')) = true ↔
      ∃ c ∈ pwd.data, c.isUpper = true := by
    rw [List.any_eq_true]
    constructor
    · rintro ⟨c, hc, h⟩; exact ⟨c, hc, by rw [← upper_class]; exact h⟩
    · rintro ⟨c, hc, h⟩; exact ⟨c, hc, by rw [upper_class]; exact h⟩
  have hL : pwd.data.any (fun c => decide ('a' ≤ c ∧ c ≤ 'z')) = true ↔
      ∃ c ∈ pwd.data, c.isLower = true := by
    rw [List.any_eq_true]
    constructor
    · rintro ⟨c, hc, h⟩; exact ⟨c, hc, by rw [← lower_class]; exact h⟩
    · rintro ⟨c, hc, h⟩; exact ⟨c, hc, by rw [lower_class]; exact h⟩
  have hD : pwd.data.any (fun c => decide ('0' ≤ c ∧ c ≤ '9')) = true ↔
      ∃ c ∈ pwd.data, c.isDigit = true := by
    rw [List.any_eq_true]
    constructor
    · rintro ⟨c, hc, h⟩; exact ⟨c, hc, by rw [← digit_class]; exact h⟩
    · rintro ⟨c, hc, h⟩; exact ⟨c, hc, by rw [digit_class]; exact h⟩
  have hS : pwd.data.any (fun c => specialCharacters.contains c) = true ↔
      ∃ c ∈ pwd.data, c ∈ specialCharacters := by
    rw [List.any_eq_true]
    constructor
    · rintro ⟨c, hc, h⟩; exact ⟨c, hc, by simpa using h⟩
    · rintro ⟨c, hc, h⟩; exact ⟨c, hc, by simpa using h⟩
  refine ⟨?_, ?_, ?_, ?_, ?_, ?_, by decide, by decide⟩
  · unfold validatePasswordStrength
    by_cases h8 : jsLength pwd < 8
    · simp only [h8, if_true]
      constructor
      · intro h; exact absurd h (by simp)
      · rintro ⟨h, _⟩; omega
    · have h8' : 8 ≤ jsLength pwd := by omega
      rw [← hU, ← hL, ← hD, ← hS]
      cases pwd.data.any (fun c => decide ('A' ≤ c ∧ c ≤ 'Z')) <;>
        cases pwd.data.any (fun c => decide ('a' ≤ c ∧ c ≤ 'z')) <;>
        cases pwd.data.any (fun c => decide ('0' ≤ c ∧ c ≤ '9')) <;>
        cases pwd.data.any (fun c => specialCharacters.contains c) <;>
        simp [h8, h8']
  · intro h8
    unfold validatePasswordStrength
    simp only [h8, if_true]
  · intro h8 hu
    rw [← hU, Bool.not_eq_true] at hu
    have h8' : ¬ jsLength pwd < 8 := by omega
    unfold validatePasswordStrength
    simp only [h8', hu, Bool.not_true, Bool.not_false, Bool.false_eq_true,
      eq_self_iff_true, if_true, if_false]
  · intro h8 hu hl
    rw [← hU] at hu
    rw [← hL, Bool.not_eq_true] at hl
    have h8' : ¬ jsLength pwd < 8 := by omega
    unfold validatePasswordStrength
    simp only [h8', hu, hl, Bool.not_true, Bool.not_false, Bool.false_eq_true,
      eq_self_iff_true, if_true, if_false]
  · intro h8 hu hl hd
    rw [← hU] at hu
    rw [← hL] at hl
    rw [← hD, Bool.not_eq_true] at hd
    have h8' : ¬ jsLength pwd < 8 := by omega
    unfold validatePasswordStrength
    simp only [h8', hu, hl, hd, Bool.not_true, Bool.not_false, Bool.false_eq_true,
      eq_self_iff_true, if_true, if_false]
  · intro h8 hu hl hd hs
    rw [← hU] at hu
    rw [← hL] at hl
    rw [← hD] at hd
    rw [← hS, Bool.not_eq_true] at hs
    have h8' : ¬ jsLength pwd < 8 := by omega
    unfold validatePasswordStrength
    simp only [h8', hu, hl, hd, hs, Bool.not_true, Bool.not_false, Bool.false_eq_true,
      eq_self_iff_true, if_true, if_false]

/-- C24, on a password without an uppercase letter. -/
theorem validatePasswordStrength_spec_witness :
    validatePasswordStrength "secret123!"
      = some "La password deve contenere almeno una lettera maiuscola" :=
  (validatePasswordStrength_spec "secret123!").2.2.1 (by decide) (by decide)

/-! ## C25: editing a task -/

/-- C25: when the update call succeeds with `u`, `editTask` returns `u` and
leaves the list with every task of the given id replaced by `u` and every
other task, the length and the order as they were (the list itself when no
task has that id); when the update call fails, it rethrows the same error and
leaves the list as it was. -/
theorem editTask_spec (tasks : List TaskItem) (taskId : String) (u : TaskItem)
    (err : JsError) :
    (editTask (.fulfilled u) taskId tasks).1 = .fulfilled u ∧
      (editTask (.fulfilled u) taskId tasks).2.length = tasks.length ∧
      (∀ i : Nat, (editTask (.fulfilled u) taskId tasks).2[i]? =
        (tasks[i]?).map (fun t => if t.id = taskId then u else t)) ∧
      ((∀ t ∈ tasks, t.id ≠ taskId) → (editTask (.fulfilled u) taskId tasks).2 = tasks) ∧
      editTask (.rejected err) taskId tasks = (.rejected err, tasks) := by
  refine ⟨rfl, ?_, ?_, ?_, rfl⟩
  · simp [editTask]
  · intro i
    simp [editTask]
  · intro h
    simp only [editTask]
    conv_rhs => rw [← List.map_id tasks]
    apply List.map_congr_left
    intro t ht
    simp [h t ht]

/-- C25, on a list where two tasks have the id that is edited. -/
theorem editTask_spec_witness :
    (editTask (.fulfilled { sampleTask with title := "Mercato" }) "7"
        [sampleTask, { sampleTask with id := "8" }, sampleTask]).2
      = [{ sampleTask with title := "Mercato" }, { sampleTask with id := "8" },
          { sampleTask with title := "Mercato" }] ∧
    (editTask (.fulfilled { sampleTask with title := "Mercato" }) "9"
        [sampleTask, { sampleTask with id := "8" }]).2
      = [sampleTask, { sampleTask with id := "8" }] :=
  ⟨by decide,
    (editTask_spec [sampleTask, { sampleTask with id := "8" }] "9"
      { sampleTask with title := "Mercato" } (newError "x")).2.2.2.1 (by decide)⟩

/-! ## C30: the payload of the task form -/

/-- C30: every payload `handleSubmit` passes to `onSave` has exactly one of
`end_time` and `duration_minutes` set: `end_time` when the duration mode is
off, `duration_minutes` when it is on; its title is the trimmed title of the
form, not empty (and trimming it again changes nothing), and its description
is not empty; and `onSave` is not called when the title is blank, the start
date is empty, or the field of the selected mode is empty. -/
theorem handleSubmit_payload {ν : Type} (toISOString : String → Option String)
    (toNumber : String → ν) (form : TaskForm) :
    (∀ payload, handleSubmit toISOString toNumber form = .save payload →
        (form.useDuration = false →
          payload.end_time ≠ none ∧ payload.duration_minutes = none) ∧
        (form.useDuration = true →
          payload.duration_minutes = some (toNumber form.durationMinutes) ∧
            payload.end_time = none) ∧
        payload.title = jsTrim form.title ∧ jsTrim payload.title = payload.title ∧
        payload.title ≠ "" ∧ payload.description ≠ "") ∧
      (jsTrim form.title = "" ∨ form.dateTime = "" ∨
          (form.useDuration = false ∧ form.endDateTime = "") ∨
          (form.useDuration = true ∧ form.durationMinutes = "") →
        ∃ message, handleSubmit toISOString toNumber form = .alert message) := by
  constructor
  · intro payload h
    unfold handleSubmit at h
    by_cases g1 : ((jsTrim form.title).data.isEmpty || form.dateTime.data.isEmpty) = true
    · simp [g1] at h
    · by_cases g2 : (!form.useDuration && form.endDateTime.data.isEmpty) = true
      · simp [g1, g2] at h
      · by_cases g3 : (form.useDuration && form.durationMinutes.data.isEmpty) = true
        · simp [g1, g2, g3] at h
        · simp only [g1, g2, g3, Bool.false_eq_true, if_false] at h
          have htitle : jsTrim form.title ≠ "" := by
            rw [string_ne_empty_iff]
            cases ht : (jsTrim form.title).data.isEmpty with
            | false => rfl
            | true => simp [ht] at g1
          have hdesc : (if (!form.description.data.isEmpty &&
              decide (jsLength (jsTrim form.description) > 0)) = true
              then jsTrim form.description else EMPTY_RICH_TEXT) ≠ "" := by
            split
            · rename_i hc
              simp only [Bool.and_eq_true, decide_eq_true_eq] at hc
              exact jsLength_pos _ hc.2
            · decide
          cases hdate : toISOString form.dateTime with
          | none => simp [hdate] at h
          | some date_time =>
            simp only [hdate] at h
            cases hmode : form.useDuration with
            | false =>
              have hend : form.endDateTime.data.isEmpty = false := by
                cases he : form.endDateTime.data.isEmpty with
                | false => rfl
                | true => simp [hmode, he] at g2
              simp only [hmode, hend, Bool.not_false, Bool.and_self, Bool.false_and,
                Bool.false_eq_true, if_true, if_false] at h
              cases hiso : toISOString form.endDateTime with
              | none => simp [hiso] at h
              | some end_time =>
                simp only [hiso, Submitted.save.injEq] at h
                subst h
                exact ⟨fun _ => ⟨by simp, rfl⟩, fun hc => absurd hc (by simp),
                  rfl, jsTrim_idem form.title, htitle, hdesc⟩
            | true =>
              have hdur : form.durationMinutes.data.isEmpty = false := by
                cases he : form.durationMinutes.data.isEmpty with
                | false => rfl
                | true => simp [hmode, he] at g3
              simp only [hmode, hdur, Bool.not_true, Bool.not_false, Bool.and_self,
                Bool.false_and, Bool.false_eq_true, if_true, if_false,
                Submitted.save.injEq] at h
              subst h
              exact ⟨fun hc => absurd hc (by simp), fun _ => ⟨rfl, rfl⟩,
                rfl, jsTrim_idem form.title, htitle, hdesc⟩
  · intro h
    unfold handleSubmit
    rcases h with h | h | ⟨hm, h⟩ | ⟨hm, h⟩
    · exact ⟨"Compila tutti i campi obbligatori", by simp [h]⟩
    · exact ⟨"Compila tutti i campi obbligatori", by simp [h]⟩
    · by_cases g1 : ((jsTrim form.title).data.isEmpty || form.dateTime.data.isEmpty) = true
      · exact ⟨"Compila tutti i campi obbligatori", by rw [if_pos g1]⟩
      · exact ⟨"Specifica una data/ora di fine oppure usa la durata.",
          by rw [if_neg g1]; simp [hm, h]⟩
    · by_cases g1 : ((jsTrim form.title).data.isEmpty || form.dateTime.data.isEmpty) = true
      · exact ⟨"Compila tutti i campi obbligatori", by rw [if_pos g1]⟩
      · exact ⟨"Inserisci una durata in minuti.", by rw [if_neg g1]; simp [hm, h]⟩

/-- C30, on a form in end-time mode and on the same form with a blank title. -/
theorem handleSubmit_payload_witness :
    (∃ message, handleSubmit (fun s => some (s ++ ":00.000Z")) String.length
        { sampleForm with title := "   " } = .alert message) ∧
      (∃ payload, handleSubmit (fun s => some (s ++ ":00.000Z")) String.length sampleForm
          = .save payload ∧ payload.title = "Spesa" ∧
        payload.end_time ≠ none ∧ payload.duration_minutes = none) := by
  refine ⟨(handleSubmit_payload (fun s => some (s ++ ":00.000Z")) String.length
      { sampleForm with title := "   " }).2 (Or.inl (by decide)), ?_⟩
  have hsave : handleSubmit (fun s => some (s ++ ":00.000Z")) String.length sampleForm
      = .save { title := "Spesa", description := EMPTY_RICH_TEXT, color := "green",
                date_time := "2025-01-10T09:00:00.000Z",
                end_time := some "2025-01-10T10:00:00.000Z",
                duration_minutes := none, completed := false } := by
    decide
  obtain ⟨hend, _, htitle, _⟩ :=
    (handleSubmit_payload (fun s => some (s ++ ":00.000Z")) String.length sampleForm).1 _ hsave
  exact ⟨_, hsave, htitle.trans (by decide), hend rfl⟩

end MyPlanner
